import Mathlib

/-!
# Sandboxie driver channel and driver-assist dispatch: a shallow embedding

Part I embeds `core/dll/sbieapi.c` (the driver channel `SbieApi_Ioctl` and the
encoders built on it).  Parts II to IV embed `core/svc/DriverAssist.cpp`: the
message handlers (with the log call of `sbieapi.c` that they use), then the port,
the listener threads and the message dispatch, then the SID lookup.  The
theorems follow the definitions.

Conventions
* `NTSTATUS` / `LONG` values are `Int` (the signed reading of the 32 bits).
* Handles and pointers are `Nat`/`Int` values; `NULL` is `0`.
* Every call that leaves the program (system call, driver request, library
  call) is recorded, with its result, in a chronological list of events.  The
  outside world is a record of reply functions that receive the whole history
  of events so far, so a reply may depend on everything that happened before:
  quantifying over that record is quantifying over every behaviour of the
  operating system and the driver.
-/

namespace Sandboxie

/-! ## Status codes (Windows `ntstatus.h`) -/

/-- Signed reading of a 32-bit status value written in hexadecimal. -/
def ntstatus (hex : Nat) : Int :=
  if hex % 4294967296 < 2147483648 then (hex % 4294967296 : Nat)
  else ((hex % 4294967296 : Nat) : Int) - 4294967296

def STATUS_SUCCESS : Int := 0
def STATUS_NO_SUCH_DEVICE : Int := ntstatus 0xC000000E
def STATUS_ACCESS_DENIED : Int := ntstatus 0xC0000022
def STATUS_OBJECT_NAME_NOT_FOUND : Int := ntstatus 0xC0000034
def STATUS_OBJECT_PATH_NOT_FOUND : Int := ntstatus 0xC000003A
def STATUS_SERVER_DISABLED : Int := ntstatus 0xC0000080

/-- The Windows macro `NT_SUCCESS(Status)`: `((NTSTATUS)(Status)) >= 0`. -/
def NT_SUCCESS (status : Int) : Bool := decide (0 ≤ status)

/-- The constant `INVALID_HANDLE_VALUE` is `(HANDLE)-1`. -/
def INVALID_HANDLE_VALUE : Int := -1

/-! ## Part I: `core/dll/sbieapi.c` -/

/-- The structure `UNICODE_STRING64`: a (current length, maximum length, buffer pointer) triple. -/
structure UNICODE_STRING64 where
  Length : Nat
  MaximumLength : Nat
  Buffer : Nat
  deriving DecidableEq, Repr

/-- One `ULONG64` slot of the call frame.  A slot holding the address of a local
`UNICODE_STRING64` of the encoder is represented by the contents of that local,
which is what the driver sees through the pointer; a slot holding the address of
another local of the encoder (an array or a variable) is represented by the
cells of that local. -/
inductive Slot where
  | val (v : Nat)
  | str (u : UNICODE_STRING64)
  | loc (cells : List Nat)
  deriving DecidableEq, Repr

/-- The array `ULONG64 parms[API_NUM_ARGS]`: the frame handed to the driver; `SbieApi_Ioctl`
passes `sizeof(ULONG64) * 8` bytes of it. -/
abbrev Frame := List Slot

/-- The frame after `memzero(parms, sizeof(parms))`. -/
def zeroFrame : Frame := List.replicate 8 (Slot.val 0)

/-- Caller-visible memory: the object stored at each address (`NULL` is address 0). -/
abbrev Mem := Nat → Nat

/-- Store through a pointer: `*p = v`. -/
def Mem.write (m : Mem) (p v : Nat) : Mem := Function.update m p v

/-- Calls that `sbieapi.c` makes into the operating system, with their results. -/
inductive SysCall where
  | NtOpenFile (status : Int) (handle : Int)
  | NtDeviceIoControlFile (handle : Int) (parms : Frame) (inputLength : Nat) (status : Int)
  | NtClose (handle : Int)
  deriving DecidableEq, Repr

/-- The operating system and the driver as seen from `sbieapi.c`. -/
structure Kernel where
  /-- Opening `API_DEVICE_NAME`: the status and the value left in `*FileHandle`. -/
  NtOpenFile : List SysCall → Int × Int
  /-- One request on the device handle: the status and the memory after the driver
  wrote its outputs through the pointers it was given. -/
  NtDeviceIoControlFile : List SysCall → Int → Frame → Mem → Int × Mem

/-- Process-wide state of `sbieapi.c` together with the caller's memory and the
calls made so far. -/
structure ApiState where
  SbieApi_DeviceHandle : Int
  mem : Mem
  calls : List SysCall

/-- Source function `SbieApi_Ioctl` (sbieapi.c:88). -/
def SbieApi_Ioctl (k : Kernel) (st : ApiState) (parms : Frame) : Int × ApiState :=
  let opened : Int × ApiState :=
    if st.SbieApi_DeviceHandle = INVALID_HANDLE_VALUE then
      let r := k.NtOpenFile st.calls
      let st1 : ApiState :=
        { st with SbieApi_DeviceHandle := r.2, calls := st.calls ++ [SysCall.NtOpenFile r.1 r.2] }
      if r.1 = STATUS_OBJECT_NAME_NOT_FOUND ∨ r.1 = STATUS_NO_SUCH_DEVICE then
        (STATUS_SERVER_DISABLED, st1)
      else
        (r.1, st1)
    else
      (STATUS_SUCCESS, st)
  let status := opened.1
  let st2 := opened.2
  if status ≠ STATUS_SUCCESS then
    (status, { st2 with SbieApi_DeviceHandle := INVALID_HANDLE_VALUE })
  else
    let r := k.NtDeviceIoControlFile st2.calls st2.SbieApi_DeviceHandle parms st2.mem
    (r.1, { st2 with
              mem := r.2,
              calls := st2.calls ++
                [SysCall.NtDeviceIoControlFile st2.SbieApi_DeviceHandle parms (8 * 8) r.1] })

/-- What one call in a sequence did: the status it returned, the system calls it
issued, and the value of `SbieApi_DeviceHandle` when it returned. -/
structure CallRecord where
  status : Int
  issued : List SysCall
  handleAfter : Int
  deriving DecidableEq, Repr

/-- A sequence of calls to `SbieApi_Ioctl`, one per frame, each starting in the
state the previous one left. -/
def SbieApi_Ioctl_calls (k : Kernel) : ApiState → List Frame → List CallRecord
  | _, [] => []
  | st, parms :: rest =>
    let r := SbieApi_Ioctl k st parms
    { status := r.1, issued := r.2.calls.drop st.calls.length,
      handleAfter := r.2.SbieApi_DeviceHandle } :: SbieApi_Ioctl_calls k r.2 rest

/-! ### Encoders with caller-visible output parameters

The argument structures (`API_..._ARGS`) and function codes are declared in
`core/drv/api_defs.h`.  An encoder views the frame through such a structure; the
slot index of each field is taken from a layout record, and the function code is
an argument, so that every result holds whatever that header declares. -/

/-- Slot indices of the fields of `API_QUERY_PROCESS_ARGS`. -/
structure API_QUERY_PROCESS_ARGS where
  func_code : Nat
  process_id : Nat
  box_name : Nat
  image_name : Nat
  sid_string : Nat
  session_id : Nat
  create_time : Nat

/-- Slot indices of the fields of `API_QUERY_PATH_LIST_ARGS`. -/
structure API_QUERY_PATH_LIST_ARGS where
  func_code : Nat
  path_code : Nat
  path_len : Nat
  path_str : Nat
  process_id : Nat

/-- Slot indices of the fields of `API_GET_MESSAGE_ARGS`. -/
structure API_GET_MESSAGE_ARGS where
  func_code : Nat
  msg_num : Nat
  session_id : Nat
  msgid : Nat
  msgtext : Nat

/-- Slot indices of the fields of `API_MONITOR_GET_EX_ARGS`. -/
structure API_MONITOR_GET_EX_ARGS where
  func_code : Nat
  name_seq : Nat
  name_type : Nat
  name_pid : Nat
  name_len : Nat
  name_ptr : Nat

/-- Slot indices of the fields of `API_QUERY_BOX_PATH_ARGS`. -/
structure API_QUERY_BOX_PATH_ARGS where
  func_code : Nat
  box_name : Nat
  file_path : Nat
  key_path : Nat
  ipc_path : Nat
  file_path_len : Nat
  key_path_len : Nat
  ipc_path_len : Nat

/-- The cast `(USHORT)x`. -/
def toUSHORT (x : Nat) : Nat := x % 65536

/-- The statement `if (p) *p = v;` -/
def Mem.writeIf (m : Mem) (p v : Nat) : Mem := if p ≠ 0 then m.write p v else m

/-- Source function `SbieApi_QueryProcessEx2` (sbieapi.c:525).  The pointer arguments are addresses
in caller memory, `0` for `NULL`. -/
def SbieApi_QueryProcessEx2 (API_QUERY_PROCESS : Nat) (L : API_QUERY_PROCESS_ARGS)
    (k : Kernel) (st : ApiState)
    (ProcessId image_name_len_in_wchars out_box_name_wchar34 out_image_name_wcharXXX
      out_sid_wchar96 out_session_id out_create_time : Nat) : Int × ApiState :=
  let parms := zeroFrame
  let parms := parms.set L.func_code (Slot.val API_QUERY_PROCESS)
  let parms := parms.set L.process_id (Slot.val ProcessId)
  let parms :=
    if out_box_name_wchar34 ≠ 0 then
      parms.set L.box_name (Slot.str
        { Length := 0, MaximumLength := toUSHORT (2 * 34), Buffer := out_box_name_wchar34 })
    else parms
  let parms :=
    if out_image_name_wcharXXX ≠ 0 then
      parms.set L.image_name (Slot.str
        { Length := 0, MaximumLength := toUSHORT (2 * image_name_len_in_wchars),
          Buffer := out_image_name_wcharXXX })
    else parms
  let parms :=
    if out_sid_wchar96 ≠ 0 then
      parms.set L.sid_string (Slot.str
        { Length := 0, MaximumLength := toUSHORT (2 * 96), Buffer := out_sid_wchar96 })
    else parms
  let parms :=
    if out_session_id ≠ 0 then parms.set L.session_id (Slot.val out_session_id) else parms
  let parms :=
    if out_create_time ≠ 0 then parms.set L.create_time (Slot.val out_create_time) else parms
  let r := SbieApi_Ioctl k st parms
  let status := r.1
  let st1 := r.2
  if ¬ NT_SUCCESS status then
    let x := out_session_id
    if x = 0 ∨ x > 4 then
      let mem := st1.mem.writeIf out_box_name_wchar34 0
      let mem := mem.writeIf out_image_name_wcharXXX 0
      let mem := mem.writeIf out_sid_wchar96 0
      let mem := mem.writeIf out_session_id 0
      (status, { st1 with mem := mem })
    else (status, st1)
  else (status, st1)

/-- Source function `SbieApi_QueryBoxPath` (sbieapi.c:636). -/
def SbieApi_QueryBoxPath (API_QUERY_BOX_PATH : Nat) (L : API_QUERY_BOX_PATH_ARGS)
    (k : Kernel) (st : ApiState)
    (box_name out_file_path out_key_path out_ipc_path
      inout_file_path_len inout_key_path_len inout_ipc_path_len : Nat) : Int × ApiState :=
  let parms := zeroFrame
  let parms := parms.set L.func_code (Slot.val API_QUERY_BOX_PATH)
  let parms := parms.set L.box_name (Slot.val box_name)
  let parms :=
    if out_file_path ≠ 0 then
      parms.set L.file_path (Slot.str
        { Length := 0, MaximumLength := toUSHORT (st.mem inout_file_path_len),
          Buffer := out_file_path })
    else parms
  let parms :=
    if out_key_path ≠ 0 then
      parms.set L.key_path (Slot.str
        { Length := 0, MaximumLength := toUSHORT (st.mem inout_key_path_len),
          Buffer := out_key_path })
    else parms
  let parms :=
    if out_ipc_path ≠ 0 then
      parms.set L.ipc_path (Slot.str
        { Length := 0, MaximumLength := toUSHORT (st.mem inout_ipc_path_len),
          Buffer := out_ipc_path })
    else parms
  let parms := parms.set L.file_path_len (Slot.val inout_file_path_len)
  let parms := parms.set L.key_path_len (Slot.val inout_key_path_len)
  let parms := parms.set L.ipc_path_len (Slot.val inout_ipc_path_len)
  let r := SbieApi_Ioctl k st parms
  let status := r.1
  let st1 := r.2
  if ¬ NT_SUCCESS status then
    let mem := st1.mem.writeIf out_file_path 0
    let mem := mem.writeIf out_key_path 0
    let mem := mem.writeIf out_ipc_path 0
    (status, { st1 with mem := mem })
  else (status, st1)

/-- Source function `SbieApi_QueryPathList` (sbieapi.c:768). -/
def SbieApi_QueryPathList (API_QUERY_PATH_LIST : Nat) (L : API_QUERY_PATH_LIST_ARGS)
    (k : Kernel) (st : ApiState) (path_code path_len path_str process_id : Nat) :
    Int × ApiState :=
  let parms := zeroFrame
  let parms := parms.set L.func_code (Slot.val API_QUERY_PATH_LIST)
  let parms := parms.set L.path_code (Slot.val path_code)
  let parms := parms.set L.path_len (Slot.val path_len)
  let parms := parms.set L.path_str (Slot.val path_str)
  let parms := parms.set L.process_id (Slot.val process_id)
  SbieApi_Ioctl k st parms

/-- Source function `SbieApi_GetMessage` (sbieapi.c:283). -/
def SbieApi_GetMessage (API_GET_MESSAGE : Nat) (L : API_GET_MESSAGE_ARGS)
    (k : Kernel) (st : ApiState) (MessageNum SessionId MessageId Buffer Length : Nat) :
    Int × ApiState :=
  let msgtext : UNICODE_STRING64 :=
    { MaximumLength := toUSHORT Length, Buffer := Buffer, Length := 0 }
  let parms := zeroFrame
  let parms := parms.set L.func_code (Slot.val API_GET_MESSAGE)
  let parms := parms.set L.msg_num (Slot.val MessageNum)
  let parms := parms.set L.session_id (Slot.val SessionId)
  let parms := parms.set L.msgid (Slot.val MessageId)
  let parms := parms.set L.msgtext (Slot.str msgtext)
  SbieApi_Ioctl k st parms

/-- Source function `SbieApi_MonitorGetEx` (sbieapi.c:1453).  The frame is not cleared: `stack` is
what the memory of `parms` held on entry (`Type_` is the parameter `Type`). -/
def SbieApi_MonitorGetEx (API_MONITOR_GET_EX : Nat) (L : API_MONITOR_GET_EX_ARGS)
    (k : Kernel) (st : ApiState) (stack : Frame) (SeqNum Type_ Pid Name : Nat) :
    Int × ApiState :=
  let parms := stack
  let parms := parms.set L.func_code (Slot.val API_MONITOR_GET_EX)
  let parms := parms.set L.name_seq (Slot.val SeqNum)
  let parms := parms.set L.name_type (Slot.val Type_)
  let parms := parms.set L.name_pid (Slot.val Pid)
  let parms := parms.set L.name_len (Slot.val (256 * 2))
  let parms := parms.set L.name_ptr (Slot.val Name)
  let r := SbieApi_Ioctl k st parms
  let status := r.1
  let st1 := r.2
  if ¬ NT_SUCCESS status then
    let mem := st1.mem.writeIf Type_ 0
    let mem := mem.writeIf Name 0
    (status, { st1 with mem := mem })
  else (status, st1)

/-! ### The generic calls and the encoders that do not clear the frame -/

/-- Source function `SbieApi_CallZero` (sbieapi.c:140); `API_UNLOAD_DRIVER` is the
function code of that name from `core/drv/api_defs.h`. -/
def SbieApi_CallZero (API_UNLOAD_DRIVER : Nat) (k : Kernel) (st : ApiState)
    (api_code : Nat) : Int × ApiState :=
  let parms := zeroFrame
  let parms := parms.set 0 (Slot.val api_code)
  let r := SbieApi_Ioctl k st parms
  let status := r.1
  let st1 := r.2
  if NT_SUCCESS status then
    if api_code = API_UNLOAD_DRIVER then
      (status, { st1 with
                   calls := st1.calls ++ [SysCall.NtClose st1.SbieApi_DeviceHandle],
                   SbieApi_DeviceHandle := INVALID_HANDLE_VALUE })
    else (status, st1)
  else (status, st1)

/-- Source function `SbieApi_CallOne` (sbieapi.c:165). -/
def SbieApi_CallOne (k : Kernel) (st : ApiState) (api_code arg : Nat) : Int × ApiState :=
  let parms := zeroFrame
  let parms := parms.set 0 (Slot.val api_code)
  let parms := parms.set 1 (Slot.val arg)
  SbieApi_Ioctl k st parms

/-- Source function `SbieApi_CallTwo` (sbieapi.c:184). -/
def SbieApi_CallTwo (k : Kernel) (st : ApiState) (api_code arg1 arg2 : Nat) : Int × ApiState :=
  let parms := zeroFrame
  let parms := parms.set 0 (Slot.val api_code)
  let parms := parms.set 1 (Slot.val arg1)
  let parms := parms.set 2 (Slot.val arg2)
  SbieApi_Ioctl k st parms

/-- Source function `SbieApi_CallThree` (sbieapi.c:204). -/
def SbieApi_CallThree (k : Kernel) (st : ApiState) (api_code arg1 arg2 arg3 : Nat) :
    Int × ApiState :=
  let parms := zeroFrame
  let parms := parms.set 0 (Slot.val api_code)
  let parms := parms.set 1 (Slot.val arg1)
  let parms := parms.set 2 (Slot.val arg2)
  let parms := parms.set 3 (Slot.val arg3)
  SbieApi_Ioctl k st parms

/-- The conversion `(ULONG64)(LONG_PTR)x` of a `ULONG`: the value itself where
pointers have 64 bits, its sign extension where they have 32 bits. -/
def ULONG_to_LONG_PTR_to_ULONG64 (ptr32 : Bool) (x : Nat) : Nat :=
  if ptr32 ∧ 2147483648 ≤ x % 4294967296 then
    x % 4294967296 + (18446744073709551616 - 4294967296)
  else x % 4294967296

/-- Source function `SbieApi_EnumProcessEx` (sbieapi.c:795).  The frame is not
cleared: `stack` is what the memory of `parms` held on entry. -/
def SbieApi_EnumProcessEx (API_ENUM_PROCESSES : Nat) (ptr32 : Bool) (k : Kernel)
    (st : ApiState) (stack : Frame) (box_name : Nat) (all_sessions : Bool)
    (which_session boxed_pids : Nat) : Int × ApiState :=
  let parms := stack
  let parms := parms.set 0 (Slot.val API_ENUM_PROCESSES)
  let parms := parms.set 1 (Slot.val boxed_pids)
  let parms := parms.set 2 (Slot.val box_name)
  let parms := parms.set 3 (Slot.val (if all_sessions then 1 else 0))
  let parms := parms.set 4 (Slot.val (ULONG_to_LONG_PTR_to_ULONG64 ptr32 which_session))
  let r := SbieApi_Ioctl k st parms
  let status := r.1
  let st1 := r.2
  if ¬ NT_SUCCESS status then
    (status, { st1 with mem := st1.mem.write boxed_pids 0 })
  else (status, st1)

/-- Source function `SbieApi_ReloadConf` (sbieapi.c:1191).  The frame is not
cleared: `stack` is what the memory of `parms` held on entry. -/
def SbieApi_ReloadConf (API_RELOAD_CONF : Nat) (k : Kernel) (st : ApiState) (stack : Frame)
    (session_id : Nat) : Int × ApiState :=
  let parms := stack
  let parms := parms.set 0 (Slot.val API_RELOAD_CONF)
  let parms := parms.set 1 (Slot.val session_id)
  SbieApi_Ioctl k st parms

/-- Slot indices of the fields of `API_GET_UNMOUNT_HIVE_ARGS`. -/
structure API_GET_UNMOUNT_HIVE_ARGS where
  func_code : Nat
  path : Nat

/-- Source function `SbieApi_GetUnmountHive` (sbieapi.c:1487).  The frame is not
cleared: `stack` is what the memory of `parms` held on entry. -/
def SbieApi_GetUnmountHive (API_GET_UNMOUNT_HIVE : Nat) (L : API_GET_UNMOUNT_HIVE_ARGS)
    (k : Kernel) (st : ApiState) (stack : Frame) (path : Nat) : Int × ApiState :=
  let parms := stack
  let parms := parms.set L.func_code (Slot.val API_GET_UNMOUNT_HIVE)
  let parms := parms.set L.path (Slot.val path)
  let r := SbieApi_Ioctl k st parms
  let status := r.1
  let st1 := r.2
  if ¬ NT_SUCCESS status then
    (status, { st1 with mem := st1.mem.writeIf path 0 })
  else (status, st1)

/-- The slots of a frame, other than those listed in `assigned`, that are not zero. -/
def nonZeroUnassigned (assigned : List Nat) (parms : Frame) : List Nat :=
  (List.range parms.length).filter fun i =>
    decide (i ∉ assigned) && decide (parms.getD i (Slot.val 0) ≠ Slot.val 0)

/-- The frames of the device-control requests in a list of calls. -/
def requestFrames (calls : List SysCall) : List Frame :=
  calls.filterMap fun c =>
    match c with
    | SysCall.NtDeviceIoControlFile _ parms _ _ => some parms
    | _ => none

/-- Stack memory left by earlier calls: eight slots holding 0xCCCCCCCCCCCCCCCC. -/
def dirtyStack : Frame := List.replicate 8 (Slot.val 0xCCCCCCCCCCCCCCCC)

/-- A machine on which the driver is loaded and accepts every request, writing
nothing. -/
def acceptingKernel : Kernel where
  NtOpenFile := fun _ => (STATUS_SUCCESS, 44)
  NtDeviceIoControlFile := fun _ _ _ m => (STATUS_SUCCESS, m)

/-- A machine on which opening the device is denied. -/
def deniedKernel : Kernel where
  NtOpenFile := fun _ => (STATUS_ACCESS_DENIED, 0)
  NtDeviceIoControlFile := fun _ _ _ m => (STATUS_SUCCESS, m)

/-- The state of the library with the device handle 44 held. -/
def heldState (mem : Mem) : ApiState :=
  { SbieApi_DeviceHandle := 44, mem := mem, calls := [] }

/-- A machine on which the driver is loaded but refuses every request with
STATUS_ACCESS_DENIED, writing nothing. -/
def refusingKernel : Kernel where
  NtOpenFile := fun _ => (STATUS_SUCCESS, 44)
  NtDeviceIoControlFile := fun _ _ _ m => (STATUS_ACCESS_DENIED, m)

/-- A machine on which the device does not exist. -/
def absentKernel : Kernel where
  NtOpenFile := fun _ => (STATUS_OBJECT_NAME_NOT_FOUND, -1)
  NtDeviceIoControlFile := fun _ _ _ m => (STATUS_SUCCESS, m)

/-- Caller memory holding stale data: the character 'A' at address 1000, the
length 8 at address 2000 and the value 7 at address 3000. -/
def staleMem : Mem := fun a => if a = 1000 then 65 else if a = 2000 then 8 else
  if a = 3000 then 7 else 0

/-- Initial state of the library: no handle held, nothing called yet. -/
def initialState (mem : Mem) : ApiState :=
  { SbieApi_DeviceHandle := INVALID_HANDLE_VALUE, mem := mem, calls := [] }

/-! ### Encoders that stage string descriptors, and the configuration queries -/

def STATUS_BUFFER_TOO_SMALL : Int := ntstatus 0xC0000023

/-- A terminated wide string in caller memory: its address and its characters in
front of the terminator. -/
structure WSTR where
  ptr : Nat
  chars : List Nat
  deriving DecidableEq, Repr

/-- The library function `wcslen`. -/
def wcslen (s : WSTR) : Nat := s.chars.length

/-- Slot indices of the fields of `API_GET_HOME_PATH_ARGS`. -/
structure API_GET_HOME_PATH_ARGS where
  func_code : Nat
  nt_path : Nat
  dos_path : Nat

/-- The frame built by `SbieApi_GetHomePath` (sbieapi.c:447-465).  The product
`NtPathMaxLen * sizeof(WCHAR)` is computed in `size_t`; its low 16 bits, which
the cast keeps, do not depend on the width of `size_t`. -/
def SbieApi_GetHomePath_parms (API_GET_HOME_PATH : Nat) (L : API_GET_HOME_PATH_ARGS)
    (NtPath NtPathMaxLen DosPath DosPathMaxLen : Nat) : Frame :=
  let nt_path_uni : UNICODE_STRING64 :=
    { Length := 0, MaximumLength := toUSHORT (NtPathMaxLen * 2), Buffer := NtPath }
  let dos_path_uni : UNICODE_STRING64 :=
    { Length := 0, MaximumLength := toUSHORT (DosPathMaxLen * 2), Buffer := DosPath }
  let parms := zeroFrame
  let parms := parms.set L.func_code (Slot.val API_GET_HOME_PATH)
  let parms := if NtPath ≠ 0 then parms.set L.nt_path (Slot.str nt_path_uni) else parms
  let parms := if DosPath ≠ 0 then parms.set L.dos_path (Slot.str dos_path_uni) else parms
  parms

/-- Source function `SbieApi_GetHomePath` (sbieapi.c:443). -/
def SbieApi_GetHomePath (API_GET_HOME_PATH : Nat) (L : API_GET_HOME_PATH_ARGS) (k : Kernel)
    (st : ApiState) (NtPath NtPathMaxLen DosPath DosPathMaxLen : Nat) : Int × ApiState :=
  let parms := SbieApi_GetHomePath_parms API_GET_HOME_PATH L NtPath NtPathMaxLen DosPath
    DosPathMaxLen
  let r := SbieApi_Ioctl k st parms
  let status := r.1
  let st1 := r.2
  if ¬ NT_SUCCESS status then
    let mem := st1.mem.writeIf NtPath 0
    let mem := mem.writeIf DosPath 0
    (status, { st1 with mem := mem })
  else (status, st1)

/-- The frame built by `SbieApi_QueryProcessEx2` (sbieapi.c:541-572), as in the
definition of that function above. -/
def SbieApi_QueryProcessEx2_parms (API_QUERY_PROCESS : Nat) (L : API_QUERY_PROCESS_ARGS)
    (ProcessId image_name_len_in_wchars out_box_name_wchar34 out_image_name_wcharXXX
      out_sid_wchar96 out_session_id out_create_time : Nat) : Frame :=
  let parms := zeroFrame
  let parms := parms.set L.func_code (Slot.val API_QUERY_PROCESS)
  let parms := parms.set L.process_id (Slot.val ProcessId)
  let parms :=
    if out_box_name_wchar34 ≠ 0 then
      parms.set L.box_name (Slot.str
        { Length := 0, MaximumLength := toUSHORT (2 * 34), Buffer := out_box_name_wchar34 })
    else parms
  let parms :=
    if out_image_name_wcharXXX ≠ 0 then
      parms.set L.image_name (Slot.str
        { Length := 0, MaximumLength := toUSHORT (2 * image_name_len_in_wchars),
          Buffer := out_image_name_wcharXXX })
    else parms
  let parms :=
    if out_sid_wchar96 ≠ 0 then
      parms.set L.sid_string (Slot.str
        { Length := 0, MaximumLength := toUSHORT (2 * 96), Buffer := out_sid_wchar96 })
    else parms
  let parms :=
    if out_session_id ≠ 0 then parms.set L.session_id (Slot.val out_session_id) else parms
  let parms :=
    if out_create_time ≠ 0 then parms.set L.create_time (Slot.val out_create_time) else parms
  parms

/-- The local array `WCHAR x[66]` after `memzero(x, sizeof(x))` and, for a non-NULL
source, `wcsncpy(x, s, 64)`: at most 64 characters of the source, then zeros. -/
def wcsncpy64 (s : Option WSTR) : List Nat :=
  match s with
  | none => List.replicate 66 0
  | some s => s.chars.take 64 ++ List.replicate (66 - (s.chars.take 64).length) 0

/-- The frame built by `SbieApi_QueryConf` (sbieapi.c:1217-1238).  The frame is not
cleared: `stack` is what the memory of `parms` held on entry. -/
def SbieApi_QueryConf_parms (API_QUERY_CONF : Nat) (stack : Frame)
    (section_name setting_name : Option WSTR) (setting_index out_buffer buffer_len : Nat) :
    Frame :=
  let x_section := wcsncpy64 section_name
  let x_setting := wcsncpy64 setting_name
  let Output : UNICODE_STRING64 :=
    { Length := 0, MaximumLength := toUSHORT buffer_len, Buffer := out_buffer }
  let parms := stack
  let parms := parms.set 0 (Slot.val API_QUERY_CONF)
  let parms := parms.set 1 (Slot.loc x_section)
  let parms := parms.set 2 (Slot.loc x_setting)
  let parms := parms.set 3 (Slot.loc [setting_index])
  let parms := parms.set 4 (Slot.str Output)
  parms

/-- Source function `SbieApi_QueryConf` (sbieapi.c:1209). -/
def SbieApi_QueryConf (API_QUERY_CONF : Nat) (k : Kernel) (st : ApiState) (stack : Frame)
    (section_name setting_name : Option WSTR) (setting_index out_buffer buffer_len : Nat) :
    Int × ApiState :=
  let parms := SbieApi_QueryConf_parms API_QUERY_CONF stack section_name setting_name
    setting_index out_buffer buffer_len
  let r := SbieApi_Ioctl k st parms
  let status := r.1
  let st1 := r.2
  if ¬ NT_SUCCESS status then
    if buffer_len > 2 then (status, { st1 with mem := st1.mem.write out_buffer 0 })
    else (status, st1)
  else (status, st1)

/-- Source function `SbieApi_QueryConfBool` (sbieapi.c:1254), with the macro
`SbieApi_QueryConfAsIs` (sbieapi.h:317) expanded.  `value` is the address of the
local array `WCHAR value[16]`, `def_` the parameter `def`; `CONF_GET_NO_EXPAND`
is the flag of that name, declared outside the sources at hand.  The result is
the `BOOLEAN` returned (`TRUE` is 1, `FALSE` is 0). -/
def SbieApi_QueryConfBool (API_QUERY_CONF CONF_GET_NO_EXPAND : Nat) (k : Kernel)
    (st : ApiState) (stack : Frame) (value : Nat) (section_name setting_name : Option WSTR)
    (def_ : Nat) : Nat × ApiState :=
  let st := { st with mem := st.mem.write value 0 }
  let r := SbieApi_QueryConf API_QUERY_CONF k st stack section_name setting_name
    (0 ||| CONF_GET_NO_EXPAND) value (2 * 16)
  let st := r.2
  if st.mem value = 'y'.toNat ∨ st.mem value = 'Y'.toNat then (1, st)
  else if st.mem value = 'n'.toNat ∨ st.mem value = 'N'.toNat then (0, st)
  else (def_, st)

/-- Slot indices of the fields of `API_IS_BOX_ENABLED_ARGS`. -/
structure API_IS_BOX_ENABLED_ARGS where
  func_code : Nat
  box_name : Nat

/-- Source function `SbieApi_IsBoxEnabled` (sbieapi.c:1543). -/
def SbieApi_IsBoxEnabled (API_IS_BOX_ENABLED : Nat) (L : API_IS_BOX_ENABLED_ARGS)
    (k : Kernel) (st : ApiState) (box_name : Nat) : Int × ApiState :=
  let parms := zeroFrame
  let parms := parms.set L.func_code (Slot.val API_IS_BOX_ENABLED)
  let parms := parms.set L.box_name (Slot.val box_name)
  SbieApi_Ioctl k st parms

/-- The conversion of a `LONG` to `ULONG`. -/
def LONG_to_ULONG (i : Int) : Nat := (i % 4294967296).toNat

/-- The value of a `LONG` after an arithmetic result `x` is stored in it: `x`
reduced to the 32-bit two's complement range. -/
def toLONG (x : Int) : Int := (x + 2147483648) % 4294967296 - 2147483648

/-- Source function `SbieApi_EnumBoxesEx` (sbieapi.c:1287).  The loop `while (1)`
has no bound: the first argument is the number of iterations the model may run,
and the result is `none` when they do not suffice.  The increment `++index` is
32-bit: at 2147483647 it yields -2147483648, as the file is built (sbieapi.c:32
turns optimisation off); the C language leaves that case undefined. -/
def SbieApi_EnumBoxesEx (API_QUERY_CONF CONF_GET_NO_EXPAND API_IS_BOX_ENABLED : Nat)
    (L : API_IS_BOX_ENABLED_ARGS) (k : Kernel) (stack : Frame) (box_name : Nat)
    (return_all_sections : Bool) : Nat → ApiState → Int → Option (Int × ApiState)
  | 0, _, _ => none
  | fuel + 1, st, index =>
    let index := toLONG (index + 1)
    let r := SbieApi_QueryConf API_QUERY_CONF k st stack none none
      (LONG_to_ULONG index ||| CONF_GET_NO_EXPAND) box_name (2 * 34)
    let rc := r.1
    let st := r.2
    if rc = STATUS_BUFFER_TOO_SMALL then
      SbieApi_EnumBoxesEx API_QUERY_CONF CONF_GET_NO_EXPAND API_IS_BOX_ENABLED L k stack
        box_name return_all_sections fuel st index
    else if st.mem box_name = 0 then some (-1, st)
    else if return_all_sections then some (index, st)
    else
      let e := SbieApi_IsBoxEnabled API_IS_BOX_ENABLED L k st box_name
      if e.1 = STATUS_SUCCESS then some (index, e.2)
      else
        SbieApi_EnumBoxesEx API_QUERY_CONF CONF_GET_NO_EXPAND API_IS_BOX_ENABLED L k stack
          box_name return_all_sections fuel e.2 index

/-- Source function `SbieApi_EnumBoxes` (sbieapi.c:1276). -/
def SbieApi_EnumBoxes (API_QUERY_CONF CONF_GET_NO_EXPAND API_IS_BOX_ENABLED : Nat)
    (L : API_IS_BOX_ENABLED_ARGS) (k : Kernel) (stack : Frame) (box_name : Nat)
    (fuel : Nat) (st : ApiState) (index : Int) : Option (Int × ApiState) :=
  SbieApi_EnumBoxesEx API_QUERY_CONF CONF_GET_NO_EXPAND API_IS_BOX_ENABLED L k stack box_name
    false fuel st index

/-- The descriptor that the encoders build for an input string `s`:
`Length = wcslen(s) * sizeof(WCHAR)` stored in a `USHORT`,
`MaximumLength = Length + sizeof(WCHAR)` stored in a `USHORT`. -/
def inputDescriptor (s : WSTR) : UNICODE_STRING64 :=
  let Length := toUSHORT (wcslen s * 2)
  { Length := Length, MaximumLength := toUSHORT (Length + 2), Buffer := s.ptr }

/-- Slot indices of the fields of `API_SET_USER_NAME_ARGS`. -/
structure API_SET_USER_NAME_ARGS where
  func_code : Nat
  sidstring : Nat
  username : Nat

/-- The frame built by `SbieApi_SetUserName` (sbieapi.c:1325-1336). -/
def SbieApi_SetUserName_parms (API_SET_USER_NAME : Nat) (L : API_SET_USER_NAME_ARGS)
    (SidString UserName : WSTR) : Frame :=
  let uni_sid := inputDescriptor SidString
  let uni_name := inputDescriptor UserName
  let parms := zeroFrame
  let parms := parms.set L.func_code (Slot.val API_SET_USER_NAME)
  let parms := parms.set L.sidstring (Slot.str uni_sid)
  let parms := parms.set L.username (Slot.str uni_name)
  parms

/-- Source function `SbieApi_SetUserName` (sbieapi.c:1315). -/
def SbieApi_SetUserName (API_SET_USER_NAME : Nat) (L : API_SET_USER_NAME_ARGS) (k : Kernel)
    (st : ApiState) (SidString UserName : WSTR) : Int × ApiState :=
  SbieApi_Ioctl k st (SbieApi_SetUserName_parms API_SET_USER_NAME L SidString UserName)

/-- Slot indices of the fields of `API_RENAME_FILE_ARGS`. -/
structure API_RENAME_FILE_ARGS where
  func_code : Nat
  file_handle : Nat
  target_dir : Nat
  target_name : Nat
  replace_if_exists : Nat

/-- The frame built by `SbieApi_RenameFile` (sbieapi.c:881-894). -/
def SbieApi_RenameFile_parms (API_RENAME_FILE : Nat) (L : API_RENAME_FILE_ARGS)
    (FileHandle : Nat) (TargetDir TargetName : WSTR) (ReplaceIfExists : Nat) : Frame :=
  let dir_uni := inputDescriptor TargetDir
  let name_uni := inputDescriptor TargetName
  let parms := zeroFrame
  let parms := parms.set L.func_code (Slot.val API_RENAME_FILE)
  let parms := parms.set L.file_handle (Slot.val FileHandle)
  let parms := parms.set L.target_dir (Slot.str dir_uni)
  let parms := parms.set L.target_name (Slot.str name_uni)
  let parms := parms.set L.replace_if_exists (Slot.val ReplaceIfExists)
  parms

/-- Source function `SbieApi_RenameFile` (sbieapi.c:870). -/
def SbieApi_RenameFile (API_RENAME_FILE : Nat) (L : API_RENAME_FILE_ARGS) (k : Kernel)
    (st : ApiState) (FileHandle : Nat) (TargetDir TargetName : WSTR) (ReplaceIfExists : Nat) :
    Int × ApiState :=
  SbieApi_Ioctl k st
    (SbieApi_RenameFile_parms API_RENAME_FILE L FileHandle TargetDir TargetName ReplaceIfExists)

/-- Slot indices of the fields of `API_CREATE_DIR_OR_LINK_ARGS`. -/
structure API_CREATE_DIR_OR_LINK_ARGS where
  func_code : Nat
  objname : Nat
  target : Nat

/-- The frame built by `SbieApi_CreateDirOrLink` (sbieapi.c:1040-1054); `none` is a
NULL `TargetName`. -/
def SbieApi_CreateDirOrLink_parms (API_CREATE_DIR_OR_LINK : Nat)
    (L : API_CREATE_DIR_OR_LINK_ARGS) (ObjectName : WSTR) (TargetName : Option WSTR) : Frame :=
  let objname := inputDescriptor ObjectName
  let parms := zeroFrame
  let parms := parms.set L.func_code (Slot.val API_CREATE_DIR_OR_LINK)
  let parms := parms.set L.objname (Slot.str objname)
  match TargetName with
  | some t => parms.set L.target (Slot.str (inputDescriptor t))
  | none => parms

/-- Source function `SbieApi_CreateDirOrLink` (sbieapi.c:1029). -/
def SbieApi_CreateDirOrLink (API_CREATE_DIR_OR_LINK : Nat) (L : API_CREATE_DIR_OR_LINK_ARGS)
    (k : Kernel) (st : ApiState) (ObjectName : WSTR) (TargetName : Option WSTR) :
    Int × ApiState :=
  SbieApi_Ioctl k st
    (SbieApi_CreateDirOrLink_parms API_CREATE_DIR_OR_LINK L ObjectName TargetName)

/-- A string of `n` characters 'A' at address `p`. -/
def longString (p n : Nat) : WSTR := { ptr := p, chars := List.replicate n 65 }

/-- A machine on which the driver answers the first request on the held handle
with STATUS_BUFFER_TOO_SMALL and every later one with success, storing the
character 'B' at address 1000. -/
def smallThenNameKernel : Kernel where
  NtOpenFile := fun _ => (STATUS_SUCCESS, 44)
  NtDeviceIoControlFile := fun hist _ _ m =>
    if hist.length = 0 then (STATUS_BUFFER_TOO_SMALL, m) else (STATUS_SUCCESS, m.write 1000 66)

/-! ## Part II: `core/svc/DriverAssist.cpp`, the handlers -/

/-- The structure `FILETIME`: two 32-bit halves. -/
structure FILETIME where
  dwLowDateTime : Nat
  dwHighDateTime : Nat
  deriving DecidableEq, Repr

/-- The read `*(ULONG64 *)&time.dwLowDateTime`: both halves as one 64-bit value. -/
def FILETIME.asULONG64 (t : FILETIME) : Nat :=
  t.dwLowDateTime % 4294967296 + 4294967296 * (t.dwHighDateTime % 4294967296)

/-- The fields of `SVC_PROCESS_MSG` (declared in `core/svc/msgids.h`) that
`CancelProcess` reads. -/
structure SVC_PROCESS_MSG where
  process_id : Nat
  session_id : Nat
  create_time : Nat
  reason : Nat
  process_name : String

/-- The fields of `SVC_UNMOUNT_MSG` (declared in `core/svc/msgids.h`) that
`UnmountHive` reads. -/
structure SVC_UNMOUNT_MSG where
  process_id : Nat
  session_id : Nat
  boxname : String

/-- A variadic argument of a log call. -/
inductive LogArg where
  | str (s : String)
  | num (n : Int)
  deriving DecidableEq, Repr

/-- Calls that the handlers make, in program order, with their results. -/
inductive Ev where
  | OpenProcess (access pid : Nat) (hProcess : Nat)
  | GetProcessTimes (hProcess : Nat) (ok : Bool) (creation : FILETIME)
  | TerminateProcess (hProcess : Nat) (exitCode : Nat)
  | CloseHandle (h : Nat)
  | WaitForSingleObject (h ms : Nat) (result : Nat)
  | Sleep (ms : Nat)
  | HeapAlloc (size : Nat) (p : Nat)
  | HeapFree (p : Nat)
  | SbieApi_QueryProcess (pid : Nat) (rc : Int)
  | SbieApi_EnumProcessEx (box_name : String) (all_sessions : Bool) (which_session : Nat)
      (rc : Int) (first_pid : Nat)
  | SbieApi_GetUnmountHive (status : Int) (path : String)
  | NtUnloadKey (path : String) (rc : Int)
  | NtOpenKey (path : String) (rc : Int) (key : Nat)
  | NtClose (h : Nat)
  | SbieApi_LogEx (session_id msgid : Nat) (format : String) (args : List LogArg)
  deriving DecidableEq, Repr

/-- The operating system and the driver as seen from the handlers.  Every reply
may depend on the history of calls so far. -/
structure World where
  /-- The handle returned, `0` when the process cannot be opened. -/
  OpenProcess : List Ev → Nat → Nat → Nat
  /-- Success flag and the creation time stored. -/
  GetProcessTimes : List Ev → Nat → Bool × FILETIME
  WaitForSingleObject : List Ev → Nat → Nat → Nat
  /-- The block returned, `0` when out of memory. -/
  HeapAlloc : List Ev → Nat → Nat
  SbieApi_QueryProcess : List Ev → Nat → Int
  /-- Return code and the first entry of the pid array after the call. -/
  SbieApi_EnumProcessEx : List Ev → String → Bool → Nat → Int × Nat
  /-- Return code and the string in the path buffer after the call. -/
  SbieApi_GetUnmountHive : List Ev → Int × String
  NtUnloadKey : List Ev → String → Int
  /-- Status and the key handle stored. -/
  NtOpenKey : List Ev → String → Int × Nat

def PROCESS_TERMINATE : Nat := 0x0001
def PROCESS_QUERY_INFORMATION : Nat := 0x0400
def SYNCHRONIZE : Nat := 0x00100000
def PAGE_SIZE : Nat := 4096

/-- Source function `DriverAssist::CancelProcess` (DriverAssist.cpp:427); `tr` is the history so
far, the result is the history on return. -/
def CancelProcess (w : World) (msg : SVC_PROCESS_MSG) (tr : List Ev) : List Ev :=
  let _DesiredAccess := PROCESS_TERMINATE ||| PROCESS_QUERY_INFORMATION
  let hProcess := w.OpenProcess tr _DesiredAccess msg.process_id
  let tr := tr ++ [Ev.OpenProcess _DesiredAccess msg.process_id hProcess]
  let tr :=
    if hProcess ≠ 0 then
      let r := w.GetProcessTimes tr hProcess
      let tr := tr ++ [Ev.GetProcessTimes hProcess r.1 r.2]
      let tr :=
        if r.1 = true ∧ r.2.asULONG64 = msg.create_time then
          tr ++ [Ev.TerminateProcess hProcess 1]
        else tr
      tr ++ [Ev.CloseHandle hProcess]
    else tr
  if msg.reason ≠ 0 then
    tr ++ [Ev.SbieApi_LogEx msg.session_id 2314 "%S [%d / %d]"
            [LogArg.str msg.process_name, LogArg.num msg.process_id, LogArg.num msg.reason]]
  else
    tr ++ [Ev.SbieApi_LogEx msg.session_id 2314 msg.process_name []]

/-- The first loop of `UnmountHive` (DriverAssist.cpp:499): `n` is the number of
iterations left, `20 - retries`. -/
def UnmountHive_queryLoop (w : World) (msg : SVC_UNMOUNT_MSG) : Nat → List Ev → List Ev
  | 0, tr => tr
  | n + 1, tr =>
    let rc := w.SbieApi_QueryProcess tr msg.process_id
    let tr := tr ++ [Ev.SbieApi_QueryProcess msg.process_id rc]
    if rc ≠ 0 then tr
    else UnmountHive_queryLoop w msg n (tr ++ [Ev.Sleep 100])

/-- The second loop of `UnmountHive` (DriverAssist.cpp:526): `n` is `20 - retries`;
the result is `ShouldUnmount` and the history. -/
def UnmountHive_enumLoop (w : World) (msg : SVC_UNMOUNT_MSG) : Nat → List Ev → Bool × List Ev
  | 0, tr => (false, tr)
  | n + 1, tr =>
    let r := w.SbieApi_EnumProcessEx tr msg.boxname false msg.session_id
    let tr := tr ++ [Ev.SbieApi_EnumProcessEx msg.boxname false msg.session_id r.1 r.2]
    if r.1 = 0 ∧ r.2 = 0 then (true, tr)
    else UnmountHive_enumLoop w msg n (tr ++ [Ev.Sleep 100])

/-- The unload loop of `UnmountHive` (DriverAssist.cpp:564): `n` is `25 - retries`,
`rc` the current value of the variable `rc`; the result is `rc` after the loop
and the history. -/
def UnmountHive_unloadLoop (w : World) (root_path : String) : Nat → Int → List Ev → Int × List Ev
  | 0, rc, tr => (rc, tr)
  | n + 1, _, tr =>
    let rc := w.NtUnloadKey tr root_path
    let tr := tr ++ [Ev.NtUnloadKey root_path rc]
    if rc = 0 then (rc, tr)
    else
      let tr := tr ++ [Ev.Sleep 100]
      let r := w.NtOpenKey tr root_path
      let rc := r.1
      let tr := tr ++ [Ev.NtOpenKey root_path rc r.2]
      if rc = STATUS_OBJECT_NAME_NOT_FOUND ∨ rc = STATUS_OBJECT_PATH_NOT_FOUND then (rc, tr)
      else
        let tr := if rc = 0 then tr ++ [Ev.NtClose r.2] else tr
        UnmountHive_unloadLoop w root_path n rc tr

/-- Part of `UnmountHive`, lines 484-508: wait until the process of the message is gone. -/
def UnmountHive_waitExit (w : World) (msg : SVC_UNMOUNT_MSG) (tr : List Ev) : List Ev :=
  let hProcess := w.OpenProcess tr SYNCHRONIZE msg.process_id
  let tr := tr ++ [Ev.OpenProcess SYNCHRONIZE msg.process_id hProcess]
  let waited : Bool × List Ev :=
    if hProcess ≠ 0 then
      let r := w.WaitForSingleObject tr hProcess (2 * 1000)
      let tr := tr ++ [Ev.WaitForSingleObject hProcess (2 * 1000) r]
      (decide (r = 0), tr ++ [Ev.CloseHandle hProcess])
    else (false, tr)
  let ended := waited.1
  let tr := waited.2
  if ¬ ended then UnmountHive_queryLoop w msg 20 tr else tr

/-- Part of `UnmountHive`, lines 520-540: check that the sandbox is empty; the result is
`ShouldUnmount` and the history. -/
def UnmountHive_checkEmpty (w : World) (msg : SVC_UNMOUNT_MSG) (tr : List Ev) :
    Bool × List Ev :=
  let pids := w.HeapAlloc tr PAGE_SIZE
  let tr := tr ++ [Ev.HeapAlloc PAGE_SIZE pids]
  if pids ≠ 0 then
    let r := UnmountHive_enumLoop w msg 20 tr
    (r.1, r.2 ++ [Ev.HeapFree pids])
  else (false, tr)

/-- Part of `UnmountHive`, lines 549-584: the body of `while (ShouldUnmount)`, which runs
at most once; `rc` is the value of the variable `rc` on entry. -/
def UnmountHive_unload (w : World) (msg : SVC_UNMOUNT_MSG) (rc : Int) (tr : List Ev) :
    List Ev :=
  let r := w.SbieApi_GetUnmountHive tr
  let root_path := r.2
  let tr := tr ++ [Ev.SbieApi_GetUnmountHive r.1 root_path]
  if root_path = "" then tr
  else
    let u := UnmountHive_unloadLoop w root_path 25 rc tr
    let rc := u.1
    let tr := u.2
    if rc ≠ 0 then tr ++ [Ev.SbieApi_LogEx msg.session_id 2208 "[%08X]" [LogArg.num rc]]
    else tr

/-- Source function `DriverAssist::UnmountHive` (DriverAssist.cpp:474); `tr` is the history so far,
the result is the history on return.  `ShouldUnmount` is set only by a poll whose
`rc` is 0, so `rc` is 0 when the unload block is entered. -/
def UnmountHive (w : World) (msg : SVC_UNMOUNT_MSG) (tr : List Ev) : List Ev :=
  let tr := UnmountHive_waitExit w msg tr
  let polled := UnmountHive_checkEmpty w msg tr
  let ShouldUnmount := polled.1
  let tr := polled.2
  if ShouldUnmount then UnmountHive_unload w msg 0 tr
  else tr

/-- An enumeration poll. -/
def Ev.isEnum : Ev → Bool
  | Ev.SbieApi_EnumProcessEx _ _ _ _ _ => true
  | _ => false

/-- An enumeration poll that returned success with zero processes. -/
def Ev.isEmptyEnum : Ev → Bool
  | Ev.SbieApi_EnumProcessEx _ _ _ rc first_pid => decide (rc = 0 ∧ first_pid = 0)
  | _ => false

/-- A query of the mount path. -/
def Ev.isGetHive : Ev → Bool
  | Ev.SbieApi_GetUnmountHive _ _ => true
  | _ => false

/-- A query of the mount path that returned a non-empty path. -/
def Ev.isGetHiveNonEmpty : Ev → Bool
  | Ev.SbieApi_GetUnmountHive _ path => decide (path ≠ "")
  | _ => false

/-- An unload attempt. -/
def Ev.isUnload : Ev → Bool
  | Ev.NtUnloadKey _ _ => true
  | _ => false

/-- A 2208 diagnostic. -/
def Ev.is2208 : Ev → Bool
  | Ev.SbieApi_LogEx _ msgid _ _ => decide (msgid = 2208)
  | _ => false

/-- A terminate call. -/
def Ev.isTerminate : Ev → Bool
  | Ev.TerminateProcess _ _ => true
  | _ => false

/-- Calls made before the enumeration loop or to release its buffer. -/
def Ev.isPrelude : Ev → Bool
  | Ev.OpenProcess _ _ _ => true
  | Ev.WaitForSingleObject _ _ _ => true
  | Ev.CloseHandle _ => true
  | Ev.SbieApi_QueryProcess _ _ => true
  | Ev.Sleep _ => true
  | Ev.HeapAlloc _ _ => true
  | Ev.HeapFree _ => true
  | _ => false

/-- Calls made by the enumeration loop. -/
def Ev.isPoll : Ev → Bool
  | Ev.SbieApi_EnumProcessEx _ _ _ _ _ => true
  | Ev.Sleep _ => true
  | _ => false

/-- Calls made by the unload loop and the diagnostic that may follow it. -/
def Ev.isUnloadStep : Ev → Bool
  | Ev.NtUnloadKey _ _ => true
  | Ev.Sleep _ => true
  | Ev.NtOpenKey _ _ _ => true
  | Ev.NtClose _ => true
  | Ev.SbieApi_LogEx _ _ _ _ => true
  | _ => false

/-- A log call. -/
def Ev.isLog : Ev → Bool
  | Ev.SbieApi_LogEx _ _ _ _ => true
  | _ => false

/-- A re-open of the hive root. -/
def Ev.isOpenKey : Ev → Bool
  | Ev.NtOpenKey _ _ _ => true
  | _ => false

/-- An unload attempt that succeeded. -/
def Ev.isUnloadSuccess : Ev → Bool
  | Ev.NtUnloadKey _ rc => decide (rc = 0)
  | _ => false

/-- A fixed sleep between two retries. -/
def Ev.isSleep : Ev → Bool
  | Ev.Sleep _ => true
  | _ => false

/-- A poll of the process of the message. -/
def Ev.isQueryProcess : Ev → Bool
  | Ev.SbieApi_QueryProcess _ _ => true
  | _ => false

/-- Every sleep is the fixed one of 100 ms. -/
def Ev.sleepIs100 : Ev → Bool
  | Ev.Sleep ms => decide (ms = 100)
  | _ => true

/-- An event after which the unload loop stops retrying: an unload that succeeded,
or a re-open of the hive root that reported the key as not found. -/
def Ev.isUnloadStop : Ev → Bool
  | Ev.NtUnloadKey _ rc => decide (rc = 0)
  | Ev.NtOpenKey _ rc _ =>
    decide (rc = STATUS_OBJECT_NAME_NOT_FOUND ∨ rc = STATUS_OBJECT_PATH_NOT_FOUND)
  | _ => false

/-- A machine on which the last process of the box is gone and the box is empty,
but the hive stays busy: every NtUnloadKey fails with STATUS_ACCESS_DENIED and
every re-open of the hive root succeeds. -/
def busyHiveWorld : World where
  OpenProcess := fun _ _ _ => 0
  GetProcessTimes := fun _ _ => (false, ⟨0, 0⟩)
  WaitForSingleObject := fun _ _ _ => 0
  HeapAlloc := fun _ _ => 5000
  SbieApi_QueryProcess := fun _ _ => STATUS_ACCESS_DENIED
  SbieApi_EnumProcessEx := fun _ _ _ _ => (0, 0)
  SbieApi_GetUnmountHive := fun _ => (0, "REGISTRY-USER-Sandbox_user_DefaultBox")
  NtUnloadKey := fun _ _ => STATUS_ACCESS_DENIED
  NtOpenKey := fun _ _ => (0, 77)

/-- An unmount request for process 1234 of box DefaultBox in session 1. -/
def unmountMsg : SVC_UNMOUNT_MSG := { process_id := 1234, session_id := 1, boxname := "DefaultBox" }

/-- A machine like `busyHiveWorld` on which the pid buffer cannot be allocated. -/
def noMemoryWorld : World :=
  { busyHiveWorld with HeapAlloc := fun _ _ => 0 }

/-- A machine like `busyHiveWorld` on which the hive root is gone when it is
re-opened after the first failed unload. -/
def goneHiveWorld : World :=
  { busyHiveWorld with NtOpenKey := fun _ _ => (STATUS_OBJECT_NAME_NOT_FOUND, 0) }

/-- A machine like `busyHiveWorld` on which the box is reported empty by the sixth
poll only (a poll is the sixth when the history holds 13 calls) and the first
unload succeeds. -/
def sixthPollWorld : World :=
  { busyHiveWorld with
    SbieApi_EnumProcessEx := fun hist _ _ _ => if hist.length < 13 then (0, 2) else (0, 0)
    NtUnloadKey := fun _ _ => 0 }

/-- A machine on which process 1234 can be opened and has creation time
`5 + 2^32`. -/
def liveProcessWorld : World :=
  { busyHiveWorld with
    OpenProcess := fun _ _ _ => 80
    GetProcessTimes := fun _ _ => (true, ⟨5, 1⟩) }

/-- A cancel request for process 1234 carrying the creation time `t`. -/
def cancelMsg (t : Nat) : SVC_PROCESS_MSG :=
  { process_id := 1234, session_id := 1, create_time := t, reason := 0,
    process_name := "notepad.exe" }

/-! ### The log call -/

/-- Slot indices of the fields of `API_LOG_MESSAGE_ARGS`. -/
structure API_LOG_MESSAGE_ARGS where
  func_code : Nat
  session_id : Nat
  msgid : Nat
  msgtext : Nat

/-- The output of the C library formatter `_vsnprintf` (reached through
`P_vsnprintf`) for a format made of ordinary characters and the directives `%%`,
`%d` and `%S`: an ordinary character is copied, `%%` writes one `%`, `%d` the next
argument in decimal, `%S` the next string argument.  `pending` tells that a `%`
has just been read.  The result is `none` for a format outside this fragment or
with an argument missing. -/
def P_vsnprintf_output : Bool → List Char → List LogArg → Option (List Char)
  | false, [], _ => some []
  | true, [], _ => none
  | false, c :: rest, args =>
    if c = '%' then P_vsnprintf_output true rest args
    else (P_vsnprintf_output false rest args).map fun out => c :: out
  | true, c :: rest, args =>
    if c = '%' then (P_vsnprintf_output false rest args).map fun out => '%' :: out
    else if c = 'd' then
      match args with
      | LogArg.num n :: args =>
        (P_vsnprintf_output false rest args).map fun out => (toString n).toList ++ out
      | _ => none
    else if c = 'S' then
      match args with
      | LogArg.str s :: args =>
        (P_vsnprintf_output false rest args).map fun out => s.toList ++ out
      | _ => none
    else none

/-- The text that `SbieApi_vLogEx` leaves in `tmp1` (sbieapi.c:368-379): the format
copied as a narrow string (`Sbie_sprintf`, at most 2048 characters), formatted with
the arguments into `tmp2` (`P_vsnprintf`, at most 510 characters), and copied back
as a wide string.  The two copies keep every character below 128; the result is
`none` for other characters, for a format of 2048 characters or more and for an
output of 510 characters or more, which lie outside the model.  `none` as
`format` is the NULL pointer. -/
def SbieApi_vLogEx_text (format : Option (List Char)) (va_args : List LogArg) :
    Option (List Char) :=
  match format with
  | none => some []
  | some fmt =>
    if fmt.all (fun c => decide (c.toNat < 128)) ∧ fmt.length < 2048 then
      match P_vsnprintf_output false fmt va_args with
      | some out => if out.length < 510 then some out else none
      | none => none
    else none

/-- Source function `SbieApi_vLogEx` (sbieapi.c:354); `tmp1` is the block returned
by `Dll_AllocTemp`. -/
def SbieApi_vLogEx (API_LOG_MESSAGE : Nat) (L : API_LOG_MESSAGE_ARGS) (k : Kernel)
    (st : ApiState) (tmp1 session_id msgid : Nat) (format : Option (List Char))
    (va_args : List LogArg) : Option (Int × ApiState) :=
  (SbieApi_vLogEx_text format va_args).map fun text =>
    let Length := toUSHORT (toUSHORT text.length * 2)
    let msgtext : UNICODE_STRING64 :=
      { Buffer := tmp1, Length := Length, MaximumLength := toUSHORT (Length + 2) }
    let parms := zeroFrame
    let parms := parms.set L.func_code (Slot.val API_LOG_MESSAGE)
    let parms := parms.set L.session_id (Slot.val session_id)
    let parms := parms.set L.msgid (Slot.val msgid)
    let parms := parms.set L.msgtext (Slot.str msgtext)
    SbieApi_Ioctl k st parms

/-- Source function `SbieApi_LogEx` (sbieapi.c:334): the variadic arguments are
handed on to `SbieApi_vLogEx`. -/
def SbieApi_LogEx (API_LOG_MESSAGE : Nat) (L : API_LOG_MESSAGE_ARGS) (k : Kernel)
    (st : ApiState) (tmp1 session_id msgid : Nat) (format : Option (List Char))
    (va_args : List LogArg) : Option (Int × ApiState) :=
  SbieApi_vLogEx API_LOG_MESSAGE L k st tmp1 session_id msgid format va_args

/-- The text that a log call of a handler relays to the log. -/
def Ev.logText : Ev → Option (List Char)
  | Ev.SbieApi_LogEx _ _ format args => SbieApi_vLogEx_text (some format.toList) args
  | _ => none

/-- A cancel request with reason 0 for a process whose name holds two `%`. -/
def percentMsg : SVC_PROCESS_MSG :=
  { process_id := 1234, session_id := 1, create_time := 99, reason := 0,
    process_name := "a%%b.exe" }

/-! ## Part III: `core/svc/DriverAssist.cpp`, the port, the listeners and the workers -/

/-- Constants declared in headers outside the sources at hand (`DriverAssist.h`,
`core/svc/msgids.h`, the NT port declarations).  They are taken as given: every
result below holds for all their values. -/
structure Defs where
  NUMBER_OF_THREADS : Nat
  MAX_PORTMSG_LENGTH : Nat
  sizeof_PORT_MESSAGE : Nat
  sizeof_HANDLE : Nat
  sizeof_MSG_DATA : Nat
  LPC_DATAGRAM : Nat
  MSG_9234 : Nat
  SVC_LOOKUP_SID : Nat
  SVC_INJECT_PROCESS : Nat
  SVC_CANCEL_PROCESS : Nat
  SVC_UNMOUNT_HIVE : Nat
  SVC_LOG_MESSAGE : Nat
  SVC_RESTART_HOST_INJECTED_SVCS : Nat

/-- A port message buffer: the header fields the code touches (`u1.s1.DataLength`,
`u1.s1.TotalLength`, `u2.s2.Type`, `u2.s2.DataInfoOffset`), the other bytes of the
header, and the bytes that follow the header. -/
structure PORT_MESSAGE where
  DataLength : Nat
  TotalLength : Nat
  Type_ : Nat
  DataInfoOffset : Nat
  header_rest : List Nat
  data : List Nat
  deriving DecidableEq, Repr

/-- The read `*(ULONG *)p` of four bytes, little endian, at offset `off` of `bytes`. -/
def readULONG (bytes : List Nat) (off : Nat) : Nat :=
  bytes.getD off 0 % 256 + 256 * (bytes.getD (off + 1) 0 % 256) +
    65536 * (bytes.getD (off + 2) 0 % 256) + 16777216 * (bytes.getD (off + 3) 0 % 256)

/-- The message handlers of `DriverAssist`. -/
inductive Handler where
  | LookupSid
  | InjectLow
  | CancelProcess
  | UnmountHive
  | LogMessage
  | RestartHostInjectedSvcs
  deriving DecidableEq, Repr

/-- Thread start routines. -/
inductive StartRoutine where
  | ThreadStub
  | MsgWorkerThreadStub
  deriving DecidableEq, Repr

/-- The thread that makes a call. -/
inductive Caller where
  | listener
  | worker
  deriving DecidableEq, Repr

/-- Calls made by the port and thread management code, in program order, with
their results.  `handler` is the invocation of a message handler, with the offset
of its argument in the message buffer when it takes one. -/
inductive PortEv where
  | ConvertStringSecurityDescriptorToSecurityDescriptor (sddl : String) (ok : Bool) (sd : Nat)
  | NtCreatePort (MaxMessageLength : Nat) (status : Int) (port : Nat)
  | LocalFree (p : Nat)
  | InterlockedExchangePointer (newValue oldValue : Nat)
  | HeapAlloc (size : Nat) (p : Nat)
  | CreateThread (start : StartRoutine) (parm : Nat) (thread : Nat)
  | LogEvent (msgid code : Nat) (err : Int)
  | NtRequestPort (port : Nat) (msg : PORT_MESSAGE)
  | WaitForMultipleObjects (count : Nat) (handles : List Nat) (waitAll : Bool) (ms : Nat)
      (result : Nat)
  | TerminateThread (thread : Nat) (exitCode : Nat)
  | NtClose (h : Nat)
  | SetThreadPriority (priority : Int)
  | VirtualAlloc (size : Nat) (p : Nat)
  | NtReplyWaitReceivePort (port : Nat) (buffer : Nat) (status : Int)
  | VirtualFree (caller : Caller) (p : Nat)
  | handler (h : Handler) (data_ptr : Option Nat)
  | SbieApi_LogEx (session_id msgid : Nat) (format : String)
  deriving DecidableEq, Repr

/-- The operating system as seen from the port and thread management code.  Every
reply may depend on the history of calls so far. -/
structure Host where
  /-- Success flag and the descriptor stored. -/
  ConvertStringSecurityDescriptorToSecurityDescriptor : List PortEv → Bool × Nat
  GetLastError : List PortEv → Int
  /-- Status and the value left in `m_PortHandle`. -/
  NtCreatePort : List PortEv → Int × Nat
  /-- The block returned, `0` when out of memory. -/
  HeapAlloc : List PortEv → Nat → Nat
  /-- The thread handle returned, `0` when the thread could not be created. -/
  CreateThread : List PortEv → StartRoutine → Nat → Nat
  WaitForMultipleObjects : List PortEv → Nat
  /-- The block returned, `0` when out of memory. -/
  VirtualAlloc : List PortEv → Nat → Nat
  /-- Status and the message stored in the buffer. -/
  NtReplyWaitReceivePort : List PortEv → Nat → Int × PORT_MESSAGE
  /-- The value a listener reads from the shared `m_PortHandle`, which another
  thread may clear at any time. -/
  read_m_PortHandle : List PortEv → Nat

/-- The members of `DriverAssist` used here: `m_PortHandle`, and `m_Threads`
(`none` for `NULL`, else the array of thread handles). -/
structure DriverAssist where
  m_PortHandle : Nat
  m_Threads : Option (List Nat)
  deriving DecidableEq, Repr

def WAIT_TIMEOUT : Nat := 258
def THREAD_PRIORITY_HIGHEST : Int := 2

/-- The thread-creation loop of `InitializePortAndThreads` (DriverAssist.cpp:162):
`i` is the loop variable, `n` the number of iterations left
(`NUMBER_OF_THREADS - i`), `this` the address of the object, `threads` the array
`m_Threads`.  The result is `false` when the function returns false from inside
the loop. -/
def InitializePortAndThreads_spawnLoop (h : Host) (d : Defs) (this : Nat) :
    Nat → Nat → List Nat → List PortEv → Bool × List Nat × List PortEv
  | 0, _, threads, tr => (true, threads, tr)
  | n + 1, i, threads, tr =>
    let t := h.CreateThread tr StartRoutine.ThreadStub this
    let threads := threads.set i t
    let tr := tr ++ [PortEv.CreateThread StartRoutine.ThreadStub this t]
    if t = 0 then
      (false, threads, tr ++ [PortEv.LogEvent d.MSG_9234 0x9253 (h.GetLastError tr)])
    else
      InitializePortAndThreads_spawnLoop h d this n (i + 1) threads tr

/-- Source function `DriverAssist::InitializePortAndThreads` (DriverAssist.cpp:102). -/
def InitializePortAndThreads (h : Host) (d : Defs) (this : Nat) (st : DriverAssist)
    (tr : List PortEv) : Bool × DriverAssist × List PortEv :=
  let c := h.ConvertStringSecurityDescriptorToSecurityDescriptor tr
  let sd := c.2
  let tr := tr ++ [PortEv.ConvertStringSecurityDescriptorToSecurityDescriptor
    "O:SYG:SYD:(A;;GA;;;SY)" c.1 sd]
  if c.1 = false then
    (false, st, tr ++ [PortEv.LogEvent d.MSG_9234 0x9244 (h.GetLastError tr)])
  else
    let p := h.NtCreatePort tr
    let status := p.1
    let st := { st with m_PortHandle := p.2 }
    let tr := tr ++ [PortEv.NtCreatePort d.MAX_PORTMSG_LENGTH status p.2]
    if ¬ NT_SUCCESS status then
      (false, st, tr ++ [PortEv.LogEvent d.MSG_9234 0x9254 status])
    else
      let tr := tr ++ [PortEv.LocalFree sd]
      let tr := tr ++ [PortEv.InterlockedExchangePointer st.m_PortHandle st.m_PortHandle]
      let n := d.NUMBER_OF_THREADS * d.sizeof_HANDLE
      let m := h.HeapAlloc tr n
      let tr := tr ++ [PortEv.HeapAlloc n m]
      if m = 0 then
        ( false, { st with m_Threads := none },
          tr ++ [PortEv.LogEvent d.MSG_9234 0x9251 (h.GetLastError tr)] )
      else
        let threads := List.replicate d.NUMBER_OF_THREADS 0
        let r := InitializePortAndThreads_spawnLoop h d this d.NUMBER_OF_THREADS 0 threads tr
        (r.1, { st with m_Threads := some r.2.1 }, r.2.2)

/-- The message built in `ShutdownPortAndThreads` (DriverAssist.cpp:209-211): the
buffer cleared over `MAX_PORTMSG_LENGTH` bytes, then `TotalLength` set. -/
def wakeMessage (d : Defs) : PORT_MESSAGE :=
  { DataLength := 0
    TotalLength := toUSHORT d.sizeof_PORT_MESSAGE
    Type_ := 0
    DataInfoOffset := 0
    header_rest := List.replicate (d.sizeof_PORT_MESSAGE - 8) 0
    data := List.replicate (d.MAX_PORTMSG_LENGTH - d.sizeof_PORT_MESSAGE) 0 }

/-- The send loop of `ShutdownPortAndThreads` (DriverAssist.cpp:208): `n` is the
number of iterations left. -/
def ShutdownPortAndThreads_wakeLoop (d : Defs) (PortHandle : Nat) : Nat → List PortEv →
    List PortEv
  | 0, tr => tr
  | n + 1, tr =>
    ShutdownPortAndThreads_wakeLoop d PortHandle n
      (tr ++ [PortEv.NtRequestPort PortHandle (wakeMessage d)])

/-- The termination loop of `ShutdownPortAndThreads` (DriverAssist.cpp:221): `i` is
the loop variable, `n` the number of iterations left. -/
def ShutdownPortAndThreads_killLoop (threads : List Nat) : Nat → Nat → List PortEv →
    List PortEv
  | 0, _, tr => tr
  | n + 1, i, tr =>
    ShutdownPortAndThreads_killLoop threads n (i + 1)
      (tr ++ [PortEv.TerminateThread (threads.getD i 0) 0])

/-- Source function `DriverAssist::ShutdownPortAndThreads` (DriverAssist.cpp:198). -/
def ShutdownPortAndThreads (h : Host) (d : Defs) (st : DriverAssist) (tr : List PortEv) :
    DriverAssist × List PortEv :=
  let PortHandle := st.m_PortHandle
  let st := { st with m_PortHandle := 0 }
  let tr := tr ++ [PortEv.InterlockedExchangePointer 0 PortHandle]
  let tr :=
    if PortHandle ≠ 0 then ShutdownPortAndThreads_wakeLoop d PortHandle d.NUMBER_OF_THREADS tr
    else tr
  let tr :=
    match st.m_Threads with
    | some threads =>
      let r := h.WaitForMultipleObjects tr
      let tr := tr ++ [PortEv.WaitForMultipleObjects d.NUMBER_OF_THREADS threads true 5000 r]
      if WAIT_TIMEOUT = r then
        let tr := ShutdownPortAndThreads_killLoop threads d.NUMBER_OF_THREADS 0 tr
        let r2 := h.WaitForMultipleObjects tr
        tr ++ [PortEv.WaitForMultipleObjects d.NUMBER_OF_THREADS threads true 5000 r2]
      else tr
    | none => tr
  let tr := if PortHandle ≠ 0 then tr ++ [PortEv.NtClose PortHandle] else tr
  (st, tr)

/-- Source function `DriverAssist::MsgWorkerThread` (DriverAssist.cpp:247): the calls it makes for
the message in the buffer. -/
def MsgWorkerThread (d : Defs) (msg : PORT_MESSAGE) : List PortEv :=
  if msg.Type_ ≠ d.LPC_DATAGRAM then []
  else
    let data_len := msg.DataLength
    if data_len < 4 then []
    else
      let msgid := readULONG msg.data 0
      let data_ptr := d.sizeof_PORT_MESSAGE + 4
      if msgid = d.SVC_LOOKUP_SID then
        [PortEv.handler Handler.LookupSid (some data_ptr)]
      else if msgid = d.SVC_INJECT_PROCESS then
        [PortEv.handler Handler.InjectLow (some data_ptr)]
      else if msgid = d.SVC_CANCEL_PROCESS then
        [PortEv.handler Handler.CancelProcess (some data_ptr)]
      else if msgid = d.SVC_UNMOUNT_HIVE then
        [PortEv.handler Handler.UnmountHive (some data_ptr)]
      else if msgid = d.SVC_LOG_MESSAGE then
        [PortEv.handler Handler.LogMessage none]
      else if msgid = d.SVC_RESTART_HOST_INJECTED_SVCS then
        [PortEv.handler Handler.RestartHostInjectedSvcs none]
      else []

/-- Source function `DriverAssist::MsgWorkerThreadStub` (DriverAssist.cpp:295), run by a worker on
the buffer at `MyMsg` holding `msg`. -/
def MsgWorkerThreadStub (d : Defs) (MyMsg : Nat) (msg : PORT_MESSAGE) : List PortEv :=
  if MyMsg = 0 then []
  else MsgWorkerThread d msg ++ [PortEv.VirtualFree Caller.worker MyMsg]

/-- The loop of `DriverAssist::Thread` (DriverAssist.cpp:317).  `n` bounds the
number of iterations observed; a worker that was created runs
`MsgWorkerThreadStub` on the buffer it was given, and its calls are entered in the
history right after its creation. -/
def Thread_loop (h : Host) (d : Defs) (this : Nat) : Nat → List PortEv → List PortEv
  | 0, tr => tr
  | n + 1, tr =>
    let MsgData := h.VirtualAlloc tr d.sizeof_MSG_DATA
    let tr := tr ++ [PortEv.VirtualAlloc d.sizeof_MSG_DATA MsgData]
    if MsgData = 0 then tr
    else
      let port := h.read_m_PortHandle tr
      let r := h.NtReplyWaitReceivePort tr port
      let tr := tr ++ [PortEv.NtReplyWaitReceivePort port MsgData r.1]
      if h.read_m_PortHandle tr = 0 then
        tr ++ [PortEv.VirtualFree Caller.listener MsgData]
      else
        let t := h.CreateThread tr StartRoutine.MsgWorkerThreadStub MsgData
        let tr := tr ++ [PortEv.CreateThread StartRoutine.MsgWorkerThreadStub MsgData t]
        let tr := if t ≠ 0 then tr ++ MsgWorkerThreadStub d MsgData r.2 else tr
        Thread_loop h d this n tr

/-- Source function `DriverAssist::Thread` (DriverAssist.cpp:309), observed for at most `n`
iterations of its loop. -/
def Thread (h : Host) (d : Defs) (this : Nat) (n : Nat) (tr : List PortEv) : List PortEv :=
  Thread_loop h d this n (tr ++ [PortEv.SetThreadPriority THREAD_PRIORITY_HIGHEST])

/-- The message id that `MsgWorkerThread` compares the tag with before it invokes
the handler. -/
def Handler.tag (d : Defs) : Handler → Nat
  | Handler.LookupSid => d.SVC_LOOKUP_SID
  | Handler.InjectLow => d.SVC_INJECT_PROCESS
  | Handler.CancelProcess => d.SVC_CANCEL_PROCESS
  | Handler.UnmountHive => d.SVC_UNMOUNT_HIVE
  | Handler.LogMessage => d.SVC_LOG_MESSAGE
  | Handler.RestartHostInjectedSvcs => d.SVC_RESTART_HOST_INJECTED_SVCS

/-- Whether `MsgWorkerThread` passes `data_ptr` to the handler: `LogMessage()` and
`RestartHostInjectedSvcs()` are called without argument. -/
def Handler.takesData : Handler → Bool
  | Handler.LogMessage => false
  | Handler.RestartHostInjectedSvcs => false
  | _ => true

/-- A datagram whose data is the four bytes of the tag `SVC_LOG_MESSAGE` of
`defs64`. -/
def logDatagram : PORT_MESSAGE :=
  { DataLength := 4, TotalLength := 44, Type_ := 3, DataInfoOffset := 0,
    header_rest := List.replicate 32 0, data := [0x05, 0x00, 0x34, 0x12] }

/-- A message sent into the port. -/
def PortEv.isRequestPort : PortEv → Bool
  | PortEv.NtRequestPort _ _ => true
  | _ => false

/-- A close of a handle. -/
def PortEv.isClose : PortEv → Bool
  | PortEv.NtClose _ => true
  | _ => false

/-- A forced termination of a thread. -/
def PortEv.isTerminateThread : PortEv → Bool
  | PortEv.TerminateThread _ _ => true
  | _ => false

/-- A bounded wait for the listener threads. -/
def PortEv.isWait : PortEv → Bool
  | PortEv.WaitForMultipleObjects _ _ _ _ _ => true
  | _ => false

/-- The results of the waits for the listener threads in a history, in order. -/
def waitResults (tr : List PortEv) : List Nat :=
  tr.filterMap fun e =>
    match e with
    | PortEv.WaitForMultipleObjects _ _ _ _ r => some r
    | _ => none

/-- The results of the listener spawns of a history, in order (`0` for a spawn that
failed). -/
def spawns (tr : List PortEv) : List Nat :=
  tr.filterMap fun e =>
    match e with
    | PortEv.CreateThread StartRoutine.ThreadStub _ t => some t
    | _ => none

/-- The handles of the listener threads that a history started. -/
def listenersStarted (tr : List PortEv) : List Nat :=
  (spawns tr).filter fun t => decide (t ≠ 0)

/-- The thread handles that a history terminated. -/
def threadsTerminated (tr : List PortEv) : List Nat :=
  tr.filterMap fun e =>
    match e with
    | PortEv.TerminateThread t _ => some t
    | _ => none

/-- The listeners a history started and did not terminate. -/
def listenersLeftRunning (tr : List PortEv) : List Nat :=
  (listenersStarted tr).filter fun t => decide (t ∉ threadsTerminated tr)

/-- The buffers a history allocated with `VirtualAlloc`. -/
def buffersAllocated (tr : List PortEv) : List Nat :=
  tr.filterMap fun e =>
    match e with
    | PortEv.VirtualAlloc _ p => if p ≠ 0 then some p else none
    | _ => none

/-- The callers that released the buffer `p` in a history, one entry per release. -/
def releases (p : Nat) (tr : List PortEv) : List Caller :=
  tr.filterMap fun e =>
    match e with
    | PortEv.VirtualFree c q => if q = p then some c else none
    | _ => none

/-- Constants as on a 64-bit build with five listeners. -/
def defs64 : Defs where
  NUMBER_OF_THREADS := 5
  MAX_PORTMSG_LENGTH := 328
  sizeof_PORT_MESSAGE := 40
  sizeof_HANDLE := 8
  sizeof_MSG_DATA := 336
  LPC_DATAGRAM := 3
  MSG_9234 := 9234
  SVC_LOOKUP_SID := 0x12340001
  SVC_INJECT_PROCESS := 0x12340002
  SVC_CANCEL_PROCESS := 0x12340003
  SVC_UNMOUNT_HIVE := 0x12340004
  SVC_LOG_MESSAGE := 0x12340005
  SVC_RESTART_HOST_INJECTED_SVCS := 0x12340007

/-- A host on which everything succeeds, thread handles are numbered from 100 by
the length of the history, and waits return 0. -/
def healthyHost : Host where
  ConvertStringSecurityDescriptorToSecurityDescriptor := fun _ => (true, 900)
  GetLastError := fun _ => 0
  NtCreatePort := fun _ => (0, 7)
  HeapAlloc := fun _ _ => 5000
  CreateThread := fun hist _ _ => 100 + hist.length
  WaitForMultipleObjects := fun _ => 0
  VirtualAlloc := fun hist _ => 65536 * (hist.length + 1)
  NtReplyWaitReceivePort := fun _ _ => (0, ⟨0, 0, 0, 0, [], []⟩)
  read_m_PortHandle := fun _ => 7

/-- A host on which the third listener spawn fails with error 8 (the history then
holds seven calls); everything else succeeds. -/
def thirdSpawnFailsHost : Host :=
  { healthyHost with
    CreateThread := fun hist _ _ => if hist.length < 7 then 100 + hist.length else 0
    GetLastError := fun _ => 8 }

/-- A host on which no worker thread can be created, and the port is cleared by a
shutdown after the listener's second allocation. -/
def noWorkerHost : Host :=
  { healthyHost with
    CreateThread := fun _ _ _ => 0
    read_m_PortHandle := fun hist => if hist.length < 5 then 7 else 0 }

/-! ## Part IV: `core/svc/DriverAssist.cpp`, the SID lookup -/

/-- The fields of `SVC_LOOKUP_SID_MSG` (declared in `core/svc/msgids.h`) that
`LookupSid` reads. -/
structure SVC_LOOKUP_SID_MSG where
  session_id : Nat
  sid_string : String

/-- Calls that `LookupSid` and `LookupSid2` make, in program order, with their
results.  A name is the string found in the `username` buffer after the call. -/
inductive SidEv where
  | ConvertStringSidToSid (StringSid : String) (ok : Bool) (pSid : Nat)
  | GetLastError (err : Nat)
  | LookupAccountSid (pSid : Nat) (ok : Bool) (username : List Char)
  | HeapAlloc (size : Nat) (p : Nat)
  | RegOpenKeyEx (KeyPath : String) (rc : Int) (hKey : Nat)
  | RegQueryValueEx (hKey : Nat) (valueName : String) (len : Nat) (rc : Int) (type : Nat)
      (UserName : List Char)
  | RegCloseKey (hKey : Nat)
  | HeapFree (p : Nat)
  | SetLastError (err : Nat)
  | LocalFree (p : Nat)
  | SbieApi_SetUserName (SidString : String) (UserName : List Char) (rc : Int)
  | SbieApi_LogEx (session_id msgid : Nat) (format : String) (args : List LogArg)
  deriving DecidableEq, Repr

/-- The operating system and the driver as seen from `LookupSid`.  Every reply may
depend on the history of calls so far. -/
structure SidWorld where
  /-- Success flag and the SID allocated. -/
  ConvertStringSidToSid : List SidEv → String → Bool × Nat
  GetLastError : List SidEv → Nat
  /-- Success flag and the string in the `username` buffer after the call. -/
  LookupAccountSid : List SidEv → Nat → Bool × List Char
  /-- The block returned, `0` when out of memory. -/
  HeapAlloc : List SidEv → Nat → Nat
  /-- Return code and the key handle stored. -/
  RegOpenKeyEx : List SidEv → String → Int × Nat
  /-- Return code, value type and the string in the buffer after the call. -/
  RegQueryValueEx : List SidEv → Nat → Nat → Int × Nat × List Char
  SbieApi_SetUserName : List SidEv → String → List Char → Int

def ERROR_NONE_MAPPED : Nat := 1332
def REG_SZ : Nat := 1

/-- The name that `LookupSid` substitutes when no account name was found. -/
def placeholderName : List Char := String.toList "*?*?*?*"

/-- Source function `DriverAssist::LookupSid2` (DriverAssist.cpp:395): `UserName` is
the string in the caller's buffer on entry; the result is the string in it on
return and the history. -/
def LookupSid2 (w : SidWorld) (SidString : String) (UserName : List Char) (UserNameLen : Nat)
    (tr : List SidEv) : List Char × List SidEv :=
  let KeyPath := w.HeapAlloc tr 1024
  let tr := tr ++ [SidEv.HeapAlloc 1024 KeyPath]
  if KeyPath = 0 then (UserName, tr)
  else
    let path := SidString ++ "\\Software\\Microsoft\\Windows\\CurrentVersion\\Explorer"
    let o := w.RegOpenKeyEx tr path
    let rc := o.1
    let hKey := o.2
    let tr := tr ++ [SidEv.RegOpenKeyEx path rc hKey]
    let opened : List Char × List SidEv :=
      if rc = 0 then
        let len := UserNameLen
        let q := w.RegQueryValueEx tr hKey len
        let rc := q.1
        let type := q.2.1
        let tr := tr ++ [SidEv.RegQueryValueEx hKey "Logon User Name" len rc type q.2.2]
        let UserName := if rc ≠ 0 ∨ type ≠ REG_SZ then [] else q.2.2
        (UserName, tr ++ [SidEv.RegCloseKey hKey])
      else (UserName, tr)
    (opened.1, opened.2 ++ [SidEv.HeapFree KeyPath])

/-- Part of `LookupSid`, lines 353-373: the account lookup and, when it reports that
no mapping exists, the registry fallback.  The result is `b`, the string in the
`username` buffer, and the history. -/
def LookupSid_resolve (w : SidWorld) (msg : SVC_LOOKUP_SID_MSG) (pSid : Nat)
    (tr : List SidEv) : Bool × List Char × List SidEv :=
  let username_len := 256 - 4
  let l := w.LookupAccountSid tr pSid
  let tr := tr ++ [SidEv.LookupAccountSid pSid l.1 l.2]
  if l.1 = false then
    let err := w.GetLastError tr
    let tr := tr ++ [SidEv.GetLastError err]
    if err = ERROR_NONE_MAPPED then
      let r := LookupSid2 w msg.sid_string [] username_len tr
      if r.1 ≠ [] then (true, r.1, r.2)
      else (false, r.1, r.2 ++ [SidEv.SetLastError ERROR_NONE_MAPPED])
    else (false, l.2, tr)
  else (true, l.2, tr)

/-- Part of `LookupSid`, lines 375-386: the placeholder, the cut of the name at
index 252, the report to the driver and the diagnostic. -/
def LookupSid_report (w : SidWorld) (msg : SVC_LOOKUP_SID_MSG) (pSid : Nat) (b : Bool)
    (username : List Char) (tr : List SidEv) : List SidEv :=
  let username := if b = false ∨ username = [] then placeholderName else username
  let tr := tr ++ [SidEv.LocalFree pSid]
  let username := username.take (256 - 4)
  let rc := w.SbieApi_SetUserName tr msg.sid_string username
  let tr := tr ++ [SidEv.SbieApi_SetUserName msg.sid_string username rc]
  if rc ≠ 0 then
    tr ++ [SidEv.SbieApi_LogEx msg.session_id 2209 "[33 / %08X]" [LogArg.num rc]]
  else tr

/-- Source function `DriverAssist::LookupSid` (DriverAssist.cpp:342); `tr` is the
history so far, the result is the history on return. -/
def LookupSid (w : SidWorld) (msg : SVC_LOOKUP_SID_MSG) (tr : List SidEv) : List SidEv :=
  let c := w.ConvertStringSidToSid tr msg.sid_string
  let pSid := c.2
  let tr := tr ++ [SidEv.ConvertStringSidToSid msg.sid_string c.1 pSid]
  if c.1 = false then
    let err := w.GetLastError tr
    let tr := tr ++ [SidEv.GetLastError err]
    tr ++ [SidEv.SbieApi_LogEx msg.session_id 2209 "[11 / %d]" [LogArg.num err]]
  else
    let looked := LookupSid_resolve w msg pSid tr
    LookupSid_report w msg pSid looked.1 looked.2.1 looked.2.2

/-- A report of a user name to the driver. -/
def SidEv.isSetUserName : SidEv → Bool
  | SidEv.SbieApi_SetUserName _ _ _ => true
  | _ => false

/-- A call made by the registry fallback `LookupSid2`. -/
def SidEv.isFallback : SidEv → Bool
  | SidEv.HeapAlloc _ _ => true
  | SidEv.RegOpenKeyEx _ _ _ => true
  | SidEv.RegQueryValueEx _ _ _ _ _ _ => true
  | SidEv.RegCloseKey _ => true
  | SidEv.HeapFree _ => true
  | _ => false

/-- A machine on which the SID string parses, the account lookup finds no mapping,
and the registry holds the logon name "alice"; the driver accepts the name. -/
def fallbackWorld : SidWorld where
  ConvertStringSidToSid := fun _ _ => (true, 700)
  GetLastError := fun _ => ERROR_NONE_MAPPED
  LookupAccountSid := fun _ _ => (false, [])
  HeapAlloc := fun _ _ => 5000
  RegOpenKeyEx := fun _ _ => (0, 60)
  RegQueryValueEx := fun _ _ _ => (0, REG_SZ, String.toList "alice")
  SbieApi_SetUserName := fun _ _ _ => 0

/-- A machine on which no SID string parses (error 1337, invalid SID). -/
def badSidWorld : SidWorld :=
  { fallbackWorld with
    ConvertStringSidToSid := fun _ _ => (false, 0)
    GetLastError := fun _ => 1337 }

/-- A SID-lookup message for session 1. -/
def sidMsg : SVC_LOOKUP_SID_MSG := { session_id := 1, sid_string := "S-1-5-21-1-2-3-1001" }

/-! ## Theorems -/

/-- State after a call of `SbieApi_Ioctl` that found no handle and whose open
reported "name not found" or "no such device". -/
theorem SbieApi_Ioctl_absent (k : Kernel) (st : ApiState) (parms : Frame)
    (hh : st.SbieApi_DeviceHandle = INVALID_HANDLE_VALUE)
    (ho : (k.NtOpenFile st.calls).1 = STATUS_OBJECT_NAME_NOT_FOUND ∨
          (k.NtOpenFile st.calls).1 = STATUS_NO_SUCH_DEVICE) :
    SbieApi_Ioctl k st parms =
      (STATUS_SERVER_DISABLED,
       { st with
           SbieApi_DeviceHandle := INVALID_HANDLE_VALUE,
           calls := st.calls ++
             [SysCall.NtOpenFile (k.NtOpenFile st.calls).1 (k.NtOpenFile st.calls).2] }) := by
  have hne : STATUS_SERVER_DISABLED ≠ STATUS_SUCCESS := by decide
  simp [SbieApi_Ioctl, hh, ho, hne]

/-- C1: while no handle is held and every open of the device reports
STATUS_OBJECT_NAME_NOT_FOUND or STATUS_NO_SUCH_DEVICE, every call in every
sequence of calls to SbieApi_Ioctl returns STATUS_SERVER_DISABLED, issues exactly
one system call, which is an open attempt carrying one of the two native codes
(so no device-control request), and leaves SbieApi_DeviceHandle invalid, so the
next call opens again. -/
theorem C1_absent_device_server_disabled (k : Kernel) (st : ApiState) (frames : List Frame)
    (hh : st.SbieApi_DeviceHandle = INVALID_HANDLE_VALUE)
    (ho : ∀ hist, (k.NtOpenFile hist).1 = STATUS_OBJECT_NAME_NOT_FOUND ∨
                  (k.NtOpenFile hist).1 = STATUS_NO_SUCH_DEVICE) :
    (SbieApi_Ioctl_calls k st frames).length = frames.length ∧
    ∀ r ∈ SbieApi_Ioctl_calls k st frames,
      r.status = STATUS_SERVER_DISABLED ∧
      r.status ≠ STATUS_OBJECT_NAME_NOT_FOUND ∧ r.status ≠ STATUS_NO_SUCH_DEVICE ∧
      (∃ s h, r.issued = [SysCall.NtOpenFile s h] ∧
        (s = STATUS_OBJECT_NAME_NOT_FOUND ∨ s = STATUS_NO_SUCH_DEVICE)) ∧
      r.handleAfter = INVALID_HANDLE_VALUE := by
  induction frames generalizing st with
  | nil => simp [SbieApi_Ioctl_calls]
  | cons parms rest ih =>
    have hstep := SbieApi_Ioctl_absent k st parms hh (ho st.calls)
    have hrest := ih (SbieApi_Ioctl k st parms).2 (by rw [hstep])
    refine ⟨by simp [SbieApi_Ioctl_calls, hrest.1], ?_⟩
    intro r hr
    simp only [SbieApi_Ioctl_calls, List.mem_cons] at hr
    rcases hr with hr | hr
    · subst hr
      rw [hstep]
      have h1 : STATUS_SERVER_DISABLED ≠ STATUS_OBJECT_NAME_NOT_FOUND := by decide
      have h2 : STATUS_SERVER_DISABLED ≠ STATUS_NO_SUCH_DEVICE := by decide
      refine ⟨rfl, h1, h2,
        ⟨(k.NtOpenFile st.calls).1, (k.NtOpenFile st.calls).2, ?_, ho st.calls⟩, rfl⟩
      simp
    · exact hrest.2 r hr

/-- Witness for C1: two calls on a machine without the device. -/
theorem C1_absent_device_server_disabled_witness :
    (SbieApi_Ioctl_calls absentKernel (initialState staleMem) [zeroFrame, zeroFrame]).length = 2 ∧
    ∀ r ∈ SbieApi_Ioctl_calls absentKernel (initialState staleMem) [zeroFrame, zeroFrame],
      r.status = STATUS_SERVER_DISABLED ∧
      r.status ≠ STATUS_OBJECT_NAME_NOT_FOUND ∧ r.status ≠ STATUS_NO_SUCH_DEVICE ∧
      (∃ s h, r.issued = [SysCall.NtOpenFile s h] ∧
        (s = STATUS_OBJECT_NAME_NOT_FOUND ∨ s = STATUS_NO_SUCH_DEVICE)) ∧
      r.handleAfter = INVALID_HANDLE_VALUE :=
  C1_absent_device_server_disabled absentKernel (initialState staleMem) [zeroFrame, zeroFrame]
    rfl (fun _ => Or.inl rfl)

theorem Mem.writeIf_self (m : Mem) (p : Nat) (hp : p ≠ 0) : (m.writeIf p 0) p = 0 := by
  simp [Mem.writeIf, Mem.write, hp]

theorem Mem.writeIf_keeps_zero (m : Mem) (p q : Nat) (h : m p = 0) :
    (m.writeIf q 0) p = 0 := by
  unfold Mem.writeIf Mem.write
  split
  · by_cases hpq : p = q
    · subst hpq; simp
    · simp [Function.update, hpq, h]
  · exact h

/-- C2 (as stated) fails: on a machine whose driver refuses the request,
SbieApi_QueryProcessEx2 called with the flag value 2 in out_session_id returns a
failure status and leaves the supplied box-name buffer (at 1000) holding its
stale first character, the reset being skipped for flag values 1 to 4; and
SbieApi_QueryPathList returns a failure status and leaves both supplied outputs
(the path string at 1000, the path length at 2000) as they were. -/
theorem C2_outputs_not_reset :
    NT_SUCCESS (SbieApi_QueryProcessEx2 17 ⟨0, 1, 2, 3, 4, 5, 6⟩ refusingKernel
        (initialState staleMem) 1234 96 1000 0 0 2 0).1 = false ∧
    (SbieApi_QueryProcessEx2 17 ⟨0, 1, 2, 3, 4, 5, 6⟩ refusingKernel
        (initialState staleMem) 1234 96 1000 0 0 2 0).2.mem 1000 = 65 ∧
    NT_SUCCESS (SbieApi_QueryPathList 17 ⟨0, 1, 2, 3, 4⟩ refusingKernel
        (initialState staleMem) 1 2000 1000 0).1 = false ∧
    (SbieApi_QueryPathList 17 ⟨0, 1, 2, 3, 4⟩ refusingKernel
        (initialState staleMem) 1 2000 1000 0).2.mem 1000 = 65 ∧
    (SbieApi_QueryPathList 17 ⟨0, 1, 2, 3, 4⟩ refusingKernel
        (initialState staleMem) 1 2000 1000 0).2.mem 2000 = 8 := by
  refine ⟨by decide, by decide, by decide, by decide, by decide⟩

/-- C2 (amended): when the underlying call fails, SbieApi_QueryProcessEx2 called
with out_session_id 0 or above 4 leaves the first character of every non-NULL
box-name, image-name and SID buffer and *out_session_id (when non-NULL) zero;
SbieApi_QueryBoxPath leaves the first character of every non-NULL path buffer
zero; SbieApi_MonitorGetEx leaves *Type and the first character of Name zero when
non-NULL. -/
theorem C2_reset_on_failure (c : Nat) (k : Kernel) (st : ApiState) :
    (∀ (L : API_QUERY_PROCESS_ARGS) (pid n box img sid sess ct : Nat),
      NT_SUCCESS (SbieApi_QueryProcessEx2 c L k st pid n box img sid sess ct).1 = false →
      (sess = 0 ∨ sess > 4) →
        (box ≠ 0 → (SbieApi_QueryProcessEx2 c L k st pid n box img sid sess ct).2.mem box = 0) ∧
        (img ≠ 0 → (SbieApi_QueryProcessEx2 c L k st pid n box img sid sess ct).2.mem img = 0) ∧
        (sid ≠ 0 → (SbieApi_QueryProcessEx2 c L k st pid n box img sid sess ct).2.mem sid = 0) ∧
        (sess ≠ 0 →
          (SbieApi_QueryProcessEx2 c L k st pid n box img sid sess ct).2.mem sess = 0)) ∧
    (∀ (L : API_QUERY_BOX_PATH_ARGS) (box file key ipc fl kl il : Nat),
      NT_SUCCESS (SbieApi_QueryBoxPath c L k st box file key ipc fl kl il).1 = false →
        (file ≠ 0 → (SbieApi_QueryBoxPath c L k st box file key ipc fl kl il).2.mem file = 0) ∧
        (key ≠ 0 → (SbieApi_QueryBoxPath c L k st box file key ipc fl kl il).2.mem key = 0) ∧
        (ipc ≠ 0 → (SbieApi_QueryBoxPath c L k st box file key ipc fl kl il).2.mem ipc = 0)) ∧
    (∀ (L : API_MONITOR_GET_EX_ARGS) (stack : Frame) (seq ty pid name : Nat),
      NT_SUCCESS (SbieApi_MonitorGetEx c L k st stack seq ty pid name).1 = false →
        (ty ≠ 0 → (SbieApi_MonitorGetEx c L k st stack seq ty pid name).2.mem ty = 0) ∧
        (name ≠ 0 → (SbieApi_MonitorGetEx c L k st stack seq ty pid name).2.mem name = 0)) := by
  refine ⟨?_, ?_, ?_⟩
  · intro L pid n box img sid sess ct
    simp only [SbieApi_QueryProcessEx2]
    generalize SbieApi_Ioctl k st _ = r
    intro hf hx
    have hs : NT_SUCCESS r.1 = false := by
      split_ifs at hf <;> exact hf
    have hn : ¬ (NT_SUCCESS r.1 = true) := by simp [hs]
    simp only [if_pos hn, if_pos hx]
    refine ⟨fun h => ?_, fun h => ?_, fun h => ?_, fun h => ?_⟩
    · exact Mem.writeIf_keeps_zero _ _ _ (Mem.writeIf_keeps_zero _ _ _
        (Mem.writeIf_keeps_zero _ _ _ (Mem.writeIf_self _ _ h)))
    · exact Mem.writeIf_keeps_zero _ _ _ (Mem.writeIf_keeps_zero _ _ _ (Mem.writeIf_self _ _ h))
    · exact Mem.writeIf_keeps_zero _ _ _ (Mem.writeIf_self _ _ h)
    · exact Mem.writeIf_self _ _ h
  · intro L box file key ipc fl kl il
    simp only [SbieApi_QueryBoxPath]
    generalize SbieApi_Ioctl k st _ = r
    intro hf
    have hs : NT_SUCCESS r.1 = false := by
      split_ifs at hf <;> exact hf
    have hn : ¬ (NT_SUCCESS r.1 = true) := by simp [hs]
    simp only [if_pos hn]
    refine ⟨fun h => ?_, fun h => ?_, fun h => ?_⟩
    · exact Mem.writeIf_keeps_zero _ _ _ (Mem.writeIf_keeps_zero _ _ _ (Mem.writeIf_self _ _ h))
    · exact Mem.writeIf_keeps_zero _ _ _ (Mem.writeIf_self _ _ h)
    · exact Mem.writeIf_self _ _ h
  · intro L stack seq ty pid name
    simp only [SbieApi_MonitorGetEx]
    generalize SbieApi_Ioctl k st _ = r
    intro hf
    have hs : NT_SUCCESS r.1 = false := by
      split_ifs at hf <;> exact hf
    have hn : ¬ (NT_SUCCESS r.1 = true) := by simp [hs]
    simp only [if_pos hn]
    refine ⟨fun h => ?_, fun h => ?_⟩
    · exact Mem.writeIf_keeps_zero _ _ _ (Mem.writeIf_self _ _ h)
    · exact Mem.writeIf_self _ _ h


/-- Witness for C2 (amended): a refused SbieApi_QueryProcessEx2 with a box-name
buffer at 1000 and a session-id variable at 3000, both holding stale data. -/
theorem C2_reset_on_failure_witness :
    (SbieApi_QueryProcessEx2 17 ⟨0, 1, 2, 3, 4, 5, 6⟩ refusingKernel (initialState staleMem)
        1234 96 1000 0 0 3000 0).2.mem 1000 = 0 ∧
    (SbieApi_QueryProcessEx2 17 ⟨0, 1, 2, 3, 4, 5, 6⟩ refusingKernel (initialState staleMem)
        1234 96 1000 0 0 3000 0).2.mem 3000 = 0 :=
  ⟨((C2_reset_on_failure 17 refusingKernel (initialState staleMem)).1 ⟨0, 1, 2, 3, 4, 5, 6⟩
      1234 96 1000 0 0 3000 0 (by decide) (by decide)).1 (by decide),
   ((C2_reset_on_failure 17 refusingKernel (initialState staleMem)).1 ⟨0, 1, 2, 3, 4, 5, 6⟩
      1234 96 1000 0 0 3000 0 (by decide) (by decide)).2.2.2 (by decide)⟩

/-- C3: CancelProcess issues a terminate call if and only if the process could be
opened, its times could be queried and the 64-bit creation time read equals
msg->create_time; the call then targets the opened handle with exit code 1, and
whenever the creation time that was read differs from msg->create_time the
history contains no terminate call. -/
theorem C3_cancel_terminates_iff_fence_matches (w : World) (msg : SVC_PROCESS_MSG) :
    ((∃ e ∈ CancelProcess w msg [], e.isTerminate = true) ↔
      (w.OpenProcess [] 0x0401 msg.process_id ≠ 0 ∧
       (w.GetProcessTimes
          [Ev.OpenProcess 0x0401 msg.process_id (w.OpenProcess [] 0x0401 msg.process_id)]
          (w.OpenProcess [] 0x0401 msg.process_id)).1 = true ∧
       (w.GetProcessTimes
          [Ev.OpenProcess 0x0401 msg.process_id (w.OpenProcess [] 0x0401 msg.process_id)]
          (w.OpenProcess [] 0x0401 msg.process_id)).2.asULONG64 = msg.create_time)) ∧
    (∀ e ∈ CancelProcess w msg [], e.isTerminate = true →
      e = Ev.TerminateProcess (w.OpenProcess [] 0x0401 msg.process_id) 1) ∧
    (∀ h ok t, Ev.GetProcessTimes h ok t ∈ CancelProcess w msg [] →
      t.asULONG64 ≠ msg.create_time →
      ∀ e ∈ CancelProcess w msg [], e.isTerminate = false) := by
  have hacc : PROCESS_TERMINATE ||| PROCESS_QUERY_INFORMATION = 0x0401 := by decide
  simp only [CancelProcess, hacc, List.nil_append]
  generalize w.OpenProcess [] 0x0401 msg.process_id = hp
  generalize w.GetProcessTimes [Ev.OpenProcess 0x0401 msg.process_id hp] hp = r
  refine ⟨?_, ?_, ?_⟩
  · split_ifs <;> simp_all [Ev.isTerminate]
  · split_ifs <;> simp_all [Ev.isTerminate]
  · split_ifs <;> simp_all [Ev.isTerminate]


/-- Witness for C3: the live process has creation time `5 + 2^32`; a message fenced
with that time terminates it, a message fenced with 99 does not. -/
theorem C3_cancel_terminates_iff_fence_matches_witness :
    (∃ e ∈ CancelProcess liveProcessWorld (cancelMsg 4294967301) [], e.isTerminate = true) ∧
    (∀ e ∈ CancelProcess liveProcessWorld (cancelMsg 99) [], e.isTerminate = false) :=
  ⟨(C3_cancel_terminates_iff_fence_matches liveProcessWorld (cancelMsg 4294967301)).1.2
      ⟨by decide, by decide, by decide⟩,
   (C3_cancel_terminates_iff_fence_matches liveProcessWorld (cancelMsg 99)).2.2
      80 true ⟨5, 1⟩ (by decide) (by decide)⟩

/-- C5 (the code at the failing input): with the hive busy, all 25 unload attempts
are made and none succeeds, yet the history of UnmountHive contains no 2208
diagnostic; the variable rc was overwritten by the status 0 of the last re-open. -/
theorem C5_exhausted_retries_without_diagnostic :
    ((UnmountHive busyHiveWorld unmountMsg []).filter Ev.isUnload).length = 25 ∧
    (UnmountHive busyHiveWorld unmountMsg []).filter Ev.isUnloadSuccess = [] ∧
    (UnmountHive busyHiveWorld unmountMsg []).filter Ev.is2208 = [] ∧
    (UnmountHive_unloadLoop busyHiveWorld "REGISTRY-USER-Sandbox_user_DefaultBox" 25 0 []).1 = 0 := by
  refine ⟨by decide, by decide, by decide, by decide⟩


/-! ### Shape of the history of `UnmountHive` -/

theorem UnmountHive_queryLoop_trace (w : World) (msg : SVC_UNMOUNT_MSG) (n : Nat)
    (tr : List Ev) :
    ∃ suf, UnmountHive_queryLoop w msg n tr = tr ++ suf ∧ ∀ e ∈ suf, e.isPrelude = true := by
  induction n generalizing tr with
  | zero => exact ⟨[], by simp [UnmountHive_queryLoop]⟩
  | succ n ih =>
    simp only [UnmountHive_queryLoop]
    generalize w.SbieApi_QueryProcess tr msg.process_id = rc
    split_ifs with h
    · exact ⟨[Ev.SbieApi_QueryProcess msg.process_id rc], rfl, by simp [Ev.isPrelude]⟩
    · obtain ⟨suf, hs, hp⟩ :=
        ih (tr ++ [Ev.SbieApi_QueryProcess msg.process_id rc] ++ [Ev.Sleep 100])
      refine ⟨[Ev.SbieApi_QueryProcess msg.process_id rc, Ev.Sleep 100] ++ suf, ?_, ?_⟩
      · rw [hs]; simp
      · intro e he
        rcases List.mem_append.1 he with h | h
        · simp only [List.mem_cons, List.mem_singleton, List.not_mem_nil, or_false] at h
          rcases h with rfl | rfl <;> rfl
        · exact hp e h

theorem UnmountHive_enumLoop_trace (w : World) (msg : SVC_UNMOUNT_MSG) (n : Nat)
    (tr : List Ev) :
    ∃ suf, (UnmountHive_enumLoop w msg n tr).2 = tr ++ suf ∧
      (∀ e ∈ suf, e.isPoll = true) ∧
      ((UnmountHive_enumLoop w msg n tr).1 = true →
        ∃ suf1 e0, suf = suf1 ++ [e0] ∧ e0.isEmptyEnum = true) ∧
      ((UnmountHive_enumLoop w msg n tr).1 = false → ∀ e ∈ suf, e.isEmptyEnum = false) := by
  induction n generalizing tr with
  | zero => exact ⟨[], by simp [UnmountHive_enumLoop]⟩
  | succ n ih =>
    simp only [UnmountHive_enumLoop]
    generalize w.SbieApi_EnumProcessEx tr msg.boxname false msg.session_id = r
    split_ifs with h
    · refine ⟨[Ev.SbieApi_EnumProcessEx msg.boxname false msg.session_id r.1 r.2], rfl,
        by simp [Ev.isPoll], fun _ => ⟨[], _, rfl, ?_⟩, by simp⟩
      simp [Ev.isEmptyEnum, h]
    · obtain ⟨suf, hs, hp, ht, hf⟩ :=
        ih (tr ++ [Ev.SbieApi_EnumProcessEx msg.boxname false msg.session_id r.1 r.2] ++
          [Ev.Sleep 100])
      refine ⟨[Ev.SbieApi_EnumProcessEx msg.boxname false msg.session_id r.1 r.2,
        Ev.Sleep 100] ++ suf, ?_, ?_, ?_, ?_⟩
      · rw [hs]; simp
      · intro e he
        rcases List.mem_append.1 he with h | h
        · simp only [List.mem_cons, List.mem_singleton, List.not_mem_nil, or_false] at h
          rcases h with rfl | rfl <;> rfl
        · exact hp e h
      · intro hb
        obtain ⟨suf1, e0, h1, h2⟩ := ht hb
        exact ⟨[Ev.SbieApi_EnumProcessEx msg.boxname false msg.session_id r.1 r.2,
          Ev.Sleep 100] ++ suf1, e0, by rw [h1]; simp, h2⟩
      · intro hb e he
        rcases List.mem_append.1 he with h' | h'
        · simp only [List.mem_cons, List.mem_singleton, List.not_mem_nil, or_false] at h'
          rcases h' with rfl | rfl
          · simpa [Ev.isEmptyEnum] using h
          · rfl
        · exact hf hb e h'

theorem UnmountHive_unloadLoop_trace (w : World) (root_path : String) (n : Nat) (rc : Int)
    (tr : List Ev) :
    ∃ suf, (UnmountHive_unloadLoop w root_path n rc tr).2 = tr ++ suf ∧
      ∀ e ∈ suf, e.isUnloadStep = true := by
  induction n generalizing tr rc with
  | zero => exact ⟨[], by simp [UnmountHive_unloadLoop]⟩
  | succ n ih =>
    simp only [UnmountHive_unloadLoop]
    generalize w.NtUnloadKey tr root_path = rc1
    generalize w.NtOpenKey (tr ++ [Ev.NtUnloadKey root_path rc1] ++ [Ev.Sleep 100]) root_path = r
    split_ifs with h1 h2 h3
    · exact ⟨[Ev.NtUnloadKey root_path rc1], rfl, by simp [Ev.isUnloadStep]⟩
    · exact ⟨[Ev.NtUnloadKey root_path rc1, Ev.Sleep 100, Ev.NtOpenKey root_path r.1 r.2],
        by simp, by simp [Ev.isUnloadStep]⟩
    · obtain ⟨suf, hs, hp⟩ := ih r.1
        (tr ++ [Ev.NtUnloadKey root_path rc1] ++ [Ev.Sleep 100] ++
          [Ev.NtOpenKey root_path r.1 r.2] ++ [Ev.NtClose r.2])
      refine ⟨[Ev.NtUnloadKey root_path rc1, Ev.Sleep 100, Ev.NtOpenKey root_path r.1 r.2,
        Ev.NtClose r.2] ++ suf, ?_, ?_⟩
      · rw [hs]; simp
      · intro e he
        rcases List.mem_append.1 he with h | h
        · simp only [List.mem_cons, List.mem_singleton, List.not_mem_nil, or_false] at h
          rcases h with rfl | rfl | rfl | rfl <;> rfl
        · exact hp e h
    · obtain ⟨suf, hs, hp⟩ := ih r.1
        (tr ++ [Ev.NtUnloadKey root_path rc1] ++ [Ev.Sleep 100] ++
          [Ev.NtOpenKey root_path r.1 r.2])
      refine ⟨[Ev.NtUnloadKey root_path rc1, Ev.Sleep 100, Ev.NtOpenKey root_path r.1 r.2]
        ++ suf, ?_, ?_⟩
      · rw [hs]; simp
      · intro e he
        rcases List.mem_append.1 he with h | h
        · simp only [List.mem_cons, List.mem_singleton, List.not_mem_nil, or_false] at h
          rcases h with rfl | rfl | rfl <;> rfl
        · exact hp e h

theorem Ev.isPrelude_not (e : Ev) (h : e.isPrelude = true) :
    e.isEnum = false ∧ e.isEmptyEnum = false ∧ e.isGetHive = false ∧ e.isUnload = false ∧
      e.is2208 = false := by
  cases e <;> simp_all [Ev.isPrelude, Ev.isEnum, Ev.isEmptyEnum, Ev.isGetHive, Ev.isUnload,
    Ev.is2208]

theorem Ev.isPoll_not (e : Ev) (h : e.isPoll = true) :
    e.isGetHive = false ∧ e.isUnload = false ∧ e.is2208 = false := by
  cases e <;> simp_all [Ev.isPoll, Ev.isGetHive, Ev.isUnload, Ev.is2208]

theorem Ev.isUnloadStep_not (e : Ev) (h : e.isUnloadStep = true) :
    e.isEnum = false ∧ e.isGetHive = false := by
  cases e <;> simp_all [Ev.isUnloadStep, Ev.isEnum, Ev.isGetHive]

theorem UnmountHive_waitExit_trace (w : World) (msg : SVC_UNMOUNT_MSG) (tr : List Ev) :
    ∃ suf, UnmountHive_waitExit w msg tr = tr ++ suf ∧ ∀ e ∈ suf, e.isPrelude = true := by
  simp only [UnmountHive_waitExit]
  generalize w.OpenProcess tr SYNCHRONIZE msg.process_id = hp
  generalize w.WaitForSingleObject (tr ++ [Ev.OpenProcess SYNCHRONIZE msg.process_id hp]) hp
    (2 * 1000) = r
  by_cases h0 : hp ≠ 0
  · simp only [if_pos h0]
    by_cases hr : r = 0
    · refine ⟨[Ev.OpenProcess SYNCHRONIZE msg.process_id hp,
        Ev.WaitForSingleObject hp (2 * 1000) r, Ev.CloseHandle hp], by simp [hr], ?_⟩
      simp [Ev.isPrelude]
    · obtain ⟨suf, hs, hp'⟩ := UnmountHive_queryLoop_trace w msg 20
        (tr ++ [Ev.OpenProcess SYNCHRONIZE msg.process_id hp] ++
          [Ev.WaitForSingleObject hp (2 * 1000) r] ++ [Ev.CloseHandle hp])
      refine ⟨[Ev.OpenProcess SYNCHRONIZE msg.process_id hp,
        Ev.WaitForSingleObject hp (2 * 1000) r, Ev.CloseHandle hp] ++ suf, ?_, ?_⟩
      · simp at hs
        simp [hr, hs]
      · intro e he
        rcases List.mem_append.1 he with h | h
        · simp only [List.mem_cons, List.mem_singleton, List.not_mem_nil, or_false] at h
          rcases h with rfl | rfl | rfl <;> rfl
        · exact hp' e h
  · simp only [if_neg h0]
    obtain ⟨suf, hs, hp'⟩ := UnmountHive_queryLoop_trace w msg 20
      (tr ++ [Ev.OpenProcess SYNCHRONIZE msg.process_id hp])
    refine ⟨[Ev.OpenProcess SYNCHRONIZE msg.process_id hp] ++ suf, ?_, ?_⟩
    · simp [hs]
    · intro e he
      rcases List.mem_append.1 he with h | h
      · simp only [List.mem_cons, List.mem_singleton, List.not_mem_nil, or_false] at h
        rcases h with rfl; rfl
      · exact hp' e h

theorem UnmountHive_checkEmpty_trace (w : World) (msg : SVC_UNMOUNT_MSG) (tr : List Ev) :
    ∃ suf, (UnmountHive_checkEmpty w msg tr).2 = tr ++ suf ∧
      ((UnmountHive_checkEmpty w msg tr).1 = true →
        ∃ X e0 p, suf = X ++ [e0, Ev.HeapFree p] ∧ e0.isEmptyEnum = true ∧
          ∀ e ∈ X, e.isPrelude = true ∨ e.isPoll = true) ∧
      ((UnmountHive_checkEmpty w msg tr).1 = false →
        ∀ e ∈ suf, (e.isPrelude = true ∨ e.isPoll = true) ∧ e.isEmptyEnum = false) := by
  simp only [UnmountHive_checkEmpty]
  generalize w.HeapAlloc tr PAGE_SIZE = pids
  by_cases h0 : pids ≠ 0
  · simp only [if_pos h0]
    obtain ⟨suf, hs, hp, ht, hf⟩ :=
      UnmountHive_enumLoop_trace w msg 20 (tr ++ [Ev.HeapAlloc PAGE_SIZE pids])
    refine ⟨[Ev.HeapAlloc PAGE_SIZE pids] ++ suf ++ [Ev.HeapFree pids], ?_, ?_, ?_⟩
    · rw [hs]; simp
    · intro hb
      obtain ⟨suf1, e0, h1, h2⟩ := ht hb
      refine ⟨[Ev.HeapAlloc PAGE_SIZE pids] ++ suf1, e0, pids, by rw [h1]; simp, h2, ?_⟩
      intro e he
      rcases List.mem_append.1 he with h | h
      · simp only [List.mem_singleton] at h
        subst h; exact Or.inl rfl
      · exact Or.inr (hp e (by rw [h1]; exact List.mem_append_left _ h))
    · intro hb e he
      simp only [List.mem_append, List.mem_singleton] at he
      rcases he with (rfl | h) | rfl
      · exact ⟨Or.inl rfl, rfl⟩
      · exact ⟨Or.inr (hp e h), hf hb e h⟩
      · exact ⟨Or.inl rfl, rfl⟩
  · simp only [if_neg h0]
    refine ⟨[Ev.HeapAlloc PAGE_SIZE pids], rfl, by simp, ?_⟩
    intro _ e he
    simp only [List.mem_singleton] at he
    subst he; exact ⟨Or.inl rfl, rfl⟩

theorem UnmountHive_unload_trace (w : World) (msg : SVC_UNMOUNT_MSG) (rc : Int)
    (tr : List Ev) :
    ∃ st path U, UnmountHive_unload w msg rc tr =
        tr ++ Ev.SbieApi_GetUnmountHive st path :: U ∧
      (∀ e ∈ U, e.isUnloadStep = true) ∧ (path = "" → U = []) := by
  simp only [UnmountHive_unload]
  generalize w.SbieApi_GetUnmountHive tr = r
  by_cases hp : r.2 = ""
  · simp only [if_pos hp]
    exact ⟨r.1, r.2, [], by simp, by simp, fun _ => rfl⟩
  · simp only [if_neg hp]
    obtain ⟨suf, hs, hu⟩ := UnmountHive_unloadLoop_trace w r.2 25 rc
      (tr ++ [Ev.SbieApi_GetUnmountHive r.1 r.2])
    split_ifs with h
    · refine ⟨r.1, r.2, suf ++ [Ev.SbieApi_LogEx msg.session_id 2208 "[%08X]"
        [LogArg.num (UnmountHive_unloadLoop w r.2 25 rc
          (tr ++ [Ev.SbieApi_GetUnmountHive r.1 r.2])).1]], ?_, ?_, fun h' => absurd h' hp⟩
      · rw [hs]; simp
      · intro e he
        rcases List.mem_append.1 he with h' | h'
        · exact hu e h'
        · simp only [List.mem_singleton] at h'
          subst h'; rfl
    · exact ⟨r.1, r.2, suf, by rw [hs]; simp, hu, fun h' => absurd h' hp⟩

/-- The two possible shapes of the history of `UnmountHive`: either it holds no
empty poll, no path query, no unload attempt and no 2208 diagnostic; or it is
`X`, an empty poll, the release of the pid buffer, the path query, `U`, where `X`
comes from the wait and the polls and `U` from the unload loop. -/
theorem UnmountHive_shape (w : World) (msg : SVC_UNMOUNT_MSG) :
    (∀ e ∈ UnmountHive w msg [], e.isEmptyEnum = false ∧ e.isGetHive = false ∧
        e.isUnload = false ∧ e.is2208 = false) ∨
    (∃ X e0 p st path U,
      UnmountHive w msg [] =
        X ++ e0 :: Ev.HeapFree p :: Ev.SbieApi_GetUnmountHive st path :: U ∧
      e0.isEmptyEnum = true ∧
      (∀ e ∈ X, e.isPrelude = true ∨ e.isPoll = true) ∧
      (∀ e ∈ U, e.isUnloadStep = true) ∧ (path = "" → U = [])) := by
  simp only [UnmountHive]
  obtain ⟨s1, h1, p1⟩ := UnmountHive_waitExit_trace w msg []
  obtain ⟨s2, h2, t2, f2⟩ := UnmountHive_checkEmpty_trace w msg (UnmountHive_waitExit w msg [])
  by_cases hb : (UnmountHive_checkEmpty w msg (UnmountHive_waitExit w msg [])).1 = true
  · right
    simp only [if_pos hb]
    obtain ⟨X, e0, p, hX, he0, hXp⟩ := t2 hb
    obtain ⟨st, path, U, hU, hUs, hUe⟩ := UnmountHive_unload_trace w msg 0
      (UnmountHive_checkEmpty w msg (UnmountHive_waitExit w msg [])).2
    refine ⟨s1 ++ X, e0, p, st, path, U, ?_, he0, ?_, hUs, hUe⟩
    · rw [hU, h2, h1, hX]; simp
    · intro e he
      rcases List.mem_append.1 he with h | h
      · exact Or.inl (p1 e h)
      · exact hXp e h
  · left
    simp only [if_neg hb]
    have hb' : (UnmountHive_checkEmpty w msg (UnmountHive_waitExit w msg [])).1 = false := by
      simpa using hb
    rw [h2, h1]
    intro e he
    simp only [List.nil_append, List.mem_append] at he
    rcases he with h | h
    · have := Ev.isPrelude_not e (p1 e h)
      exact ⟨this.2.1, this.2.2.1, this.2.2.2.1, this.2.2.2.2⟩
    · obtain ⟨hc, hne⟩ := f2 hb' e h
      rcases hc with hc | hc
      · have := Ev.isPrelude_not e hc
        exact ⟨hne, this.2.2.1, this.2.2.2.1, this.2.2.2.2⟩
      · have := Ev.isPoll_not e hc
        exact ⟨hne, this.1, this.2.1, this.2.2⟩

theorem Ev.isEmptyEnum_not (e : Ev) (h : e.isEmptyEnum = true) :
    e.isEnum = true ∧ e.isGetHive = false ∧ e.isUnload = false ∧ e.is2208 = false := by
  cases e <;> simp_all [Ev.isEmptyEnum, Ev.isEnum, Ev.isGetHive, Ev.isUnload, Ev.is2208]

/-- If a list is cut in front of an element of a kind that does not occur in its
first part `A`, the cut lies behind `A`. -/
theorem cut_behind_prefix {α : Type} (Q : α → Bool) (A : List α) :
    ∀ (B pre post : List α) (e : α), (∀ a ∈ A, Q a = false) → Q e = true →
      A ++ B = pre ++ e :: post → ∃ pre2, pre = A ++ pre2 ∧ B = pre2 ++ e :: post := by
  induction A with
  | nil => intro B pre post e _ _ h; exact ⟨pre, by simp, by simpa using h⟩
  | cons a A ih =>
    intro B pre post e hA he h
    cases pre with
    | nil =>
      simp only [List.cons_append, List.nil_append, List.cons.injEq] at h
      have := hA a (List.mem_cons_self _ _)
      rw [h.1, he] at this
      exact absurd this (by simp)
    | cons b pre =>
      simp only [List.cons_append, List.cons.injEq] at h
      obtain ⟨pre2, h1, h2⟩ :=
        ih B pre post e (fun x hx => hA x (List.mem_cons_of_mem _ hx)) he h.2
      exact ⟨pre2, by rw [h.1, h1]; simp, h2⟩

/-- If the only element of some kind in a list is `g`, every cut in front of an
element of that kind is the cut in front of `g`. -/
theorem cut_unique {α : Type} (P : α → Bool) (X Y pre post : List α) (g g' : α)
    (hX : ∀ e ∈ X, P e = false) (hY : ∀ e ∈ Y, P e = false) (hg : P g' = true)
    (h : X ++ g :: Y = pre ++ g' :: post) : pre = X ∧ g' = g ∧ post = Y := by
  obtain ⟨pre2, h1, h2⟩ := cut_behind_prefix P X (g :: Y) pre post g' hX hg h
  cases pre2 with
  | nil =>
    simp only [List.nil_append, List.cons.injEq] at h2
    exact ⟨by simpa using h1, h2.1.symm, h2.2.symm⟩
  | cons c pre2 =>
    simp only [List.cons_append, List.cons.injEq] at h2
    have := hY g' (by rw [h2.2]; simp)
    rw [hg] at this
    exact absurd this (by simp)

/-- C4: in every history of UnmountHive (any behaviour of the driver and the
OS), a query of the mount path comes directly after a part of the history whose
last enumeration poll returned success with zero processes, and no enumeration
is made after that poll; every NtUnloadKey attempt comes after a mount-path query
that returned a non-empty path; and if no enumeration poll reports zero
processes, or the path returned is empty, the history holds no unload attempt
and no 2208 diagnostic. -/
theorem C4_unload_only_after_empty_poll (w : World) (msg : SVC_UNMOUNT_MSG) :
    (∀ pre g post, UnmountHive w msg [] = pre ++ g :: post → g.isGetHive = true →
      ∃ pre1 e0 pre2, pre = pre1 ++ e0 :: pre2 ∧ e0.isEmptyEnum = true ∧
        (∀ e ∈ pre2, e.isEnum = false) ∧ (∀ e ∈ post, e.isEnum = false)) ∧
    (∀ pre u post, UnmountHive w msg [] = pre ++ u :: post → u.isUnload = true →
      ∃ g ∈ pre, g.isGetHiveNonEmpty = true) ∧
    ((∀ e ∈ UnmountHive w msg [], e.isEmptyEnum = false) →
      ∀ e ∈ UnmountHive w msg [], e.isUnload = false ∧ e.is2208 = false) ∧
    (∀ st, Ev.SbieApi_GetUnmountHive st "" ∈ UnmountHive w msg [] →
      ∀ e ∈ UnmountHive w msg [], e.isUnload = false ∧ e.is2208 = false) := by
  rcases UnmountHive_shape w msg with hA | ⟨X, e0, p, st, path, U, hT, he0, hX, hU, hUe⟩
  · refine ⟨?_, ?_, ?_, ?_⟩
    · intro pre g post h hg
      have := (hA g (by rw [h]; simp)).2.1
      rw [hg] at this; exact absurd this (by simp)
    · intro pre u post h hu
      have := (hA u (by rw [h]; simp)).2.2.1
      rw [hu] at this; exact absurd this (by simp)
    · intro _ e he; exact ⟨(hA e he).2.2.1, (hA e he).2.2.2⟩
    · intro _ _ e he; exact ⟨(hA e he).2.2.1, (hA e he).2.2.2⟩
  · have hXg : ∀ e ∈ X, e.isGetHive = false ∧ e.isUnload = false ∧ e.is2208 = false := by
      intro e he
      rcases hX e he with h | h
      · have := Ev.isPrelude_not e h
        exact ⟨this.2.2.1, this.2.2.2.1, this.2.2.2.2⟩
      · exact Ev.isPoll_not e h
    have h0 := Ev.isEmptyEnum_not e0 he0
    refine ⟨?_, ?_, ?_, ?_⟩
    · intro pre g post h hg
      have hcut : (X ++ [e0, Ev.HeapFree p]) ++ Ev.SbieApi_GetUnmountHive st path :: U =
          pre ++ g :: post := by rw [← h, hT]; simp
      have hpre : ∀ e ∈ X ++ [e0, Ev.HeapFree p], e.isGetHive = false := by
        intro e he
        simp only [List.mem_append, List.mem_cons, List.mem_singleton, List.not_mem_nil,
          or_false] at he
        rcases he with h | rfl | rfl
        · exact (hXg e h).1
        · exact h0.2.1
        · rfl
      obtain ⟨h1, _, h3⟩ := cut_unique Ev.isGetHive _ _ _ _ _ _ hpre
        (fun e he => (Ev.isUnloadStep_not e (hU e he)).2) hg hcut
      refine ⟨X, e0, [Ev.HeapFree p], by rw [h1], he0, by simp [Ev.isEnum], ?_⟩
      intro e he
      rw [h3] at he
      exact (Ev.isUnloadStep_not e (hU e he)).1
    · intro pre u post h hu
      have hcut : (X ++ [e0, Ev.HeapFree p, Ev.SbieApi_GetUnmountHive st path]) ++ U =
          pre ++ u :: post := by rw [← h, hT]; simp
      have hpre : ∀ e ∈ X ++ [e0, Ev.HeapFree p, Ev.SbieApi_GetUnmountHive st path],
          e.isUnload = false := by
        intro e he
        simp only [List.mem_append, List.mem_cons, List.mem_singleton, List.not_mem_nil,
          or_false] at he
        rcases he with h | rfl | rfl | rfl
        · exact (hXg e h).2.1
        · exact h0.2.2.1
        · rfl
        · rfl
      obtain ⟨pre2, h1, h2⟩ := cut_behind_prefix Ev.isUnload _ _ _ _ _ hpre hu hcut
      refine ⟨Ev.SbieApi_GetUnmountHive st path, by rw [h1]; simp, ?_⟩
      have hne : path ≠ "" := by
        intro hp
        rw [hUe hp] at h2
        simp at h2
      simp [Ev.isGetHiveNonEmpty, hne]
    · intro hno e _
      have := hno e0 (by rw [hT]; simp)
      rw [he0] at this; exact absurd this (by simp)
    · intro st' hmem e he
      rw [hT] at hmem
      simp only [List.mem_append, List.mem_cons] at hmem
      have hpath : path = "" := by
        rcases hmem with h | h | h | h | h
        · have := (hXg _ h).1
          simp [Ev.isGetHive] at this
        · rw [← h] at h0
          simp [Ev.isGetHive] at h0
        · simp at h
        · simp only [Ev.SbieApi_GetUnmountHive.injEq] at h
          exact h.2.symm
        · have := (Ev.isUnloadStep_not _ (hU _ h)).2
          simp [Ev.isGetHive] at this
      rw [hT, hUe hpath] at he
      simp only [List.mem_append, List.mem_cons, List.mem_singleton, List.not_mem_nil,
        or_false] at he
      rcases he with h | rfl | rfl | rfl
      · exact ⟨(hXg e h).2.1, (hXg e h).2.2⟩
      · exact ⟨h0.2.2.1, h0.2.2.2⟩
      · exact ⟨rfl, rfl⟩
      · exact ⟨rfl, rfl⟩

/-- Witness for C4: on the machine with the busy hive the mount path is queried
after five calls, the fourth of which is the empty poll. -/
theorem C4_unload_only_after_empty_poll_witness :
    ∃ pre1 e0 pre2,
      [Ev.OpenProcess SYNCHRONIZE 1234 0, Ev.SbieApi_QueryProcess 1234 STATUS_ACCESS_DENIED,
        Ev.HeapAlloc PAGE_SIZE 5000, Ev.SbieApi_EnumProcessEx "DefaultBox" false 1 0 0,
        Ev.HeapFree 5000] = pre1 ++ e0 :: pre2 ∧
      e0.isEmptyEnum = true ∧ (∀ e ∈ pre2, e.isEnum = false) ∧
      ∀ e ∈ (UnmountHive busyHiveWorld unmountMsg []).drop 6, e.isEnum = false :=
  (C4_unload_only_after_empty_poll busyHiveWorld unmountMsg).1
    [Ev.OpenProcess SYNCHRONIZE 1234 0, Ev.SbieApi_QueryProcess 1234 STATUS_ACCESS_DENIED,
      Ev.HeapAlloc PAGE_SIZE 5000, Ev.SbieApi_EnumProcessEx "DefaultBox" false 1 0 0,
      Ev.HeapFree 5000]
    (Ev.SbieApi_GetUnmountHive 0 "REGISTRY-USER-Sandbox_user_DefaultBox")
    ((UnmountHive busyHiveWorld unmountMsg []).drop 6) (by decide) rfl

/-! ### The worker and the shutdown -/

/-- C6: for every port message whose type is not LPC_DATAGRAM or whose data length
is below 4, MsgWorkerThread makes no call at all (no handler, no log); the wake
message built by ShutdownPortAndThreads has data length 0 and is dropped in this
way, whatever type it carries when it is received. -/
theorem C6_short_or_foreign_message_dropped (d : Defs) (msg : PORT_MESSAGE)
    (h : msg.Type_ ≠ d.LPC_DATAGRAM ∨ msg.DataLength < 4) :
    MsgWorkerThread d msg = [] ∧
    (wakeMessage d).DataLength = 0 ∧
    (wakeMessage d).Type_ = 0 ∧
    MsgWorkerThread d (wakeMessage d) = [] ∧
    ∀ ty, MsgWorkerThread d { wakeMessage d with Type_ := ty } = [] := by
  refine ⟨?_, rfl, rfl, ?_, ?_⟩
  · unfold MsgWorkerThread
    rcases h with h | h
    · simp [h]
    · simp [h]
  · simp [MsgWorkerThread, wakeMessage]
  · intro ty
    simp [MsgWorkerThread, wakeMessage]

/-- Witness for C6: a datagram that carries two bytes of data. -/
theorem C6_short_or_foreign_message_dropped_witness :
    MsgWorkerThread defs64 ⟨2, 42, 3, 0, [], [1, 0]⟩ = [] ∧
    (wakeMessage defs64).DataLength = 0 ∧
    (wakeMessage defs64).Type_ = 0 ∧
    MsgWorkerThread defs64 (wakeMessage defs64) = [] ∧
    ∀ ty, MsgWorkerThread defs64 { wakeMessage defs64 with Type_ := ty } = [] :=
  C6_short_or_foreign_message_dropped defs64 ⟨2, 42, 3, 0, [], [1, 0]⟩ (Or.inr (by decide))

theorem ShutdownPortAndThreads_wakeLoop_trace (d : Defs) (PortHandle n : Nat)
    (tr : List PortEv) :
    ShutdownPortAndThreads_wakeLoop d PortHandle n tr =
      tr ++ List.replicate n (PortEv.NtRequestPort PortHandle (wakeMessage d)) := by
  induction n generalizing tr with
  | zero => simp [ShutdownPortAndThreads_wakeLoop]
  | succ n ih => simp [ShutdownPortAndThreads_wakeLoop, ih, List.replicate_succ]

theorem ShutdownPortAndThreads_killLoop_trace (threads : List Nat) (n i : Nat)
    (tr : List PortEv) :
    ShutdownPortAndThreads_killLoop threads n i tr =
      tr ++ (List.range n).map fun j => PortEv.TerminateThread (threads.getD (i + j) 0) 0 := by
  induction n generalizing tr i with
  | zero => simp [ShutdownPortAndThreads_killLoop]
  | succ n ih =>
    simp only [ShutdownPortAndThreads_killLoop, ih, List.range_succ_eq_map, List.map_cons,
      List.map_map, List.append_assoc, List.singleton_append, Nat.add_zero]
    congr 2
    apply List.map_congr_left
    intro j _
    simp only [Function.comp_apply]
    congr 2
    omega

/-- The history of `ShutdownPortAndThreads`: the exchange, the wake messages, the
calls `W` of the wait and termination part, the close. -/
theorem ShutdownPortAndThreads_trace (h : Host) (d : Defs) (st : DriverAssist) :
    ∃ W, (ShutdownPortAndThreads h d st []).2 =
        PortEv.InterlockedExchangePointer 0 st.m_PortHandle ::
          ((if st.m_PortHandle ≠ 0 then
              List.replicate d.NUMBER_OF_THREADS
                (PortEv.NtRequestPort st.m_PortHandle (wakeMessage d))
            else []) ++ W ++
           (if st.m_PortHandle ≠ 0 then [PortEv.NtClose st.m_PortHandle] else [])) ∧
      ∀ e ∈ W, e.isRequestPort = false ∧ e.isClose = false := by
  simp only [ShutdownPortAndThreads, ShutdownPortAndThreads_wakeLoop_trace,
    ShutdownPortAndThreads_killLoop_trace, List.nil_append]
  generalize hT : (if st.m_PortHandle ≠ 0 then
      [PortEv.InterlockedExchangePointer 0 st.m_PortHandle] ++
        List.replicate d.NUMBER_OF_THREADS (PortEv.NtRequestPort st.m_PortHandle (wakeMessage d))
      else [PortEv.InterlockedExchangePointer 0 st.m_PortHandle]) = T
  have hT' : T = PortEv.InterlockedExchangePointer 0 st.m_PortHandle ::
      (if st.m_PortHandle ≠ 0 then List.replicate d.NUMBER_OF_THREADS
        (PortEv.NtRequestPort st.m_PortHandle (wakeMessage d)) else []) := by
    rw [← hT]; split_ifs <;> simp
  cases hth : st.m_Threads with
  | none =>
    refine ⟨[], ?_, by simp⟩
    rw [hT']; split_ifs <;> simp
  | some threads =>
    simp only
    generalize h.WaitForMultipleObjects T = r
    by_cases hr : WAIT_TIMEOUT = r
    · simp only [if_pos hr]
      refine ⟨[PortEv.WaitForMultipleObjects d.NUMBER_OF_THREADS threads true 5000 r] ++
        ((List.range d.NUMBER_OF_THREADS).map fun j =>
          PortEv.TerminateThread (threads.getD (0 + j) 0) 0) ++
        [PortEv.WaitForMultipleObjects d.NUMBER_OF_THREADS threads true 5000
          (h.WaitForMultipleObjects
            (T ++ [PortEv.WaitForMultipleObjects d.NUMBER_OF_THREADS threads true 5000 r] ++
              (List.range d.NUMBER_OF_THREADS).map fun j =>
                PortEv.TerminateThread (threads.getD (0 + j) 0) 0))], ?_, ?_⟩
      · rw [hT']; split_ifs <;> simp
      · intro e he
        simp only [List.mem_append, List.mem_singleton, List.mem_map, List.mem_range] at he
        rcases he with (rfl | ⟨j, _, rfl⟩) | rfl <;> exact ⟨rfl, rfl⟩
    · simp only [if_neg hr]
      refine ⟨[PortEv.WaitForMultipleObjects d.NUMBER_OF_THREADS threads true 5000 r], ?_, ?_⟩
      · rw [hT']; split_ifs <;> simp
      · intro e he
        simp only [List.mem_singleton] at he
        subst he; exact ⟨rfl, rfl⟩

/-- C7: ShutdownPortAndThreads leaves m_PortHandle NULL; its first call is the
exchange that stores NULL and yields the previous handle; if that handle was
non-NULL the rest of the history holds exactly NUMBER_OF_THREADS messages sent
into the port, each the header-only wake message sent to the previous handle, and
if it was NULL no message is sent. -/
theorem C7_shutdown_wakes_each_listener (h : Host) (d : Defs) (st : DriverAssist) :
    (ShutdownPortAndThreads h d st []).1.m_PortHandle = 0 ∧
    (∃ rest, (ShutdownPortAndThreads h d st []).2 =
        PortEv.InterlockedExchangePointer 0 st.m_PortHandle :: rest ∧
      (st.m_PortHandle ≠ 0 →
        rest.filter PortEv.isRequestPort =
          List.replicate d.NUMBER_OF_THREADS
            (PortEv.NtRequestPort st.m_PortHandle (wakeMessage d))) ∧
      (st.m_PortHandle = 0 → rest.filter PortEv.isRequestPort = [])) ∧
    (wakeMessage d).DataLength = 0 ∧
    (wakeMessage d).TotalLength = toUSHORT d.sizeof_PORT_MESSAGE := by
  refine ⟨rfl, ?_, rfl, rfl⟩
  obtain ⟨W, hW, hWp⟩ := ShutdownPortAndThreads_trace h d st
  have hWf : W.filter PortEv.isRequestPort = [] := by
    rw [List.filter_eq_nil_iff]
    intro e he
    simp [(hWp e he).1]
  refine ⟨_, hW, ?_, ?_⟩
  · intro hp
    simp only [if_pos hp, List.filter_append, hWf, List.append_nil]
    simp [List.filter_replicate, PortEv.isRequestPort]
  · intro hp
    have hn : ¬ (st.m_PortHandle ≠ 0) := by simp [hp]
    simp only [if_neg hn, List.filter_append, hWf]
    simp

/-- Witness for C7: a shutdown with the port open and with the port already NULL. -/
theorem C7_shutdown_wakes_each_listener_witness :
    ((ShutdownPortAndThreads healthyHost defs64 ⟨7, some [1, 2, 3, 4, 5]⟩ []).2.tail.filter
        PortEv.isRequestPort =
      List.replicate 5 (PortEv.NtRequestPort 7 (wakeMessage defs64))) ∧
    ((ShutdownPortAndThreads healthyHost defs64 ⟨0, some [1, 2, 3, 4, 5]⟩ []).2.tail.filter
        PortEv.isRequestPort = []) := by
  constructor
  · obtain ⟨rest, h1, h2, _⟩ :=
      (C7_shutdown_wakes_each_listener healthyHost defs64 ⟨7, some [1, 2, 3, 4, 5]⟩).2.1
    rw [h1]
    exact h2 (by decide)
  · obtain ⟨rest, h1, _, h3⟩ :=
      (C7_shutdown_wakes_each_listener healthyHost defs64 ⟨0, some [1, 2, 3, 4, 5]⟩).2.1
    rw [h1]
    exact h3 rfl

/-- C8: in every run of ShutdownPortAndThreads that starts with a non-NULL port,
the history ends with the close of that port handle and holds no other close: the
port is closed exactly once, after every wake message, after the waits and after
any forced termination. -/
theorem C8_port_closed_once_and_last (h : Host) (d : Defs) (st : DriverAssist)
    (hp : st.m_PortHandle ≠ 0) :
    (∃ pre, (ShutdownPortAndThreads h d st []).2 = pre ++ [PortEv.NtClose st.m_PortHandle] ∧
      ∀ e ∈ pre, e.isClose = false) ∧
    (ShutdownPortAndThreads h d st []).2.filter PortEv.isClose =
      [PortEv.NtClose st.m_PortHandle] := by
  obtain ⟨W, hW, hWp⟩ := ShutdownPortAndThreads_trace h d st
  simp only [if_pos hp] at hW
  have hpre : ∀ e ∈ PortEv.InterlockedExchangePointer 0 st.m_PortHandle ::
      (List.replicate d.NUMBER_OF_THREADS (PortEv.NtRequestPort st.m_PortHandle (wakeMessage d))
        ++ W), e.isClose = false := by
    intro e he
    simp only [List.mem_cons, List.mem_append, List.mem_replicate] at he
    rcases he with rfl | ⟨_, rfl⟩ | he
    · rfl
    · rfl
    · exact (hWp e he).2
  refine ⟨⟨_, by rw [hW]; simp, hpre⟩, ?_⟩
  have hf : (PortEv.InterlockedExchangePointer 0 st.m_PortHandle ::
      (List.replicate d.NUMBER_OF_THREADS (PortEv.NtRequestPort st.m_PortHandle (wakeMessage d))
        ++ W)).filter PortEv.isClose = [] := by
    rw [List.filter_eq_nil_iff]
    intro e he
    simp [hpre e he]
  have hsplit : (ShutdownPortAndThreads h d st []).2 =
      (PortEv.InterlockedExchangePointer 0 st.m_PortHandle ::
        (List.replicate d.NUMBER_OF_THREADS
          (PortEv.NtRequestPort st.m_PortHandle (wakeMessage d)) ++ W)) ++
      [PortEv.NtClose st.m_PortHandle] := by rw [hW]; simp
  rw [hsplit, List.filter_append, hf]
  simp [PortEv.isClose]

/-- Witness for C8: a shutdown whose first wait times out. -/
theorem C8_port_closed_once_and_last_witness :
    (∃ pre, (ShutdownPortAndThreads { healthyHost with WaitForMultipleObjects := fun _ => 258 }
        defs64 ⟨7, some [1, 2, 3, 4, 5]⟩ []).2 = pre ++ [PortEv.NtClose 7] ∧
      ∀ e ∈ pre, e.isClose = false) ∧
    (ShutdownPortAndThreads { healthyHost with WaitForMultipleObjects := fun _ => 258 }
        defs64 ⟨7, some [1, 2, 3, 4, 5]⟩ []).2.filter PortEv.isClose = [PortEv.NtClose 7] :=
  C8_port_closed_once_and_last { healthyHost with WaitForMultipleObjects := fun _ => 258 }
    defs64 ⟨7, some [1, 2, 3, 4, 5]⟩ (by decide)

/-! ### Startup -/

theorem spawns_append (a b : List PortEv) : spawns (a ++ b) = spawns a ++ spawns b := by
  simp [spawns, List.filterMap_append]

theorem threadsTerminated_append (a b : List PortEv) :
    threadsTerminated (a ++ b) = threadsTerminated a ++ threadsTerminated b := by
  simp [threadsTerminated, List.filterMap_append]

theorem InitializePortAndThreads_spawnLoop_trace (h : Host) (d : Defs) (this : Nat) (n : Nat) :
    ∀ (i : Nat) (threads : List Nat) (tr : List PortEv),
    ∃ S, (InitializePortAndThreads_spawnLoop h d this n i threads tr).2.2 = tr ++ S ∧
      threadsTerminated S = [] ∧
      ((InitializePortAndThreads_spawnLoop h d this n i threads tr).1 = false →
        ∃ ok, spawns S = ok ++ [0] ∧ (∀ t ∈ ok, t ≠ 0) ∧ ok.length < n) := by
  induction n with
  | zero =>
    intro i threads tr
    exact ⟨[], by simp [InitializePortAndThreads_spawnLoop], rfl,
      by simp [InitializePortAndThreads_spawnLoop]⟩
  | succ n ih =>
    intro i threads tr
    simp only [InitializePortAndThreads_spawnLoop]
    generalize h.CreateThread tr StartRoutine.ThreadStub this = t
    by_cases ht : t = 0
    · simp only [if_pos ht]
      refine ⟨[PortEv.CreateThread StartRoutine.ThreadStub this t,
        PortEv.LogEvent d.MSG_9234 0x9253
          (h.GetLastError (tr ++ [PortEv.CreateThread StartRoutine.ThreadStub this t]))],
        by simp, rfl, fun _ => ⟨[], ?_, by simp, by simp⟩⟩
      simp [spawns, ht]
    · simp only [if_neg ht]
      obtain ⟨S, hS, hT, hF⟩ := ih (i + 1) (threads.set i t)
        (tr ++ [PortEv.CreateThread StartRoutine.ThreadStub this t])
      refine ⟨PortEv.CreateThread StartRoutine.ThreadStub this t :: S, by rw [hS]; simp, ?_, ?_⟩
      · simpa [threadsTerminated] using hT
      · intro hf
        obtain ⟨ok, h1, h2, h3⟩ := hF hf
        refine ⟨t :: ok, ?_, ?_, by simp; omega⟩
        · have : spawns (PortEv.CreateThread StartRoutine.ThreadStub this t :: S) =
              t :: spawns S := by simp [spawns]
          rw [this, h1]; simp
        · intro x hx
          simp only [List.mem_cons] at hx
          rcases hx with rfl | hx
          · exact ht
          · exact h2 x hx

/-- C9 (as stated) fails: when the third of five listener spawns fails,
InitializePortAndThreads returns false and terminates nothing, so the two
listeners it started before (handles 105 and 106) are left running, with the port
still in place. -/
theorem C9_third_spawn_failure_leaves_two_listeners :
    (InitializePortAndThreads thirdSpawnFailsHost defs64 1 ⟨0, none⟩ []).1 = false ∧
    listenersLeftRunning
      (InitializePortAndThreads thirdSpawnFailsHost defs64 1 ⟨0, none⟩ []).2.2 = [105, 106] ∧
    threadsTerminated
      (InitializePortAndThreads thirdSpawnFailsHost defs64 1 ⟨0, none⟩ []).2.2 = [] ∧
    (InitializePortAndThreads thirdSpawnFailsHost defs64 1 ⟨0, none⟩ []).2.1.m_PortHandle = 7 := by
  refine ⟨by decide, by decide, by decide, by decide⟩

/-- C9 (amended): InitializePortAndThreads never terminates a thread.  When it
returns false, either it made no listener spawn (the security descriptor, the
port creation or the allocation failed) and no listener is running, or its
spawns are i successful ones followed by the failed one, with i below
NUMBER_OF_THREADS, and exactly the i listeners started before the failure are
left running. -/
theorem C9_failed_startup_keeps_earlier_listeners (h : Host) (d : Defs) (this : Nat)
    (st : DriverAssist) :
    threadsTerminated (InitializePortAndThreads h d this st []).2.2 = [] ∧
    ((InitializePortAndThreads h d this st []).1 = false →
      (spawns (InitializePortAndThreads h d this st []).2.2 = [] ∧
        listenersLeftRunning (InitializePortAndThreads h d this st []).2.2 = []) ∨
      (∃ ok, spawns (InitializePortAndThreads h d this st []).2.2 = ok ++ [0] ∧
        (∀ t ∈ ok, t ≠ 0) ∧ ok.length < d.NUMBER_OF_THREADS ∧
        listenersLeftRunning (InitializePortAndThreads h d this st []).2.2 = ok)) := by
  have key : ∃ P S, (InitializePortAndThreads h d this st []).2.2 = P ++ S ∧
      spawns P = [] ∧ threadsTerminated P = [] ∧ threadsTerminated S = [] ∧
      ((InitializePortAndThreads h d this st []).1 = false →
        spawns S = [] ∨
        ∃ ok, spawns S = ok ++ [0] ∧ (∀ t ∈ ok, t ≠ 0) ∧ ok.length < d.NUMBER_OF_THREADS) := by
    simp only [InitializePortAndThreads, List.nil_append]
    generalize h.ConvertStringSecurityDescriptorToSecurityDescriptor [] = c
    by_cases hc : c.1 = false
    · simp only [if_pos hc]
      exact ⟨_, [], (List.append_nil _).symm, by simp [spawns],
        by simp [threadsTerminated], rfl, fun _ => Or.inl rfl⟩
    · simp only [if_neg hc]
      generalize h.NtCreatePort
        [PortEv.ConvertStringSecurityDescriptorToSecurityDescriptor
          "O:SYG:SYD:(A;;GA;;;SY)" c.1 c.2] = p
      by_cases hs : ¬ (NT_SUCCESS p.1 = true)
      · simp only [if_pos hs]
        exact ⟨_, [], (List.append_nil _).symm, by simp [spawns],
          by simp [threadsTerminated], rfl, fun _ => Or.inl rfl⟩
      · simp only [if_neg hs]
        generalize h.HeapAlloc _ _ = m
        by_cases hm : m = 0
        · simp only [if_pos hm]
          exact ⟨_, [], (List.append_nil _).symm, by simp [spawns],
            by simp [threadsTerminated], rfl, fun _ => Or.inl rfl⟩
        · simp only [if_neg hm]
          obtain ⟨S, hS, hT, hF⟩ := InitializePortAndThreads_spawnLoop_trace h d this
            d.NUMBER_OF_THREADS 0 (List.replicate d.NUMBER_OF_THREADS 0)
            ([PortEv.ConvertStringSecurityDescriptorToSecurityDescriptor
                "O:SYG:SYD:(A;;GA;;;SY)" c.1 c.2] ++
              [PortEv.NtCreatePort d.MAX_PORTMSG_LENGTH p.1 p.2] ++ [PortEv.LocalFree c.2] ++
              [PortEv.InterlockedExchangePointer p.2 p.2] ++
              [PortEv.HeapAlloc (d.NUMBER_OF_THREADS * d.sizeof_HANDLE) m])
          exact ⟨_, S, hS, by simp [spawns], by simp [threadsTerminated], hT,
            fun hf => Or.inr (hF hf)⟩
  obtain ⟨P, S, hPS, hP1, hP2, hS2, hF⟩ := key
  have hterm : threadsTerminated (InitializePortAndThreads h d this st []).2.2 = [] := by
    rw [hPS, threadsTerminated_append, hP2, hS2]; rfl
  refine ⟨hterm, fun hf => ?_⟩
  have hsp : spawns (InitializePortAndThreads h d this st []).2.2 = spawns S := by
    rw [hPS, spawns_append, hP1]; rfl
  rcases hF hf with h0 | ⟨ok, h1, h2, h3⟩
  · left
    refine ⟨by rw [hsp, h0], ?_⟩
    simp [listenersLeftRunning, listenersStarted, hsp, h0]
  · right
    refine ⟨ok, by rw [hsp, h1], h2, h3, ?_⟩
    simp only [listenersLeftRunning, listenersStarted, hsp, h1, hterm]
    simp only [List.not_mem_nil, not_false_eq_true, decide_True, List.filter_true,
      List.filter_append]
    have : ok.filter (fun t => decide (t ≠ 0)) = ok := by
      rw [List.filter_eq_self]
      intro t ht
      simpa using h2 t ht
    rw [this]
    simp

/-- Witness for C9 (amended): the startup whose third spawn fails. -/
theorem C9_failed_startup_keeps_earlier_listeners_witness :
    (spawns (InitializePortAndThreads thirdSpawnFailsHost defs64 1 ⟨0, none⟩ []).2.2 = [] ∧
      listenersLeftRunning
        (InitializePortAndThreads thirdSpawnFailsHost defs64 1 ⟨0, none⟩ []).2.2 = []) ∨
    (∃ ok, spawns (InitializePortAndThreads thirdSpawnFailsHost defs64 1 ⟨0, none⟩ []).2.2 =
        ok ++ [0] ∧
      (∀ t ∈ ok, t ≠ 0) ∧ ok.length < defs64.NUMBER_OF_THREADS ∧
      listenersLeftRunning
        (InitializePortAndThreads thirdSpawnFailsHost defs64 1 ⟨0, none⟩ []).2.2 = ok) :=
  (C9_failed_startup_keeps_earlier_listeners thirdSpawnFailsHost defs64 1 ⟨0, none⟩).2
    (by decide)

/-! ### The listener and its message buffers -/

/-- C10 (the code at the failing input): the listener allocates the buffer at
131072, receives a message while the port is in place, and its CreateThread for
the worker fails; the listener goes on to the next iteration, sees the port
cleared, releases the second buffer (327680) and leaves the loop.  The first
buffer is never released. -/
theorem C10_buffer_leaked_when_worker_spawn_fails :
    Thread noWorkerHost defs64 1 2 [] =
      [PortEv.SetThreadPriority 2,
       PortEv.VirtualAlloc 336 131072,
       PortEv.NtReplyWaitReceivePort 7 131072 0,
       PortEv.CreateThread StartRoutine.MsgWorkerThreadStub 131072 0,
       PortEv.VirtualAlloc 336 327680,
       PortEv.NtReplyWaitReceivePort 0 327680 0,
       PortEv.VirtualFree Caller.listener 327680] ∧
    Thread noWorkerHost defs64 1 3 [] = Thread noWorkerHost defs64 1 2 [] ∧
    buffersAllocated (Thread noWorkerHost defs64 1 2 []) = [131072, 327680] ∧
    releases 131072 (Thread noWorkerHost defs64 1 2 []) = [] ∧
    releases 327680 (Thread noWorkerHost defs64 1 2 []) = [Caller.listener] := by
  refine ⟨by decide, by decide, by decide, by decide, by decide⟩

/-! ### The driver channel: frames, open failures, unload -/

/-- C12 (the code at the failing input): SbieApi_ReloadConf(1) and
SbieApi_EnumProcessEx, entered with stack memory that holds 0xCCCCCCCCCCCCCCCC,
hand the driver a frame whose slots beyond the assigned ones (2 to 7, and 5 to 7)
still hold that value. -/
theorem C12_uncleared_frame_reaches_driver :
    requestFrames (SbieApi_ReloadConf 9 acceptingKernel (heldState staleMem) dirtyStack 1).2.calls =
      [[Slot.val 9, Slot.val 1, Slot.val 0xCCCCCCCCCCCCCCCC, Slot.val 0xCCCCCCCCCCCCCCCC,
        Slot.val 0xCCCCCCCCCCCCCCCC, Slot.val 0xCCCCCCCCCCCCCCCC, Slot.val 0xCCCCCCCCCCCCCCCC,
        Slot.val 0xCCCCCCCCCCCCCCCC]] ∧
    (requestFrames (SbieApi_ReloadConf 9 acceptingKernel (heldState staleMem) dirtyStack
        1).2.calls).map (nonZeroUnassigned [0, 1]) = [[2, 3, 4, 5, 6, 7]] ∧
    (requestFrames (SbieApi_EnumProcessEx 8 false acceptingKernel (heldState staleMem)
        dirtyStack 1000 false 1 3000).2.calls).map (nonZeroUnassigned [0, 1, 2, 3, 4]) =
      [[5, 6, 7]] ∧
    (requestFrames (SbieApi_CallOne acceptingKernel (heldState staleMem) 9 1).2.calls).map
      (nonZeroUnassigned [0, 1]) = [[]] := by
  refine ⟨by decide, by decide, by decide, by decide⟩

/-- A call of `SbieApi_Ioctl` with the handle held: one request on that handle with
the frame, 64 bytes long; the driver's status and memory are returned. -/
theorem SbieApi_Ioctl_held (k : Kernel) (st : ApiState) (parms : Frame)
    (hh : st.SbieApi_DeviceHandle ≠ INVALID_HANDLE_VALUE) :
    SbieApi_Ioctl k st parms =
      ((k.NtDeviceIoControlFile st.calls st.SbieApi_DeviceHandle parms st.mem).1,
       { st with
           mem := (k.NtDeviceIoControlFile st.calls st.SbieApi_DeviceHandle parms st.mem).2,
           calls := st.calls ++
             [SysCall.NtDeviceIoControlFile st.SbieApi_DeviceHandle parms 64
               (k.NtDeviceIoControlFile st.calls st.SbieApi_DeviceHandle parms st.mem).1] }) := by
  simp [SbieApi_Ioctl, hh]

/-- A call of `SbieApi_Ioctl` without a handle starts with an open attempt. -/
theorem SbieApi_Ioctl_opens_first (k : Kernel) (st : ApiState) (parms : Frame)
    (hh : st.SbieApi_DeviceHandle = INVALID_HANDLE_VALUE) :
    ∃ rest, (SbieApi_Ioctl k st parms).2.calls =
      st.calls ++ SysCall.NtOpenFile (k.NtOpenFile st.calls).1 (k.NtOpenFile st.calls).2 ::
        rest := by
  simp only [SbieApi_Ioctl, hh, if_true]
  by_cases h1 : (k.NtOpenFile st.calls).1 = STATUS_OBJECT_NAME_NOT_FOUND ∨
      (k.NtOpenFile st.calls).1 = STATUS_NO_SUCH_DEVICE
  · simp only [if_pos h1]
    have hne : STATUS_SERVER_DISABLED ≠ STATUS_SUCCESS := by decide
    simp only [if_pos hne]
    exact ⟨[], by simp⟩
  · simp only [if_neg h1]
    by_cases h2 : (k.NtOpenFile st.calls).1 ≠ STATUS_SUCCESS
    · simp only [if_pos h2]
      exact ⟨[], by simp⟩
    · simp only [if_neg h2]
      exact ⟨[SysCall.NtDeviceIoControlFile (k.NtOpenFile st.calls).2 parms (8 * 8)
        (k.NtDeviceIoControlFile
          (st.calls ++ [SysCall.NtOpenFile (k.NtOpenFile st.calls).1 (k.NtOpenFile st.calls).2])
          (k.NtOpenFile st.calls).2 parms st.mem).1], by simp⟩

/-- C13: SbieApi_CallZero returns the status of SbieApi_Ioctl.  When that status is
a success and the function code is API_UNLOAD_DRIVER, it adds exactly one call,
the close of the handle SbieApi_Ioctl left, and leaves SbieApi_DeviceHandle
invalid, so that the next SbieApi_Ioctl starts with an open attempt; for any other
function code, or a failure status, it adds no call and leaves the state as
SbieApi_Ioctl left it. -/
theorem C13_unload_closes_handle_once (U : Nat) (k : Kernel) (st : ApiState) (api_code : Nat) :
    (SbieApi_CallZero U k st api_code).1 =
      (SbieApi_Ioctl k st (zeroFrame.set 0 (Slot.val api_code))).1 ∧
    (api_code = U →
      NT_SUCCESS (SbieApi_Ioctl k st (zeroFrame.set 0 (Slot.val api_code))).1 = true →
      (SbieApi_CallZero U k st api_code).2.calls =
        (SbieApi_Ioctl k st (zeroFrame.set 0 (Slot.val api_code))).2.calls ++
          [SysCall.NtClose
            (SbieApi_Ioctl k st (zeroFrame.set 0 (Slot.val api_code))).2.SbieApi_DeviceHandle] ∧
      (SbieApi_CallZero U k st api_code).2.SbieApi_DeviceHandle = INVALID_HANDLE_VALUE ∧
      ∀ parms, ∃ rest,
        (SbieApi_Ioctl k (SbieApi_CallZero U k st api_code).2 parms).2.calls =
          (SbieApi_CallZero U k st api_code).2.calls ++
            SysCall.NtOpenFile (k.NtOpenFile (SbieApi_CallZero U k st api_code).2.calls).1
              (k.NtOpenFile (SbieApi_CallZero U k st api_code).2.calls).2 :: rest) ∧
    ((api_code ≠ U ∨
        NT_SUCCESS (SbieApi_Ioctl k st (zeroFrame.set 0 (Slot.val api_code))).1 = false) →
      SbieApi_CallZero U k st api_code =
        SbieApi_Ioctl k st (zeroFrame.set 0 (Slot.val api_code))) := by
  simp only [SbieApi_CallZero]
  generalize SbieApi_Ioctl k st (zeroFrame.set 0 (Slot.val api_code)) = r
  refine ⟨?_, ?_, ?_⟩
  · split_ifs <;> rfl
  · intro hu hs
    simp only [hs, hu, if_true]
    exact ⟨trivial, trivial, fun parms => SbieApi_Ioctl_opens_first k _ parms rfl⟩
  · intro h
    rcases h with h | h
    · simp [h]
    · simp [h]

/-- Witness for C13: a successful unload call with the handle 44 held. -/
theorem C13_unload_closes_handle_once_witness :
    (SbieApi_CallZero 5 acceptingKernel (heldState staleMem) 5).2.calls =
      (SbieApi_Ioctl acceptingKernel (heldState staleMem)
          (zeroFrame.set 0 (Slot.val 5))).2.calls ++ [SysCall.NtClose 44] ∧
    (SbieApi_CallZero 5 acceptingKernel (heldState staleMem) 5).2.SbieApi_DeviceHandle =
      INVALID_HANDLE_VALUE :=
  ⟨((C13_unload_closes_handle_once 5 acceptingKernel (heldState staleMem) 5).2.1 rfl
      (by decide)).1,
   ((C13_unload_closes_handle_once 5 acceptingKernel (heldState staleMem) 5).2.1 rfl
      (by decide)).2.1⟩

/-- C14: when no handle is held and the open of the device returns a status other
than success, STATUS_OBJECT_NAME_NOT_FOUND and STATUS_NO_SUCH_DEVICE,
SbieApi_Ioctl returns that status unchanged; its only call is the open attempt (no
device-control request), the caller's memory is untouched and
SbieApi_DeviceHandle is left invalid. -/
theorem C14_other_open_failure_propagated (k : Kernel) (st : ApiState) (parms : Frame)
    (hh : st.SbieApi_DeviceHandle = INVALID_HANDLE_VALUE)
    (h0 : (k.NtOpenFile st.calls).1 ≠ STATUS_SUCCESS)
    (h1 : (k.NtOpenFile st.calls).1 ≠ STATUS_OBJECT_NAME_NOT_FOUND)
    (h2 : (k.NtOpenFile st.calls).1 ≠ STATUS_NO_SUCH_DEVICE) :
    SbieApi_Ioctl k st parms =
      ((k.NtOpenFile st.calls).1,
       { st with
           SbieApi_DeviceHandle := INVALID_HANDLE_VALUE,
           calls := st.calls ++
             [SysCall.NtOpenFile (k.NtOpenFile st.calls).1 (k.NtOpenFile st.calls).2] }) := by
  simp [SbieApi_Ioctl, hh, h0, h1, h2]

/-- Witness for C14: the open is refused with STATUS_ACCESS_DENIED. -/
theorem C14_other_open_failure_propagated_witness :
    SbieApi_Ioctl deniedKernel (initialState staleMem) zeroFrame =
      (STATUS_ACCESS_DENIED,
       { initialState staleMem with
           SbieApi_DeviceHandle := INVALID_HANDLE_VALUE,
           calls := [SysCall.NtOpenFile STATUS_ACCESS_DENIED 0] }) :=
  C14_other_open_failure_propagated deniedKernel (initialState staleMem) zeroFrame rfl
    (by decide) (by decide) (by decide)

/-- C15: with the driver handle held, SbieApi_CallZero, SbieApi_CallOne,
SbieApi_CallTwo and SbieApi_CallThree make no open attempt and issue exactly one
device-control request, on the held handle, 64 bytes long, whose eight slots are
the function code, the arguments and zeros; they return the driver's status
unchanged.  The only further call is the close that SbieApi_CallZero adds after a
successful request with the unload code. -/
theorem C15_generic_calls_one_request (U : Nat) (k : Kernel) (st : ApiState)
    (c a1 a2 a3 : Nat) (hh : st.SbieApi_DeviceHandle ≠ INVALID_HANDLE_VALUE) :
    ((SbieApi_CallZero U k st c).1 =
        (k.NtDeviceIoControlFile st.calls st.SbieApi_DeviceHandle
          [Slot.val c, Slot.val 0, Slot.val 0, Slot.val 0, Slot.val 0, Slot.val 0, Slot.val 0, Slot.val 0] st.mem).1 ∧
      ∃ closes, (closes = [] ∨ closes = [SysCall.NtClose st.SbieApi_DeviceHandle]) ∧
        (SbieApi_CallZero U k st c).2.calls = st.calls ++
          SysCall.NtDeviceIoControlFile st.SbieApi_DeviceHandle
            [Slot.val c, Slot.val 0, Slot.val 0, Slot.val 0, Slot.val 0, Slot.val 0, Slot.val 0, Slot.val 0] 64
            (k.NtDeviceIoControlFile st.calls st.SbieApi_DeviceHandle
          [Slot.val c, Slot.val 0, Slot.val 0, Slot.val 0, Slot.val 0, Slot.val 0, Slot.val 0, Slot.val 0] st.mem).1 :: closes) ∧
    ((SbieApi_CallOne k st c a1).1 =
        (k.NtDeviceIoControlFile st.calls st.SbieApi_DeviceHandle
          [Slot.val c, Slot.val a1, Slot.val 0, Slot.val 0, Slot.val 0, Slot.val 0, Slot.val 0, Slot.val 0] st.mem).1 ∧
      (SbieApi_CallOne k st c a1).2.calls = st.calls ++
        [SysCall.NtDeviceIoControlFile st.SbieApi_DeviceHandle
          [Slot.val c, Slot.val a1, Slot.val 0, Slot.val 0, Slot.val 0, Slot.val 0, Slot.val 0, Slot.val 0] 64
          (k.NtDeviceIoControlFile st.calls st.SbieApi_DeviceHandle
          [Slot.val c, Slot.val a1, Slot.val 0, Slot.val 0, Slot.val 0, Slot.val 0, Slot.val 0, Slot.val 0] st.mem).1]) ∧
    ((SbieApi_CallTwo k st c a1 a2).1 =
        (k.NtDeviceIoControlFile st.calls st.SbieApi_DeviceHandle
          [Slot.val c, Slot.val a1, Slot.val a2, Slot.val 0, Slot.val 0, Slot.val 0, Slot.val 0, Slot.val 0] st.mem).1 ∧
      (SbieApi_CallTwo k st c a1 a2).2.calls = st.calls ++
        [SysCall.NtDeviceIoControlFile st.SbieApi_DeviceHandle
          [Slot.val c, Slot.val a1, Slot.val a2, Slot.val 0, Slot.val 0, Slot.val 0, Slot.val 0, Slot.val 0] 64
          (k.NtDeviceIoControlFile st.calls st.SbieApi_DeviceHandle
          [Slot.val c, Slot.val a1, Slot.val a2, Slot.val 0, Slot.val 0, Slot.val 0, Slot.val 0, Slot.val 0] st.mem).1]) ∧
    ((SbieApi_CallThree k st c a1 a2 a3).1 =
        (k.NtDeviceIoControlFile st.calls st.SbieApi_DeviceHandle
          [Slot.val c, Slot.val a1, Slot.val a2, Slot.val a3, Slot.val 0, Slot.val 0, Slot.val 0, Slot.val 0] st.mem).1 ∧
      (SbieApi_CallThree k st c a1 a2 a3).2.calls = st.calls ++
        [SysCall.NtDeviceIoControlFile st.SbieApi_DeviceHandle
          [Slot.val c, Slot.val a1, Slot.val a2, Slot.val a3, Slot.val 0, Slot.val 0, Slot.val 0, Slot.val 0] 64
          (k.NtDeviceIoControlFile st.calls st.SbieApi_DeviceHandle
          [Slot.val c, Slot.val a1, Slot.val a2, Slot.val a3, Slot.val 0, Slot.val 0, Slot.val 0, Slot.val 0] st.mem).1]) := by
  have hF0 : zeroFrame.set 0 (Slot.val c) = [Slot.val c, Slot.val 0, Slot.val 0, Slot.val 0, Slot.val 0, Slot.val 0, Slot.val 0, Slot.val 0] := rfl
  have hF1 : (zeroFrame.set 0 (Slot.val c)).set 1 (Slot.val a1) = [Slot.val c, Slot.val a1, Slot.val 0, Slot.val 0, Slot.val 0, Slot.val 0, Slot.val 0, Slot.val 0] := rfl
  have hF2 : ((zeroFrame.set 0 (Slot.val c)).set 1 (Slot.val a1)).set 2 (Slot.val a2) =
      [Slot.val c, Slot.val a1, Slot.val a2, Slot.val 0, Slot.val 0, Slot.val 0, Slot.val 0, Slot.val 0] := rfl
  have hF3 : (((zeroFrame.set 0 (Slot.val c)).set 1 (Slot.val a1)).set 2 (Slot.val a2)).set 3
      (Slot.val a3) = [Slot.val c, Slot.val a1, Slot.val a2, Slot.val a3, Slot.val 0, Slot.val 0, Slot.val 0, Slot.val 0] := rfl
  refine ⟨?_, ?_, ?_, ?_⟩
  · simp only [SbieApi_CallZero, hF0, SbieApi_Ioctl_held k st _ hh]
    split_ifs
    · exact ⟨rfl, [SysCall.NtClose st.SbieApi_DeviceHandle], Or.inr rfl, by simp⟩
    · exact ⟨rfl, [], Or.inl rfl, by simp⟩
    · exact ⟨rfl, [], Or.inl rfl, by simp⟩
  · simp only [SbieApi_CallOne, hF1, SbieApi_Ioctl_held k st _ hh]
    exact ⟨trivial, trivial⟩
  · simp only [SbieApi_CallTwo, hF2, SbieApi_Ioctl_held k st _ hh]
    exact ⟨trivial, trivial⟩
  · simp only [SbieApi_CallThree, hF3, SbieApi_Ioctl_held k st _ hh]
    exact ⟨trivial, trivial⟩

/-- Witness for C15: SbieApi_CallTwo with the handle 44 held. -/
theorem C15_generic_calls_one_request_witness :
    (SbieApi_CallTwo acceptingKernel (heldState staleMem) 9 1 2).1 =
        (acceptingKernel.NtDeviceIoControlFile [] 44
          [Slot.val 9, Slot.val 1, Slot.val 2, Slot.val 0, Slot.val 0, Slot.val 0, Slot.val 0, Slot.val 0] staleMem).1 ∧
      (SbieApi_CallTwo acceptingKernel (heldState staleMem) 9 1 2).2.calls = [] ++
        [SysCall.NtDeviceIoControlFile 44
          [Slot.val 9, Slot.val 1, Slot.val 2, Slot.val 0, Slot.val 0, Slot.val 0, Slot.val 0, Slot.val 0] 64
          (acceptingKernel.NtDeviceIoControlFile [] 44
          [Slot.val 9, Slot.val 1, Slot.val 2, Slot.val 0, Slot.val 0, Slot.val 0, Slot.val 0, Slot.val 0] staleMem).1] :=
  (C15_generic_calls_one_request 0 acceptingKernel (heldState staleMem) 9 1 2 3
    (by decide)).2.2.1

/-! ### The handlers: cancellation log -/

/-- C19: on every path through CancelProcess the history ends with a log call with
message id 2314 and the session id of the message, and holds no other log call.
When reason is non-zero the call carries the format for name, process id and
reason with these three values; when reason is zero it carries the process name
alone. -/
theorem C19_cancel_logs_once_afterwards (w : World) (msg : SVC_PROCESS_MSG) :
    (msg.reason ≠ 0 →
      ∃ pre, CancelProcess w msg [] = pre ++
          [Ev.SbieApi_LogEx msg.session_id 2314 "%S [%d / %d]"
            [LogArg.str msg.process_name, LogArg.num msg.process_id, LogArg.num msg.reason]] ∧
        ∀ e ∈ pre, e.isLog = false) ∧
    (msg.reason = 0 →
      ∃ pre, CancelProcess w msg [] = pre ++
          [Ev.SbieApi_LogEx msg.session_id 2314 msg.process_name []] ∧
        ∀ e ∈ pre, e.isLog = false) := by
  simp only [CancelProcess, List.nil_append]
  generalize w.OpenProcess [] (PROCESS_TERMINATE ||| PROCESS_QUERY_INFORMATION)
    msg.process_id = hp
  generalize w.GetProcessTimes
    [Ev.OpenProcess (PROCESS_TERMINATE ||| PROCESS_QUERY_INFORMATION) msg.process_id hp] hp = r
  constructor
  · intro hr
    simp only [if_pos hr]
    refine ⟨_, rfl, ?_⟩
    split_ifs <;> simp [Ev.isLog]
  · intro hr
    have hn : ¬ (msg.reason ≠ 0) := by simp [hr]
    simp only [if_neg hn]
    refine ⟨_, rfl, ?_⟩
    split_ifs <;> simp [Ev.isLog]

/-- Witness for C19: a cancel message with reason 0 on the machine with the live
process. -/
theorem C19_cancel_logs_once_afterwards_witness :
    ∃ pre, CancelProcess liveProcessWorld (cancelMsg 99) [] = pre ++
        [Ev.SbieApi_LogEx 1 2314 "notepad.exe" []] ∧
      ∀ e ∈ pre, e.isLog = false :=
  (C19_cancel_logs_once_afterwards liveProcessWorld (cancelMsg 99)).2 rfl

/-! ### Dispatch -/

/-- C16 (as stated) fails: for a datagram whose tag is SVC_LOG_MESSAGE the log
handler is invoked without any pointer to the message data. -/
theorem C16_log_handler_gets_no_pointer :
    logDatagram.Type_ = defs64.LPC_DATAGRAM ∧ 4 ≤ logDatagram.DataLength ∧
    readULONG logDatagram.data 0 = defs64.SVC_LOG_MESSAGE ∧
    MsgWorkerThread defs64 logDatagram = [PortEv.handler Handler.LogMessage none] := by
  refine ⟨by decide, by decide, by decide, by decide⟩

/-- C16 (amended): for every LPC_DATAGRAM message with data length at least 4,
MsgWorkerThread makes at most one call; a call it makes is the invocation of a
handler associated with the 32-bit tag that follows the header, with the pointer
to the data just after the tag for lookup-SID, inject, cancel-process and
unmount-hive and without argument for log and restart-host-injected-services; a
handler is invoked when the tag is a known id, and none when it is not. -/
theorem C16_dispatch_by_tag (d : Defs) (msg : PORT_MESSAGE)
    (ht : msg.Type_ = d.LPC_DATAGRAM) (hl : 4 ≤ msg.DataLength) :
    (MsgWorkerThread d msg).length ≤ 1 ∧
    (∀ e ∈ MsgWorkerThread d msg, ∃ h : Handler,
      h.tag d = readULONG msg.data 0 ∧
      e = PortEv.handler h
        (if h.takesData = true then some (d.sizeof_PORT_MESSAGE + 4) else none)) ∧
    ((∃ h : Handler, h.tag d = readULONG msg.data 0) → MsgWorkerThread d msg ≠ []) ∧
    ((∀ h : Handler, h.tag d ≠ readULONG msg.data 0) → MsgWorkerThread d msg = []) := by
  have hl' : ¬ (msg.DataLength < 4) := by omega
  simp only [MsgWorkerThread, ht, ne_eq, not_true_eq_false, if_false, if_neg hl']
  generalize readULONG msg.data 0 = id
  refine ⟨?_, ?_, ?_, ?_⟩
  · split_ifs <;> simp
  · intro e he
    split_ifs at he with h1 h2 h3 h4 h5 h6
    · exact ⟨Handler.LookupSid, h1.symm, by simpa using he⟩
    · exact ⟨Handler.InjectLow, h2.symm, by simpa using he⟩
    · exact ⟨Handler.CancelProcess, h3.symm, by simpa using he⟩
    · exact ⟨Handler.UnmountHive, h4.symm, by simpa using he⟩
    · exact ⟨Handler.LogMessage, h5.symm, by simpa using he⟩
    · exact ⟨Handler.RestartHostInjectedSvcs, h6.symm, by simpa using he⟩
    · simp at he
  · rintro ⟨h, hh⟩
    split_ifs with h1 h2 h3 h4 h5 h6 <;> try simp
    cases h
    · exact h1 hh.symm
    · exact h2 hh.symm
    · exact h3 hh.symm
    · exact h4 hh.symm
    · exact h5 hh.symm
    · exact h6 hh.symm
  · intro hn
    have h1 := hn Handler.LookupSid
    have h2 := hn Handler.InjectLow
    have h3 := hn Handler.CancelProcess
    have h4 := hn Handler.UnmountHive
    have h5 := hn Handler.LogMessage
    have h6 := hn Handler.RestartHostInjectedSvcs
    simp only [Handler.tag] at h1 h2 h3 h4 h5 h6
    simp [Ne.symm h1, Ne.symm h2, Ne.symm h3, Ne.symm h4, Ne.symm h5, Ne.symm h6]

/-- Witness for C16 (amended): the datagram tagged SVC_LOG_MESSAGE. -/
theorem C16_dispatch_by_tag_witness :
    (MsgWorkerThread defs64 logDatagram).length ≤ 1 ∧
    MsgWorkerThread defs64 logDatagram ≠ [] :=
  ⟨(C16_dispatch_by_tag defs64 logDatagram (by decide) (by decide)).1,
   (C16_dispatch_by_tag defs64 logDatagram (by decide) (by decide)).2.2.1
     ⟨Handler.LogMessage, by decide⟩⟩

/-! ### The hive unmount: number of polls, and when the diagnostic is reported -/

/-- How the unload loop ends: its calls are no log calls; if one of its unload
attempts succeeded `rc` is 0 afterwards; if one of its re-opens returned one of
the two not-found codes `rc` is that code afterwards. -/
theorem UnmountHive_unloadLoop_exit (w : World) (root_path : String) (n : Nat) :
    ∀ (rc : Int) (tr : List Ev),
    ∃ suf, (UnmountHive_unloadLoop w root_path n rc tr).2 = tr ++ suf ∧
      (∀ e ∈ suf, e.isUnloadStep = true ∧ e.isLog = false) ∧
      ((∃ e ∈ suf, e.isUnloadSuccess = true) →
        (UnmountHive_unloadLoop w root_path n rc tr).1 = 0) ∧
      (∀ path rc1 key, Ev.NtOpenKey path rc1 key ∈ suf →
        (rc1 = STATUS_OBJECT_NAME_NOT_FOUND ∨ rc1 = STATUS_OBJECT_PATH_NOT_FOUND) →
        (UnmountHive_unloadLoop w root_path n rc tr).1 = rc1) := by
  induction n with
  | zero =>
    intro rc tr
    exact ⟨[], by simp [UnmountHive_unloadLoop], by simp, by simp, by simp⟩
  | succ n ih =>
    intro rc tr
    simp only [UnmountHive_unloadLoop]
    generalize w.NtUnloadKey tr root_path = rc1
    generalize w.NtOpenKey (tr ++ [Ev.NtUnloadKey root_path rc1] ++ [Ev.Sleep 100]) root_path = r
    by_cases h1 : rc1 = 0
    · simp only [if_pos h1]
      refine ⟨[Ev.NtUnloadKey root_path rc1], rfl, by simp [Ev.isUnloadStep, Ev.isLog],
        fun _ => h1, by simp⟩
    · simp only [if_neg h1]
      by_cases h2 : r.1 = STATUS_OBJECT_NAME_NOT_FOUND ∨ r.1 = STATUS_OBJECT_PATH_NOT_FOUND
      · simp only [if_pos h2]
        refine ⟨[Ev.NtUnloadKey root_path rc1, Ev.Sleep 100, Ev.NtOpenKey root_path r.1 r.2],
          by simp, by simp [Ev.isUnloadStep, Ev.isLog], ?_, ?_⟩
        · rintro ⟨e, he, hs⟩
          simp only [List.mem_cons, List.mem_singleton, List.not_mem_nil, or_false] at he
          rcases he with rfl | rfl | rfl
          · simp [Ev.isUnloadSuccess, h1] at hs
          · simp [Ev.isUnloadSuccess] at hs
          · simp [Ev.isUnloadSuccess] at hs
        · intro path rc2 key hm _
          simp only [List.mem_cons, List.mem_singleton, List.not_mem_nil, or_false] at hm
          rcases hm with hm | hm | hm
          · simp at hm
          · simp at hm
          · simp only [Ev.NtOpenKey.injEq] at hm
            exact hm.2.1.symm
      · simp only [if_neg h2]
        generalize hc : (if r.1 = 0 then
            tr ++ [Ev.NtUnloadKey root_path rc1] ++ [Ev.Sleep 100] ++
              [Ev.NtOpenKey root_path r.1 r.2] ++ [Ev.NtClose r.2]
          else tr ++ [Ev.NtUnloadKey root_path rc1] ++ [Ev.Sleep 100] ++
              [Ev.NtOpenKey root_path r.1 r.2]) = tr2
        have htr2 : ∃ c, tr2 = tr ++ ([Ev.NtUnloadKey root_path rc1, Ev.Sleep 100,
            Ev.NtOpenKey root_path r.1 r.2] ++ c) ∧ (c = [] ∨ c = [Ev.NtClose r.2]) := by
          rw [← hc]
          split_ifs
          · exact ⟨[Ev.NtClose r.2], by simp, Or.inr rfl⟩
          · exact ⟨[], by simp, Or.inl rfl⟩
        obtain ⟨c, hc2, hcc⟩ := htr2
        obtain ⟨suf, hs, hp, hsucc, hnf⟩ := ih r.1 tr2
        have hhead : ∀ e ∈ [Ev.NtUnloadKey root_path rc1, Ev.Sleep 100,
            Ev.NtOpenKey root_path r.1 r.2] ++ c,
            e = Ev.NtUnloadKey root_path rc1 ∨ e = Ev.Sleep 100 ∨
              e = Ev.NtOpenKey root_path r.1 r.2 ∨ e = Ev.NtClose r.2 := by
          intro e he
          rcases hcc with rfl | rfl
          · simp only [List.append_nil, List.mem_cons, List.mem_singleton, List.not_mem_nil,
              or_false] at he
            rcases he with h | h | h
            · exact Or.inl h
            · exact Or.inr (Or.inl h)
            · exact Or.inr (Or.inr (Or.inl h))
          · simp only [List.mem_append, List.mem_cons, List.mem_singleton, List.not_mem_nil,
              or_false] at he
            rcases he with (h | h | h) | h
            · exact Or.inl h
            · exact Or.inr (Or.inl h)
            · exact Or.inr (Or.inr (Or.inl h))
            · exact Or.inr (Or.inr (Or.inr h))
        refine ⟨([Ev.NtUnloadKey root_path rc1, Ev.Sleep 100,
          Ev.NtOpenKey root_path r.1 r.2] ++ c) ++ suf, ?_, ?_, ?_, ?_⟩
        · rw [hs, hc2]; simp
        · intro e he
          rcases List.mem_append.1 he with h | h
          · rcases hhead e h with rfl | rfl | rfl | rfl <;> exact ⟨rfl, rfl⟩
          · exact hp e h
        · rintro ⟨e, he, hsu⟩
          rcases List.mem_append.1 he with h | h
          · rcases hhead e h with rfl | rfl | rfl | rfl
            · simp [Ev.isUnloadSuccess, h1] at hsu
            · simp [Ev.isUnloadSuccess] at hsu
            · simp [Ev.isUnloadSuccess] at hsu
            · simp [Ev.isUnloadSuccess] at hsu
          · exact hsucc ⟨e, h, hsu⟩
        · intro path rc2 key hm hnot
          rcases List.mem_append.1 hm with h | h
          · rcases hhead _ h with h' | h' | h' | h'
            · simp at h'
            · simp at h'
            · simp only [Ev.NtOpenKey.injEq] at h'
              rw [h'.2.1] at hnot
              exact absurd hnot h2
            · simp at h'
          · exact hnf path rc2 key h hnot

theorem Ev.before_unload_not (e : Ev)
    (h : e.isPrelude = true ∨ e.isPoll = true ∨ e.isGetHive = true) :
    e.isUnloadSuccess = false ∧ e.isOpenKey = false ∧ e.is2208 = false := by
  cases e <;> simp_all [Ev.isPrelude, Ev.isPoll, Ev.isGetHive, Ev.isUnloadSuccess,
    Ev.isOpenKey, Ev.is2208]

theorem Ev.isEmptyEnum_isPoll (e : Ev) (h : e.isEmptyEnum = true) : e.isPoll = true := by
  cases e <;> simp_all [Ev.isEmptyEnum, Ev.isPoll]

theorem Ev.not_isLog_not_2208 (e : Ev) (h : e.isLog = false) : e.is2208 = false := by
  cases e <;> simp_all [Ev.isLog, Ev.is2208]

/-- The history of the unload block: the path query, the calls `suf` of the unload
loop, and the 2208 diagnostic exactly when `rc` is not 0 after the loop. -/
theorem UnmountHive_unload_exit (w : World) (msg : SVC_UNMOUNT_MSG) (rc : Int)
    (tr : List Ev) :
    ∃ st path suf r1, UnmountHive_unload w msg rc tr =
        tr ++ Ev.SbieApi_GetUnmountHive st path :: suf ++
          (if r1 ≠ 0 then [Ev.SbieApi_LogEx msg.session_id 2208 "[%08X]" [LogArg.num r1]]
           else []) ∧
      (∀ e ∈ suf, e.isUnloadStep = true ∧ e.isLog = false) ∧
      ((∃ e ∈ suf, e.isUnloadSuccess = true) → r1 = 0) ∧
      (∀ p rc1 key, Ev.NtOpenKey p rc1 key ∈ suf →
        (rc1 = STATUS_OBJECT_NAME_NOT_FOUND ∨ rc1 = STATUS_OBJECT_PATH_NOT_FOUND) →
        r1 = rc1) := by
  simp only [UnmountHive_unload]
  generalize w.SbieApi_GetUnmountHive tr = r
  by_cases hp : r.2 = ""
  · simp only [if_pos hp]
    exact ⟨r.1, r.2, [], 0, by simp, by simp, by simp, by simp⟩
  · simp only [if_neg hp]
    obtain ⟨suf, hs, hu, hsucc, hnf⟩ := UnmountHive_unloadLoop_exit w r.2 25 rc
      (tr ++ [Ev.SbieApi_GetUnmountHive r.1 r.2])
    refine ⟨r.1, r.2, suf, (UnmountHive_unloadLoop w r.2 25 rc
      (tr ++ [Ev.SbieApi_GetUnmountHive r.1 r.2])).1, ?_, hu, hsucc, hnf⟩
    rw [hs]
    split_ifs <;> simp

/-- The history of `UnmountHive` seen from its end: a part `X` without successful
unload, re-open or 2208 diagnostic, the calls `suf` of the unload loop, and the
2208 diagnostic exactly when `rc` is not 0 after the loop. -/
theorem UnmountHive_exit (w : World) (msg : SVC_UNMOUNT_MSG) :
    ∃ X suf r1, UnmountHive w msg [] =
        X ++ suf ++
          (if r1 ≠ 0 then [Ev.SbieApi_LogEx msg.session_id 2208 "[%08X]" [LogArg.num r1]]
           else []) ∧
      (∀ e ∈ X, e.isUnloadSuccess = false ∧ e.isOpenKey = false ∧ e.is2208 = false) ∧
      (∀ e ∈ suf, e.isUnloadStep = true ∧ e.isLog = false) ∧
      ((∃ e ∈ suf, e.isUnloadSuccess = true) → r1 = 0) ∧
      (∀ p rc1 key, Ev.NtOpenKey p rc1 key ∈ suf →
        (rc1 = STATUS_OBJECT_NAME_NOT_FOUND ∨ rc1 = STATUS_OBJECT_PATH_NOT_FOUND) →
        r1 = rc1) := by
  simp only [UnmountHive]
  obtain ⟨s1, h1, p1⟩ := UnmountHive_waitExit_trace w msg []
  obtain ⟨s2, h2, t2, f2⟩ := UnmountHive_checkEmpty_trace w msg (UnmountHive_waitExit w msg [])
  have hs1 : ∀ e ∈ s1, e.isUnloadSuccess = false ∧ e.isOpenKey = false ∧ e.is2208 = false :=
    fun e he => Ev.before_unload_not e (Or.inl (p1 e he))
  by_cases hb : (UnmountHive_checkEmpty w msg (UnmountHive_waitExit w msg [])).1 = true
  · simp only [if_pos hb]
    obtain ⟨X, e0, p, hX, he0, hXp⟩ := t2 hb
    obtain ⟨st, path, suf, r1, hU, hu, hsucc, hnf⟩ := UnmountHive_unload_exit w msg 0
      (UnmountHive_checkEmpty w msg (UnmountHive_waitExit w msg [])).2
    refine ⟨s1 ++ s2 ++ [Ev.SbieApi_GetUnmountHive st path], suf, r1, ?_, ?_, hu, hsucc, hnf⟩
    · rw [hU, h2, h1]; simp
    · intro e he
      simp only [List.mem_append, List.mem_singleton] at he
      rcases he with (h | h) | rfl
      · exact hs1 e h
      · rw [hX] at h
        simp only [List.mem_append, List.mem_cons, List.mem_singleton, List.not_mem_nil,
          or_false] at h
        rcases h with h | rfl | rfl
        · rcases hXp e h with h' | h'
          · exact Ev.before_unload_not e (Or.inl h')
          · exact Ev.before_unload_not e (Or.inr (Or.inl h'))
        · exact Ev.before_unload_not _ (Or.inr (Or.inl (Ev.isEmptyEnum_isPoll _ he0)))
        · exact ⟨rfl, rfl, rfl⟩
      · exact ⟨rfl, rfl, rfl⟩
  · simp only [if_neg hb]
    have hb' : (UnmountHive_checkEmpty w msg (UnmountHive_waitExit w msg [])).1 = false := by
      simpa using hb
    refine ⟨s1 ++ s2, [], 0, ?_, ?_, by simp, by simp, by simp⟩
    · rw [h2, h1]; simp
    · intro e he
      rcases List.mem_append.1 he with h | h
      · exact hs1 e h
      · rcases (f2 hb' e h).1 with h' | h'
        · exact Ev.before_unload_not e (Or.inl h')
        · exact Ev.before_unload_not e (Or.inr (Or.inl h'))

/-- C20 (the code at the failing input): when the first unload fails and the
re-open of the hive root returns STATUS_OBJECT_NAME_NOT_FOUND, retrying stops
after this one attempt and the history of UnmountHive ends with a 2208
diagnostic, which carries the status of the re-open. -/
theorem C20_diagnostic_after_not_found_reopen :
    ((UnmountHive goneHiveWorld unmountMsg []).filter Ev.isUnload).length = 1 ∧
    Ev.NtOpenKey "REGISTRY-USER-Sandbox_user_DefaultBox" STATUS_OBJECT_NAME_NOT_FOUND 0 ∈
      UnmountHive goneHiveWorld unmountMsg [] ∧
    (UnmountHive goneHiveWorld unmountMsg []).getLast? =
      some (Ev.SbieApi_LogEx 1 2208 "[%08X]" [LogArg.num STATUS_OBJECT_NAME_NOT_FOUND]) := by
  refine ⟨by decide, by decide, by decide⟩

/-- The polls of the enumeration loop: when it sets `ShouldUnmount`, fewer than `n`
polls that did not report an empty box followed by one that did; otherwise `n`
polls none of which reported an empty box. -/
theorem UnmountHive_enumLoop_polls (w : World) (msg : SVC_UNMOUNT_MSG) (n : Nat) :
    ∀ tr : List Ev,
    ((UnmountHive_enumLoop w msg n tr).1 = true →
      ∃ fails e0, (UnmountHive_enumLoop w msg n tr).2.filter Ev.isEnum =
          tr.filter Ev.isEnum ++ fails ++ [e0] ∧
        e0.isEmptyEnum = true ∧ (∀ x ∈ fails, x.isEmptyEnum = false) ∧ fails.length < n) ∧
    ((UnmountHive_enumLoop w msg n tr).1 = false →
      ∃ fails, (UnmountHive_enumLoop w msg n tr).2.filter Ev.isEnum =
          tr.filter Ev.isEnum ++ fails ∧
        (∀ x ∈ fails, x.isEmptyEnum = false) ∧ fails.length = n) := by
  induction n with
  | zero =>
    intro tr
    simp [UnmountHive_enumLoop]
  | succ n ih =>
    intro tr
    simp only [UnmountHive_enumLoop]
    generalize w.SbieApi_EnumProcessEx tr msg.boxname false msg.session_id = r
    by_cases h : r.1 = 0 ∧ r.2 = 0
    · simp only [if_pos h]
      refine ⟨fun _ => ⟨[], Ev.SbieApi_EnumProcessEx msg.boxname false msg.session_id r.1 r.2,
        by simp [Ev.isEnum], by simp [Ev.isEmptyEnum, h], by simp, by simp⟩, by simp⟩
    · simp only [if_neg h]
      obtain ⟨ht, hf⟩ := ih (tr ++ [Ev.SbieApi_EnumProcessEx msg.boxname false msg.session_id
        r.1 r.2] ++ [Ev.Sleep 100])
      have hfil : (tr ++ [Ev.SbieApi_EnumProcessEx msg.boxname false msg.session_id r.1 r.2] ++
          [Ev.Sleep 100]).filter Ev.isEnum =
          tr.filter Ev.isEnum ++
            [Ev.SbieApi_EnumProcessEx msg.boxname false msg.session_id r.1 r.2] := by
        simp [List.filter_append, Ev.isEnum]
      have hne : (Ev.SbieApi_EnumProcessEx msg.boxname false msg.session_id r.1
          r.2).isEmptyEnum = false := by
        simpa [Ev.isEmptyEnum] using h
      constructor
      · intro hb
        obtain ⟨fails, e0, h1, h2, h3, h4⟩ := ht hb
        refine ⟨Ev.SbieApi_EnumProcessEx msg.boxname false msg.session_id r.1 r.2 :: fails,
          e0, ?_, h2, ?_, by simp; omega⟩
        · rw [h1, hfil]; simp
        · intro x hx
          simp only [List.mem_cons] at hx
          rcases hx with rfl | hx
          · exact hne
          · exact h3 x hx
      · intro hb
        obtain ⟨fails, h1, h3, h4⟩ := hf hb
        refine ⟨Ev.SbieApi_EnumProcessEx msg.boxname false msg.session_id r.1 r.2 :: fails,
          ?_, ?_, by simp [h4]⟩
        · rw [h1, hfil]; simp
        · intro x hx
          simp only [List.mem_cons] at hx
          rcases hx with rfl | hx
          · exact hne
          · exact h3 x hx

theorem UnmountHive_checkEmpty_polls (w : World) (msg : SVC_UNMOUNT_MSG) (tr : List Ev) :
    ((UnmountHive_checkEmpty w msg tr).1 = true →
      ∃ fails e0, (UnmountHive_checkEmpty w msg tr).2.filter Ev.isEnum =
          tr.filter Ev.isEnum ++ fails ++ [e0] ∧
        e0.isEmptyEnum = true ∧ (∀ x ∈ fails, x.isEmptyEnum = false) ∧ fails.length < 20) ∧
    ((UnmountHive_checkEmpty w msg tr).1 = false →
      (∃ fails, (UnmountHive_checkEmpty w msg tr).2.filter Ev.isEnum =
          tr.filter Ev.isEnum ++ fails ∧
        (∀ x ∈ fails, x.isEmptyEnum = false) ∧ fails.length = 20) ∨
      ((UnmountHive_checkEmpty w msg tr).2.filter Ev.isEnum = tr.filter Ev.isEnum ∧
        Ev.HeapAlloc PAGE_SIZE 0 ∈ (UnmountHive_checkEmpty w msg tr).2)) := by
  simp only [UnmountHive_checkEmpty]
  generalize hg : w.HeapAlloc tr PAGE_SIZE = pids
  by_cases h0 : pids ≠ 0
  · simp only [if_pos h0]
    obtain ⟨ht, hf⟩ := UnmountHive_enumLoop_polls w msg 20 (tr ++ [Ev.HeapAlloc PAGE_SIZE pids])
    have hfil : (tr ++ [Ev.HeapAlloc PAGE_SIZE pids]).filter Ev.isEnum = tr.filter Ev.isEnum := by
      simp [List.filter_append, Ev.isEnum]
    constructor
    · intro hb
      obtain ⟨fails, e0, h1, h2, h3, h4⟩ := ht hb
      refine ⟨fails, e0, ?_, h2, h3, h4⟩
      rw [List.filter_append, h1, hfil]
      simp [Ev.isEnum]
    · intro hb
      obtain ⟨fails, h1, h3, h4⟩ := hf hb
      refine Or.inl ⟨fails, ?_, h3, h4⟩
      rw [List.filter_append, h1, hfil]
      simp [Ev.isEnum]
  · simp only [if_neg h0]
    have hz : pids = 0 := by simpa using h0
    refine ⟨by simp, fun _ => Or.inr ⟨?_, ?_⟩⟩
    · simp [List.filter_append, Ev.isEnum]
    · simp [hz]

/-- The enumeration polls in the history of `UnmountHive`: fewer than 20 polls
that did not report an empty box followed by one that did; or 20 polls none of
which did; or no poll because the pid buffer could not be allocated.  In the last
two cases the unload block is not entered. -/
theorem UnmountHive_polls (w : World) (msg : SVC_UNMOUNT_MSG) :
    (∃ fails e0, (UnmountHive w msg []).filter Ev.isEnum = fails ++ [e0] ∧
      e0.isEmptyEnum = true ∧ (∀ x ∈ fails, x.isEmptyEnum = false) ∧ fails.length < 20) ∨
    (∃ fails, (UnmountHive w msg []).filter Ev.isEnum = fails ∧
      (∀ x ∈ fails, x.isEmptyEnum = false) ∧ fails.length = 20 ∧
      ∀ e ∈ UnmountHive w msg [], e.isGetHive = false ∧ e.isUnload = false) ∨
    ((UnmountHive w msg []).filter Ev.isEnum = [] ∧
      Ev.HeapAlloc PAGE_SIZE 0 ∈ UnmountHive w msg [] ∧
      ∀ e ∈ UnmountHive w msg [], e.isGetHive = false ∧ e.isUnload = false) := by
  simp only [UnmountHive]
  obtain ⟨s1, h1, p1⟩ := UnmountHive_waitExit_trace w msg []
  obtain ⟨s2, h2, t2, f2⟩ := UnmountHive_checkEmpty_trace w msg (UnmountHive_waitExit w msg [])
  obtain ⟨ct, cf⟩ := UnmountHive_checkEmpty_polls w msg (UnmountHive_waitExit w msg [])
  have hw : (UnmountHive_waitExit w msg []).filter Ev.isEnum = [] := by
    rw [h1, List.nil_append, List.filter_eq_nil_iff]
    intro e he
    simp [(Ev.isPrelude_not e (p1 e he)).1]
  by_cases hb : (UnmountHive_checkEmpty w msg (UnmountHive_waitExit w msg [])).1 = true
  · left
    simp only [if_pos hb]
    obtain ⟨fails, e0, c1, c2, c3, c4⟩ := ct hb
    obtain ⟨st, path, U, hU, hUs, _⟩ := UnmountHive_unload_trace w msg 0
      (UnmountHive_checkEmpty w msg (UnmountHive_waitExit w msg [])).2
    refine ⟨fails, e0, ?_, c2, c3, c4⟩
    have hUf : (Ev.SbieApi_GetUnmountHive st path :: U).filter Ev.isEnum = [] := by
      rw [List.filter_eq_nil_iff]
      intro e he
      simp only [List.mem_cons] at he
      rcases he with rfl | he
      · simp [Ev.isEnum]
      · simp [(Ev.isUnloadStep_not e (hUs e he)).1]
    rw [hU, List.filter_append, hUf, c1, hw]
    simp
  · right
    simp only [if_neg hb]
    have hb' : (UnmountHive_checkEmpty w msg (UnmountHive_waitExit w msg [])).1 = false := by
      simpa using hb
    have hno : ∀ e ∈ (UnmountHive_checkEmpty w msg (UnmountHive_waitExit w msg [])).2,
        e.isGetHive = false ∧ e.isUnload = false := by
      intro e he
      rw [h2, h1] at he
      simp only [List.nil_append, List.mem_append] at he
      rcases he with h | h
      · have := Ev.isPrelude_not e (p1 e h)
        exact ⟨this.2.2.1, this.2.2.2.1⟩
      · rcases (f2 hb' e h).1 with hc | hc
        · have := Ev.isPrelude_not e hc
          exact ⟨this.2.2.1, this.2.2.2.1⟩
        · have := Ev.isPoll_not e hc
          exact ⟨this.1, this.2.1⟩
    rcases cf hb' with ⟨fails, c1, c3, c4⟩ | ⟨c1, c2⟩
    · left
      exact ⟨fails, by rw [c1, hw]; simp, c3, c4, hno⟩
    · right
      exact ⟨by rw [c1, hw], c2, hno⟩

/-- C17 (as stated) fails: when the pid buffer cannot be allocated UnmountHive makes
no enumeration poll at all, so no poll reports an empty box and yet the number of
polls is 0, not 20. -/
theorem C17_no_poll_without_pid_buffer :
    UnmountHive noMemoryWorld unmountMsg [] =
      [Ev.OpenProcess SYNCHRONIZE 1234 0, Ev.SbieApi_QueryProcess 1234 STATUS_ACCESS_DENIED,
        Ev.HeapAlloc PAGE_SIZE 0] ∧
    (UnmountHive noMemoryWorld unmountMsg []).filter Ev.isEmptyEnum = [] ∧
    ((UnmountHive noMemoryWorld unmountMsg []).filter Ev.isEnum).length = 0 := by
  refine ⟨by decide, by decide, by decide⟩

/-- C17 (amended): in every history of UnmountHive at most 20 enumeration polls
are made.  If a poll returns success with zero processes it is the last poll:
when it is the k-th, exactly k polls are made, k is at most 20 and the k-1 polls
before it did not report an empty box.  Every mount-path query and every unload
attempt comes after all the polls, one of which reported an empty box.  If no
poll reports an empty box there is no mount-path query and no unload attempt,
and either exactly 20 polls are made or the allocation of the pid buffer failed
and no poll is made. -/
theorem C17_polls_until_first_empty (w : World) (msg : SVC_UNMOUNT_MSG) :
    ((UnmountHive w msg []).filter Ev.isEnum).length ≤ 20 ∧
    (∀ pre e post, (UnmountHive w msg []).filter Ev.isEnum = pre ++ e :: post →
      e.isEmptyEnum = true →
      post = [] ∧ pre.length < 20 ∧ ∀ x ∈ pre, x.isEmptyEnum = false) ∧
    (∀ pre g post, UnmountHive w msg [] = pre ++ g :: post →
      (g.isGetHive = true ∨ g.isUnload = true) →
      pre.filter Ev.isEnum = (UnmountHive w msg []).filter Ev.isEnum ∧
      ∃ e0 ∈ pre, e0.isEmptyEnum = true) ∧
    ((∀ e ∈ UnmountHive w msg [], e.isEmptyEnum = false) →
      (∀ e ∈ UnmountHive w msg [], e.isGetHive = false ∧ e.isUnload = false) ∧
      (((UnmountHive w msg []).filter Ev.isEnum).length = 20 ∨
        ((UnmountHive w msg []).filter Ev.isEnum = [] ∧
          Ev.HeapAlloc PAGE_SIZE 0 ∈ UnmountHive w msg []))) := by
  refine ⟨?_, ?_, ?_, ?_⟩
  · rcases UnmountHive_polls w msg with ⟨fails, e0, h1, _, _, h4⟩ | ⟨fails, h1, _, h4, _⟩ |
      ⟨h1, _, _⟩
    · rw [h1]; simp; omega
    · rw [h1, h4]
    · rw [h1]; simp
  · intro pre e post hsplit he
    rcases UnmountHive_polls w msg with ⟨fails, e0, h1, h2, h3, h4⟩ | ⟨fails, h1, h3, _, _⟩ |
      ⟨h1, _, _⟩
    · have hcut : fails ++ e0 :: [] = pre ++ e :: post := by rw [← hsplit, h1]
      obtain ⟨hp, _, hq⟩ := cut_unique Ev.isEmptyEnum fails [] pre post e0 e h3 (by simp) he
        hcut
      exact ⟨hq, by rw [hp]; exact h4, by rw [hp]; exact h3⟩
    · have hm : e ∈ fails := by rw [← h1, hsplit]; simp
      rw [h3 e hm] at he
      exact absurd he (by simp)
    · rw [h1] at hsplit
      simp at hsplit
  · intro pre g post hsplit hg
    rcases UnmountHive_shape w msg with hA | ⟨X, e0, p, st, path, U, hT, he0, hX, hU, _⟩
    · have hm := hA g (by rw [hsplit]; simp)
      rcases hg with hg | hg
      · rw [hm.2.1] at hg; exact absurd hg (by simp)
      · rw [hm.2.2.1] at hg; exact absurd hg (by simp)
    · have h0 := Ev.isEmptyEnum_not e0 he0
      have hQ : ∀ a ∈ X ++ [e0, Ev.HeapFree p], (a.isGetHive || a.isUnload) = false := by
        intro a ha
        simp only [List.mem_append, List.mem_cons, List.mem_singleton, List.not_mem_nil,
          or_false] at ha
        rcases ha with h | rfl | rfl
        · rcases hX a h with h' | h'
          · have := Ev.isPrelude_not a h'
            simp [this.2.2.1, this.2.2.2.1]
          · have := Ev.isPoll_not a h'
            simp [this.1, this.2.1]
        · simp [h0.2.1, h0.2.2.1]
        · rfl
      have hgQ : (g.isGetHive || g.isUnload) = true := by
        rcases hg with hg | hg <;> simp [hg]
      have hcut : (X ++ [e0, Ev.HeapFree p]) ++ (Ev.SbieApi_GetUnmountHive st path :: U) =
          pre ++ g :: post := by rw [← hsplit, hT]; simp
      obtain ⟨pre2, hp1, hp2⟩ := cut_behind_prefix (fun a => a.isGetHive || a.isUnload) _ _ _ _ _
        hQ hgQ hcut
      have hGU : ∀ a ∈ Ev.SbieApi_GetUnmountHive st path :: U, a.isEnum = false := by
        intro a ha
        simp only [List.mem_cons] at ha
        rcases ha with rfl | ha
        · rfl
        · exact (Ev.isUnloadStep_not a (hU a ha)).1
      have hf1 : (Ev.SbieApi_GetUnmountHive st path :: U).filter Ev.isEnum = [] := by
        rw [List.filter_eq_nil_iff]
        intro a ha
        simp [hGU a ha]
      have hf2 : pre2.filter Ev.isEnum = [] := by
        rw [List.filter_eq_nil_iff]
        intro a ha
        simp [hGU a (by rw [hp2]; exact List.mem_append_left _ ha)]
      constructor
      · have hT2 : UnmountHive w msg [] = (X ++ [e0, Ev.HeapFree p]) ++
            (Ev.SbieApi_GetUnmountHive st path :: U) := by rw [hT]; simp
        rw [hT2, hp1]
        simp only [List.filter_append, hf1, hf2]
      · exact ⟨e0, by rw [hp1]; simp, he0⟩
  · intro hno
    rcases UnmountHive_polls w msg with ⟨fails, e0, h1, h2, _, _⟩ | ⟨fails, h1, _, h4, h5⟩ |
      ⟨h1, h2, h3⟩
    · have hm : e0 ∈ (UnmountHive w msg []).filter Ev.isEnum := by rw [h1]; simp
      have := hno e0 (List.mem_filter.1 hm).1
      rw [h2] at this
      exact absurd this (by simp)
    · exact ⟨h5, Or.inl (by rw [h1, h4])⟩
    · exact ⟨h3, Or.inr ⟨h1, h2⟩⟩

/-- Witness for C17 (amended): the box is reported empty by the sixth poll; the
mount-path query is the call after the release of the pid buffer, and the six
polls all precede it. -/
theorem C17_polls_until_first_empty_witness :
    ((UnmountHive sixthPollWorld unmountMsg []).take 15).filter Ev.isEnum =
        (UnmountHive sixthPollWorld unmountMsg []).filter Ev.isEnum ∧
      ∃ e0 ∈ (UnmountHive sixthPollWorld unmountMsg []).take 15, e0.isEmptyEnum = true :=
  (C17_polls_until_first_empty sixthPollWorld unmountMsg).2.2.1
    ((UnmountHive sixthPollWorld unmountMsg []).take 15)
    (Ev.SbieApi_GetUnmountHive 0 "REGISTRY-USER-Sandbox_user_DefaultBox")
    ((UnmountHive sixthPollWorld unmountMsg []).drop 16) (by decide) (Or.inl rfl)

/-! ### The SID lookup -/

/-- The history and the result of `LookupSid2`: its calls are fallback calls; a
value query that returned success and type REG_SZ leaves its string in the buffer;
the buffer holds what it held on entry, or nothing, or the string of such a
query. -/
theorem LookupSid2_trace (w : SidWorld) (SidString : String) (UserName : List Char)
    (len : Nat) (tr : List SidEv) :
    ∃ suf, (LookupSid2 w SidString UserName len tr).2 = tr ++ suf ∧
      (∀ e ∈ suf, e.isFallback = true) ∧
      (∀ hKey vn l n, SidEv.RegQueryValueEx hKey vn l 0 REG_SZ n ∈ suf →
        (LookupSid2 w SidString UserName len tr).1 = n) ∧
      ((LookupSid2 w SidString UserName len tr).1 = UserName ∨
        (LookupSid2 w SidString UserName len tr).1 = [] ∨
        ∃ hKey n, SidEv.RegQueryValueEx hKey "Logon User Name" len 0 REG_SZ n ∈ suf ∧
          (LookupSid2 w SidString UserName len tr).1 = n) := by
  simp only [LookupSid2]
  generalize w.HeapAlloc tr 1024 = kp
  by_cases h0 : kp = 0
  · simp only [if_pos h0]
    exact ⟨[SidEv.HeapAlloc 1024 kp], rfl, by simp [SidEv.isFallback], by simp, by simp⟩
  · simp only [if_neg h0]
    generalize SidString ++ "\\Software\\Microsoft\\Windows\\CurrentVersion\\Explorer" = path
    generalize w.RegOpenKeyEx (tr ++ [SidEv.HeapAlloc 1024 kp]) path = o
    by_cases h1 : o.1 = 0
    · simp only [if_pos h1]
      generalize w.RegQueryValueEx (tr ++ [SidEv.HeapAlloc 1024 kp] ++
        [SidEv.RegOpenKeyEx path o.1 o.2]) o.2 len = q
      refine ⟨[SidEv.HeapAlloc 1024 kp, SidEv.RegOpenKeyEx path o.1 o.2,
        SidEv.RegQueryValueEx o.2 "Logon User Name" len q.1 q.2.1 q.2.2, SidEv.RegCloseKey o.2,
        SidEv.HeapFree kp], by simp, by simp [SidEv.isFallback], ?_, ?_⟩
      · intro hKey vn l n hm
        simp only [List.mem_cons, List.mem_singleton, List.not_mem_nil, or_false] at hm
        rcases hm with hm | hm | hm | hm | hm
        · simp at hm
        · simp at hm
        · simp only [SidEv.RegQueryValueEx.injEq] at hm
          obtain ⟨_, _, _, hq1, hq2, hq3⟩ := hm
          have hc : ¬ (q.1 ≠ 0 ∨ q.2.1 ≠ REG_SZ) := by
            rw [← hq1, ← hq2]; simp
          simp only [if_neg hc]
          exact hq3.symm
        · simp at hm
        · simp at hm
      · by_cases hc : q.1 ≠ 0 ∨ q.2.1 ≠ REG_SZ
        · simp only [if_pos hc]
          simp
        · simp only [if_neg hc]
          have hc1 : q.1 = 0 := by
            by_contra h; exact hc (Or.inl h)
          have hc2 : q.2.1 = REG_SZ := by
            by_contra h; exact hc (Or.inr h)
          refine Or.inr (Or.inr ⟨o.2, q.2.2, ?_, rfl⟩)
          rw [← hc1, ← hc2]
          simp
    · simp only [if_neg h1]
      exact ⟨[SidEv.HeapAlloc 1024 kp, SidEv.RegOpenKeyEx path o.1 o.2, SidEv.HeapFree kp],
        by simp, by simp [SidEv.isFallback], by simp, by simp⟩

theorem SidEv.isFallback_not (e : SidEv) (h : e.isFallback = true) :
    e.isSetUserName = false := by
  cases e <;> simp_all [SidEv.isFallback, SidEv.isSetUserName]

/-- The history and the result of the two-tier lookup. -/
theorem LookupSid_resolve_trace (w : SidWorld) (msg : SVC_LOOKUP_SID_MSG) (pSid : Nat)
    (tr : List SidEv) :
    ∃ suf, (LookupSid_resolve w msg pSid tr).2.2 = tr ++ suf ∧
      (∀ e ∈ suf, e.isSetUserName = false) ∧
      (∀ hKey vn l n, SidEv.RegQueryValueEx hKey vn l 0 REG_SZ n ∈ suf → n ≠ [] →
        (LookupSid_resolve w msg pSid tr).1 = true ∧
        (LookupSid_resolve w msg pSid tr).2.1 = n) ∧
      ((∃ e ∈ suf, e.isFallback = true) →
        ∃ n0 post, suf = SidEv.LookupAccountSid pSid false n0 ::
          SidEv.GetLastError ERROR_NONE_MAPPED :: post) ∧
      ((LookupSid_resolve w msg pSid tr).1 = true →
        (LookupSid_resolve w msg pSid tr).2.1 ≠ [] →
        (∃ n, SidEv.LookupAccountSid pSid true n ∈ suf ∧
          (LookupSid_resolve w msg pSid tr).2.1 = n) ∨
        (∃ hKey len n, SidEv.RegQueryValueEx hKey "Logon User Name" len 0 REG_SZ n ∈ suf ∧
          (LookupSid_resolve w msg pSid tr).2.1 = n)) := by
  simp only [LookupSid_resolve]
  generalize w.LookupAccountSid tr pSid = l
  obtain ⟨b, n0⟩ := l
  by_cases hl : b = false
  · subst hl
    simp only [if_true]
    generalize w.GetLastError (tr ++ [SidEv.LookupAccountSid pSid false n0]) = err
    by_cases he : err = ERROR_NONE_MAPPED
    · simp only [if_pos he]
      obtain ⟨suf2, hs, hfb, hq, hres⟩ := LookupSid2_trace w msg.sid_string [] (256 - 4)
        (tr ++ [SidEv.LookupAccountSid pSid false n0] ++ [SidEv.GetLastError err])
      generalize LookupSid2 w msg.sid_string [] (256 - 4)
        (tr ++ [SidEv.LookupAccountSid pSid false n0] ++ [SidEv.GetLastError err]) = r at hs hq hres
      have hmem : ∀ (tail : List SidEv) (e : SidEv),
          (∀ x ∈ tail, x = SidEv.SetLastError ERROR_NONE_MAPPED) →
          e ∈ [SidEv.LookupAccountSid pSid false n0, SidEv.GetLastError err] ++ suf2 ++ tail →
          e = SidEv.LookupAccountSid pSid false n0 ∨ e = SidEv.GetLastError err ∨ e ∈ suf2 ∨
            e = SidEv.SetLastError ERROR_NONE_MAPPED := by
        intro tail e ht hm
        simp only [List.mem_append, List.mem_cons, List.mem_singleton, List.not_mem_nil,
          or_false] at hm
        rcases hm with (((h | h) | h) | h)
        · exact Or.inl h
        · exact Or.inr (Or.inl h)
        · exact Or.inr (Or.inr (Or.inl h))
        · exact Or.inr (Or.inr (Or.inr (ht e h)))
      by_cases hr : r.1 ≠ []
      · simp only [if_pos hr]
        refine ⟨[SidEv.LookupAccountSid pSid false n0, SidEv.GetLastError err] ++ suf2 ++ [],
          by rw [hs]; simp, ?_, ?_, ?_, ?_⟩
        · intro e hm
          rcases hmem [] e (by simp) hm with rfl | rfl | h | rfl
          · rfl
          · rfl
          · exact SidEv.isFallback_not e (hfb e h)
          · rfl
        · intro hKey vn len n hm _
          rcases hmem [] _ (by simp) hm with h | h | h | h
          · simp at h
          · simp at h
          · exact ⟨trivial, hq hKey vn len n h⟩
          · simp at h
        · intro _
          exact ⟨n0, suf2 ++ [], by rw [he]; simp⟩
        · intro _ _
          rcases hres with h | h | ⟨hKey, n, h1, h2⟩
          · exact absurd h hr
          · exact absurd h hr
          · exact Or.inr ⟨hKey, 256 - 4, n, by simp [h1], h2⟩
      · simp only [if_neg hr]
        have hr0 : r.1 = [] := by simpa using hr
        refine ⟨[SidEv.LookupAccountSid pSid false n0, SidEv.GetLastError err] ++ suf2 ++
          [SidEv.SetLastError ERROR_NONE_MAPPED], by rw [hs]; simp, ?_, ?_, ?_, by simp⟩
        · intro e hm
          rcases hmem _ e (by simp) hm with rfl | rfl | h | rfl
          · rfl
          · rfl
          · exact SidEv.isFallback_not e (hfb e h)
          · rfl
        · intro hKey vn len n hm hn
          rcases hmem _ _ (by simp) hm with h | h | h | h
          · simp at h
          · simp at h
          · have := hq hKey vn len n h
            rw [hr0] at this
            exact absurd this.symm hn
          · simp at h
        · intro _
          exact ⟨n0, suf2 ++ [SidEv.SetLastError ERROR_NONE_MAPPED], by rw [he]; simp⟩
    · simp only [if_neg he]
      refine ⟨[SidEv.LookupAccountSid pSid false n0, SidEv.GetLastError err], by simp,
        by simp [SidEv.isSetUserName], by simp, ?_, by simp⟩
      rintro ⟨e, hm, hf⟩
      simp only [List.mem_cons, List.mem_singleton, List.not_mem_nil, or_false] at hm
      rcases hm with rfl | rfl <;> simp [SidEv.isFallback] at hf
  · have hl1 : b = true := by simpa using hl
    subst hl1
    simp only [Bool.true_eq_false, if_false]
    refine ⟨[SidEv.LookupAccountSid pSid true n0], rfl, by simp [SidEv.isSetUserName], by simp,
      ?_, ?_⟩
    · rintro ⟨e, hm, hf⟩
      simp only [List.mem_singleton] at hm
      subst hm
      simp [SidEv.isFallback] at hf
    · intro _ _
      exact Or.inl ⟨n0, by simp, rfl⟩

theorem take_ne_nil_of_ne_nil {α : Type} (l : List α) (h : l ≠ []) : l.take 252 ≠ [] := by
  cases l with
  | nil => exact absurd rfl h
  | cons a l => simp

/-- The history of the report part: the release of the SID, one report of a
non-empty name, and the diagnostic exactly when the report returned non-zero. -/
theorem LookupSid_report_trace (w : SidWorld) (msg : SVC_LOOKUP_SID_MSG) (pSid : Nat)
    (b : Bool) (username : List Char) (tr : List SidEv) :
    ∃ name rc, LookupSid_report w msg pSid b username tr =
        tr ++ [SidEv.LocalFree pSid, SidEv.SbieApi_SetUserName msg.sid_string name rc] ++
          (if rc ≠ 0 then
            [SidEv.SbieApi_LogEx msg.session_id 2209 "[33 / %08X]" [LogArg.num rc]]
           else []) ∧
      name ≠ [] ∧
      name = (if b = false ∨ username = [] then placeholderName else username).take 252 := by
  simp only [LookupSid_report]
  refine ⟨(if b = false ∨ username = [] then placeholderName else username).take 252,
    w.SbieApi_SetUserName (tr ++ [SidEv.LocalFree pSid]) msg.sid_string
      ((if b = false ∨ username = [] then placeholderName else username).take 252),
    ?_, ?_, rfl⟩
  · split_ifs <;> simp
  · apply take_ne_nil_of_ne_nil
    split_ifs with h
    · decide
    · intro hu
      exact h (Or.inr hu)

/-- The history of `LookupSid`: a failed conversion followed by its diagnostic; or
the conversion, the calls `suf` of the two-tier lookup and the report part. -/
theorem LookupSid_trace (w : SidWorld) (msg : SVC_LOOKUP_SID_MSG) :
    ((w.ConvertStringSidToSid [] msg.sid_string).1 = false →
      ∃ pSid err, LookupSid w msg [] =
        [SidEv.ConvertStringSidToSid msg.sid_string false pSid, SidEv.GetLastError err,
          SidEv.SbieApi_LogEx msg.session_id 2209 "[11 / %d]" [LogArg.num err]]) ∧
    ((w.ConvertStringSidToSid [] msg.sid_string).1 = true →
      ∃ pSid suf b username name rc, LookupSid w msg [] =
          SidEv.ConvertStringSidToSid msg.sid_string true pSid :: suf ++
            [SidEv.LocalFree pSid, SidEv.SbieApi_SetUserName msg.sid_string name rc] ++
            (if rc ≠ 0 then
              [SidEv.SbieApi_LogEx msg.session_id 2209 "[33 / %08X]" [LogArg.num rc]]
             else []) ∧
        name ≠ [] ∧
        name = (if b = false ∨ username = [] then placeholderName else username).take 252 ∧
        (∀ e ∈ suf, e.isSetUserName = false) ∧
        (∀ hKey vn l n, SidEv.RegQueryValueEx hKey vn l 0 REG_SZ n ∈ suf → n ≠ [] →
          b = true ∧ username = n) ∧
        ((∃ e ∈ suf, e.isFallback = true) →
          ∃ n0 post, suf = SidEv.LookupAccountSid pSid false n0 ::
            SidEv.GetLastError ERROR_NONE_MAPPED :: post) ∧
        (b = true → username ≠ [] →
          (∃ n, SidEv.LookupAccountSid pSid true n ∈ suf ∧ username = n) ∨
          (∃ hKey len n, SidEv.RegQueryValueEx hKey "Logon User Name" len 0 REG_SZ n ∈ suf ∧
            username = n))) := by
  simp only [LookupSid, List.nil_append]
  generalize w.ConvertStringSidToSid [] msg.sid_string = c
  obtain ⟨ok, pSid⟩ := c
  constructor
  · intro h
    simp only at h
    subst h
    simp only [if_true]
    exact ⟨pSid, w.GetLastError [SidEv.ConvertStringSidToSid msg.sid_string false pSid],
      by simp⟩
  · intro h
    simp only at h
    subst h
    simp only [Bool.true_eq_false, if_false]
    obtain ⟨suf, hs, h1, h2, h3, h4⟩ := LookupSid_resolve_trace w msg pSid
      [SidEv.ConvertStringSidToSid msg.sid_string true pSid]
    generalize LookupSid_resolve w msg pSid
      [SidEv.ConvertStringSidToSid msg.sid_string true pSid] = r at hs h2 h4
    obtain ⟨name, rc, hr, hn, hname⟩ := LookupSid_report_trace w msg pSid r.1 r.2.1 r.2.2
    refine ⟨pSid, suf, r.1, r.2.1, name, rc, ?_, hn, hname, h1, h2, h3, h4⟩
    rw [hr, hs]
    simp

/-- C11 (as stated) fails: for a message whose SID string does not parse, LookupSid
logs the 2209 diagnostic of the conversion and returns without any
SbieApi_SetUserName call. -/
theorem C11_no_report_when_sid_does_not_parse :
    LookupSid badSidWorld sidMsg [] =
      [SidEv.ConvertStringSidToSid "S-1-5-21-1-2-3-1001" false 0, SidEv.GetLastError 1337,
        SidEv.SbieApi_LogEx 1 2209 "[11 / %d]" [LogArg.num 1337]] ∧
    (LookupSid badSidWorld sidMsg []).filter SidEv.isSetUserName = [] := by
  refine ⟨by decide, by decide⟩

/-- C11 (amended): for every SID-lookup message whose SID string parses, the
history of LookupSid holds exactly one SbieApi_SetUserName call, made for the SID
string of the message with a non-empty name that is the placeholder or a name
returned by the account lookup or by the registry fallback (cut at 252
characters); the call is followed by a 2209 diagnostic when it returned non-zero
and by nothing otherwise.  When the SID string does not parse, the history is
the conversion, GetLastError and a 2209 diagnostic, with no SbieApi_SetUserName
call. -/
theorem C11_one_report_when_sid_parses (w : SidWorld) (msg : SVC_LOOKUP_SID_MSG) :
    ((w.ConvertStringSidToSid [] msg.sid_string).1 = true →
      ∃ pre name rc, LookupSid w msg [] =
          pre ++ SidEv.SbieApi_SetUserName msg.sid_string name rc ::
            (if rc ≠ 0 then
              [SidEv.SbieApi_LogEx msg.session_id 2209 "[33 / %08X]" [LogArg.num rc]]
             else []) ∧
        (∀ e ∈ pre, e.isSetUserName = false) ∧ name ≠ [] ∧
        (name = placeholderName ∨
          (∃ pSid n, SidEv.LookupAccountSid pSid true n ∈ pre ∧ name = n.take 252) ∨
          (∃ hKey len n, SidEv.RegQueryValueEx hKey "Logon User Name" len 0 REG_SZ n ∈ pre ∧
            name = n.take 252))) ∧
    ((w.ConvertStringSidToSid [] msg.sid_string).1 = false →
      ∃ pSid err, LookupSid w msg [] =
        [SidEv.ConvertStringSidToSid msg.sid_string false pSid, SidEv.GetLastError err,
          SidEv.SbieApi_LogEx msg.session_id 2209 "[11 / %d]" [LogArg.num err]]) := by
  refine ⟨fun hok => ?_, (LookupSid_trace w msg).1⟩
  obtain ⟨pSid, suf, b, username, name, rc, hT, hn, hname, h1, _, _, h4⟩ :=
    (LookupSid_trace w msg).2 hok
  refine ⟨SidEv.ConvertStringSidToSid msg.sid_string true pSid :: suf ++ [SidEv.LocalFree pSid],
    name, rc, by rw [hT]; simp, ?_, hn, ?_⟩
  · intro e he
    simp only [List.cons_append, List.mem_cons, List.mem_append, List.mem_singleton,
      List.not_mem_nil, or_false] at he
    rcases he with rfl | he | rfl
    · rfl
    · exact h1 e he
    · rfl
  · by_cases hc : b = false ∨ username = []
    · left
      rw [hname, if_pos hc]
      decide
    · right
      rw [if_neg hc] at hname
      have hb : b = true := by
        by_contra h
        exact hc (Or.inl (by simpa using h))
      have hu : username ≠ [] := fun h => hc (Or.inr h)
      rcases h4 hb hu with ⟨n, hm, hn'⟩ | ⟨hKey, len, n, hm, hn'⟩
      · exact Or.inl ⟨pSid, n, by simp [hm], by rw [hname, hn']⟩
      · exact Or.inr ⟨hKey, len, n, by simp [hm], by rw [hname, hn']⟩

/-- Witness for C11 (amended): the machine on which the registry fallback finds
"alice". -/
theorem C11_one_report_when_sid_parses_witness :
    ∃ pre name rc, LookupSid fallbackWorld sidMsg [] =
        pre ++ SidEv.SbieApi_SetUserName sidMsg.sid_string name rc ::
          (if rc ≠ 0 then
            [SidEv.SbieApi_LogEx sidMsg.session_id 2209 "[33 / %08X]" [LogArg.num rc]]
           else []) ∧
      (∀ e ∈ pre, e.isSetUserName = false) ∧ name ≠ [] ∧
      (name = placeholderName ∨
        (∃ pSid n, SidEv.LookupAccountSid pSid true n ∈ pre ∧ name = n.take 252) ∨
        (∃ hKey len n, SidEv.RegQueryValueEx hKey "Logon User Name" len 0 REG_SZ n ∈ pre ∧
          name = n.take 252)) :=
  (C11_one_report_when_sid_parses fallbackWorld sidMsg).1 rfl

/-- C18: in every history of LookupSid, a value query of the registry fallback that
returns success, type REG_SZ and a non-empty name is followed by the report of
that name, cut at 252 characters, for the SID string of the message (the
placeholder is not substituted); and calls of the fallback occur only directly
after the primary lookup failed and GetLastError returned ERROR_NONE_MAPPED. -/
theorem C18_fallback_name_reported (w : SidWorld) (msg : SVC_LOOKUP_SID_MSG) :
    (∀ hKey vn len n,
      SidEv.RegQueryValueEx hKey vn len 0 REG_SZ n ∈ LookupSid w msg [] → n ≠ [] →
      ∃ pre rc post, LookupSid w msg [] =
        pre ++ SidEv.SbieApi_SetUserName msg.sid_string (n.take 252) rc :: post ∧
        SidEv.RegQueryValueEx hKey vn len 0 REG_SZ n ∈ pre) ∧
    ((∃ e ∈ LookupSid w msg [], e.isFallback = true) →
      ∃ pre pSid n0 post, LookupSid w msg [] =
          pre ++ SidEv.LookupAccountSid pSid false n0 ::
            SidEv.GetLastError ERROR_NONE_MAPPED :: post ∧
        ∀ e ∈ pre, e.isFallback = false) := by
  by_cases hok : (w.ConvertStringSidToSid [] msg.sid_string).1 = true
  · obtain ⟨pSid, suf, b, username, name, rc, hT, hn, hname, h1, h2, h3, _⟩ :=
      (LookupSid_trace w msg).2 hok
    have hin : ∀ e ∈ LookupSid w msg [], e.isFallback = true → e ∈ suf := by
      intro e he hf
      rw [hT] at he
      simp only [List.cons_append, List.mem_cons, List.mem_append, List.mem_singleton,
        List.not_mem_nil, or_false] at he
      rcases he with rfl | (he | rfl | rfl) | he
      · simp [SidEv.isFallback] at hf
      · exact he
      · simp [SidEv.isFallback] at hf
      · simp [SidEv.isFallback] at hf
      · split_ifs at he
        · simp only [List.mem_singleton] at he
          subst he
          simp [SidEv.isFallback] at hf
        · simp at he
    constructor
    · intro hKey vn len n hm hne
      have hms := hin _ hm rfl
      obtain ⟨hb, hu⟩ := h2 hKey vn len n hms hne
      have hc : ¬ (b = false ∨ username = []) := by
        rw [hb, hu]
        simp [hne]
      rw [if_neg hc, hu] at hname
      refine ⟨SidEv.ConvertStringSidToSid msg.sid_string true pSid :: suf ++
        [SidEv.LocalFree pSid], rc,
        (if rc ≠ 0 then
          [SidEv.SbieApi_LogEx msg.session_id 2209 "[33 / %08X]" [LogArg.num rc]]
         else []), ?_, by simp [hms]⟩
      rw [hT, hname]
      simp
    · rintro ⟨e, he, hf⟩
      obtain ⟨n0, post, hs⟩ := h3 ⟨e, hin e he hf, hf⟩
      refine ⟨[SidEv.ConvertStringSidToSid msg.sid_string true pSid], pSid, n0,
        post ++ [SidEv.LocalFree pSid, SidEv.SbieApi_SetUserName msg.sid_string name rc] ++
          (if rc ≠ 0 then
            [SidEv.SbieApi_LogEx msg.session_id 2209 "[33 / %08X]" [LogArg.num rc]]
           else []), ?_,
        by simp [SidEv.isFallback]⟩
      rw [hT, hs]
      simp
  · have hno : (w.ConvertStringSidToSid [] msg.sid_string).1 = false := by simpa using hok
    obtain ⟨pSid, err, hT⟩ := (LookupSid_trace w msg).1 hno
    constructor
    · intro hKey vn len n hm _
      rw [hT] at hm
      simp at hm
    · rintro ⟨e, he, hf⟩
      rw [hT] at he
      simp only [List.mem_cons, List.mem_singleton, List.not_mem_nil, or_false] at he
      rcases he with rfl | rfl | rfl <;> simp [SidEv.isFallback] at hf

/-- Witness for C18: the machine on which the account lookup finds no mapping and
the registry holds the logon name "alice". -/
theorem C18_fallback_name_reported_witness :
    ∃ pre rc post, LookupSid fallbackWorld sidMsg [] =
      pre ++ SidEv.SbieApi_SetUserName sidMsg.sid_string
        ((String.toList "alice").take 252) rc :: post ∧
      SidEv.RegQueryValueEx 60 "Logon User Name" 252 0 REG_SZ (String.toList "alice") ∈ pre :=
  (C18_fallback_name_reported fallbackWorld sidMsg).1 60 "Logon User Name" 252
    (String.toList "alice") (by decide) (by decide)

/-! ### The hive unmount: bounded work -/

theorem UnmountHive_queryLoop_work (w : World) (msg : SVC_UNMOUNT_MSG) (n : Nat)
    (tr : List Ev) :
    ∃ suf, UnmountHive_queryLoop w msg n tr = tr ++ suf ∧
      suf.countP Ev.isQueryProcess ≤ n ∧ suf.countP Ev.isSleep ≤ n ∧
      suf.countP Ev.isEnum = 0 ∧ suf.countP Ev.isUnload = 0 ∧
      ∀ e ∈ suf, e.sleepIs100 = true ∧ e.isPrelude = true := by
  induction n generalizing tr with
  | zero => exact ⟨[], by simp [UnmountHive_queryLoop]⟩
  | succ n ih =>
    simp only [UnmountHive_queryLoop]
    generalize w.SbieApi_QueryProcess tr msg.process_id = rc
    split_ifs with h
    · exact ⟨[Ev.SbieApi_QueryProcess msg.process_id rc], rfl,
        by simp [Ev.isQueryProcess], by simp [Ev.isSleep], by simp [Ev.isEnum],
        by simp [Ev.isUnload], by simp [Ev.sleepIs100, Ev.isPrelude]⟩
    · obtain ⟨suf, hs, h1, h2, h3, h4, h5⟩ :=
        ih (tr ++ [Ev.SbieApi_QueryProcess msg.process_id rc] ++ [Ev.Sleep 100])
      refine ⟨[Ev.SbieApi_QueryProcess msg.process_id rc, Ev.Sleep 100] ++ suf, ?_, ?_, ?_, ?_,
        ?_, ?_⟩
      · rw [hs]; simp
      · simp only [List.countP_append, List.countP_cons, List.countP_nil, Ev.isQueryProcess]
        simp; omega
      · simp only [List.countP_append, List.countP_cons, List.countP_nil, Ev.isSleep]
        simp; omega
      · simp only [List.countP_append, List.countP_cons, List.countP_nil, Ev.isEnum, h3]
        simp
      · simp only [List.countP_append, List.countP_cons, List.countP_nil, Ev.isUnload, h4]
        simp
      · intro e he
        rcases List.mem_append.1 he with h | h
        · simp only [List.mem_cons, List.mem_singleton, List.not_mem_nil, or_false] at h
          rcases h with rfl | rfl <;> exact ⟨rfl, rfl⟩
        · exact h5 e h

theorem UnmountHive_enumLoop_work (w : World) (msg : SVC_UNMOUNT_MSG) (n : Nat)
    (tr : List Ev) :
    ∃ suf, (UnmountHive_enumLoop w msg n tr).2 = tr ++ suf ∧
      suf.countP Ev.isQueryProcess = 0 ∧ suf.countP Ev.isSleep ≤ n ∧
      suf.countP Ev.isEnum ≤ n ∧ suf.countP Ev.isUnload = 0 ∧
      ∀ e ∈ suf, e.sleepIs100 = true ∧ e.isPoll = true := by
  induction n generalizing tr with
  | zero => exact ⟨[], by simp [UnmountHive_enumLoop]⟩
  | succ n ih =>
    simp only [UnmountHive_enumLoop]
    generalize w.SbieApi_EnumProcessEx tr msg.boxname false msg.session_id = r
    split_ifs with h
    · exact ⟨[Ev.SbieApi_EnumProcessEx msg.boxname false msg.session_id r.1 r.2], rfl,
        by simp [Ev.isQueryProcess], by simp [Ev.isSleep], by simp [Ev.isEnum],
        by simp [Ev.isUnload], by simp [Ev.sleepIs100, Ev.isPoll]⟩
    · obtain ⟨suf, hs, h1, h2, h3, h4, h5⟩ :=
        ih (tr ++ [Ev.SbieApi_EnumProcessEx msg.boxname false msg.session_id r.1 r.2] ++
          [Ev.Sleep 100])
      refine ⟨[Ev.SbieApi_EnumProcessEx msg.boxname false msg.session_id r.1 r.2,
        Ev.Sleep 100] ++ suf, ?_, ?_, ?_, ?_, ?_, ?_⟩
      · rw [hs]; simp
      · simp only [List.countP_append, List.countP_cons, List.countP_nil, Ev.isQueryProcess, h1]
        simp
      · simp only [List.countP_append, List.countP_cons, List.countP_nil, Ev.isSleep]
        simp; omega
      · simp only [List.countP_append, List.countP_cons, List.countP_nil, Ev.isEnum]
        simp; omega
      · simp only [List.countP_append, List.countP_cons, List.countP_nil, Ev.isUnload, h4]
        simp
      · intro e he
        rcases List.mem_append.1 he with h | h
        · simp only [List.mem_cons, List.mem_singleton, List.not_mem_nil, or_false] at h
          rcases h with rfl | rfl <;> exact ⟨rfl, rfl⟩
        · exact h5 e h

theorem not_found_ne_zero :
    STATUS_OBJECT_NAME_NOT_FOUND ≠ 0 ∧ STATUS_OBJECT_PATH_NOT_FOUND ≠ 0 := by
  constructor <;> decide

/-- A cut of `a :: L` in front of `e`: either `e` is `a`, or the cut lies in `L`. -/
theorem cut_cons {α : Type} {a e : α} {L pre post : List α} (h : a :: L = pre ++ e :: post) :
    (pre = [] ∧ e = a ∧ post = L) ∨ ∃ pre1, pre = a :: pre1 ∧ L = pre1 ++ e :: post := by
  cases pre with
  | nil =>
    simp only [List.nil_append, List.cons.injEq] at h
    exact Or.inl ⟨rfl, h.1.symm, h.2.symm⟩
  | cons b pre =>
    simp only [List.cons_append, List.cons.injEq] at h
    exact Or.inr ⟨pre, by rw [h.1], h.2⟩

theorem cut_nil {α : Type} {e : α} {pre post : List α} (h : [] = pre ++ e :: post) : False := by
  cases pre <;> simp at h

/-- The calls of the unload loop with `n` iterations left: at most `n` attempts,
one sleep and one re-open per failed attempt, a close after every re-open that
returned 0, and nothing after an attempt that succeeded or a re-open that
reported the key as not found; the loop ends early in these two cases only. -/
theorem UnmountHive_unloadLoop_rounds (w : World) (root_path : String) (n : Nat) :
    ∀ (rc : Int) (tr : List Ev),
    ∃ suf, (UnmountHive_unloadLoop w root_path n rc tr).2 = tr ++ suf ∧
      suf.countP Ev.isUnload ≤ n ∧ suf.countP Ev.isSleep ≤ suf.countP Ev.isUnload ∧
      suf.countP Ev.isQueryProcess = 0 ∧ suf.countP Ev.isEnum = 0 ∧
      (∀ e ∈ suf, e.sleepIs100 = true ∧ e.isGetHive = false ∧ e.isLog = false) ∧
      (∀ pre e post, suf = pre ++ e :: post → e.isUnloadStop = true → post = []) ∧
      (suf.countP Ev.isUnload = n ∨ ∃ e ∈ suf, e.isUnloadStop = true) ∧
      (∀ pre p key post, suf = pre ++ Ev.NtOpenKey p 0 key :: post →
        ∃ post1, post = Ev.NtClose key :: post1) ∧
      (∀ pre p rc1 post, suf = pre ++ Ev.NtUnloadKey p rc1 :: post → rc1 ≠ 0 →
        ∃ r key post1, post = Ev.Sleep 100 :: Ev.NtOpenKey p r key :: post1) ∧
      (∀ pre h post, suf = pre ++ Ev.NtClose h :: post →
        ∃ pre1 p, pre = pre1 ++ [Ev.NtOpenKey p 0 h]) := by
  induction n with
  | zero =>
    intro rc tr
    exact ⟨[], by simp [UnmountHive_unloadLoop], by simp, by simp, by simp, by simp, by simp,
      by simp, by simp, by simp, by simp, by simp⟩
  | succ n ih =>
    intro rc tr
    simp only [UnmountHive_unloadLoop]
    generalize w.NtUnloadKey tr root_path = rc1
    generalize w.NtOpenKey (tr ++ [Ev.NtUnloadKey root_path rc1] ++ [Ev.Sleep 100]) root_path = r
    obtain ⟨r1, key⟩ := r
    by_cases h1 : rc1 = 0
    · subst h1
      simp only [if_true]
      refine ⟨[Ev.NtUnloadKey root_path 0], rfl, by simp [Ev.isUnload], by simp [Ev.isSleep],
        by simp [Ev.isQueryProcess], by simp [Ev.isEnum],
        by simp [Ev.sleepIs100, Ev.isGetHive, Ev.isLog], ?_,
        Or.inr ⟨_, List.mem_singleton_self _, by simp [Ev.isUnloadStop]⟩, ?_, ?_, ?_⟩
      · intro pre e post h _
        rcases cut_cons h with ⟨_, _, rfl⟩ | ⟨_, _, h⟩
        · rfl
        · exact (cut_nil h).elim
      · intro pre p key post h
        rcases cut_cons h with ⟨_, h, _⟩ | ⟨_, _, h⟩
        · simp at h
        · exact (cut_nil h).elim
      · intro pre p rc1 post h hne
        rcases cut_cons h with ⟨_, h, _⟩ | ⟨_, _, h⟩
        · simp only [Ev.NtUnloadKey.injEq] at h
          exact absurd h.2 hne
        · exact (cut_nil h).elim
      · intro pre h post hh
        rcases cut_cons hh with ⟨_, h, _⟩ | ⟨_, _, h⟩
        · simp at h
        · exact (cut_nil h).elim
    · simp only [if_neg h1]
      by_cases h2 : r1 = STATUS_OBJECT_NAME_NOT_FOUND ∨ r1 = STATUS_OBJECT_PATH_NOT_FOUND
      · simp only [if_pos h2]
        have hr0 : r1 ≠ 0 := by
          rcases h2 with h | h <;> rw [h]
          · exact not_found_ne_zero.1
          · exact not_found_ne_zero.2
        refine ⟨[Ev.NtUnloadKey root_path rc1, Ev.Sleep 100, Ev.NtOpenKey root_path r1 key],
          by simp, by simp [Ev.isUnload], by simp [Ev.isSleep, Ev.isUnload],
          by simp [Ev.isQueryProcess], by simp [Ev.isEnum],
          by simp [Ev.sleepIs100, Ev.isGetHive, Ev.isLog], ?_,
          Or.inr ⟨Ev.NtOpenKey root_path r1 key, by simp, by simp [Ev.isUnloadStop, h2]⟩,
          ?_, ?_, ?_⟩
        · intro pre e post h he
          rcases cut_cons h with ⟨_, rfl, _⟩ | ⟨_, _, h⟩
          · simp [Ev.isUnloadStop, h1] at he
          · rcases cut_cons h with ⟨_, rfl, _⟩ | ⟨_, _, h⟩
            · simp [Ev.isUnloadStop] at he
            · rcases cut_cons h with ⟨_, _, rfl⟩ | ⟨_, _, h⟩
              · rfl
              · exact (cut_nil h).elim
        · intro pre p key1 post h
          rcases cut_cons h with ⟨_, h, _⟩ | ⟨_, _, h⟩
          · simp at h
          · rcases cut_cons h with ⟨_, h, _⟩ | ⟨_, _, h⟩
            · simp at h
            · rcases cut_cons h with ⟨_, h, _⟩ | ⟨_, _, h⟩
              · simp only [Ev.NtOpenKey.injEq] at h
                exact absurd h.2.1.symm hr0
              · exact (cut_nil h).elim
        · intro pre p rc2 post h hne
          rcases cut_cons h with ⟨_, hq, rfl⟩ | ⟨_, _, h⟩
          · simp only [Ev.NtUnloadKey.injEq] at hq
            exact ⟨r1, key, [], by rw [hq.1]⟩
          · rcases cut_cons h with ⟨_, h, _⟩ | ⟨_, _, h⟩
            · simp at h
            · rcases cut_cons h with ⟨_, h, _⟩ | ⟨_, _, h⟩
              · simp at h
              · exact (cut_nil h).elim
        · intro pre h post hh
          rcases cut_cons hh with ⟨_, h, _⟩ | ⟨_, _, hh⟩
          · simp at h
          · rcases cut_cons hh with ⟨_, h, _⟩ | ⟨_, _, hh⟩
            · simp at h
            · rcases cut_cons hh with ⟨_, h, _⟩ | ⟨_, _, hh⟩
              · simp at h
              · exact (cut_nil hh).elim
      · simp only [if_neg h2]
        by_cases h3 : r1 = 0
        · subst h3
          simp only [if_true]
          obtain ⟨suf, hs, c1, c2, c3, c4, c5, c6, c7, c8, c9, c10⟩ := ih 0
            (tr ++ [Ev.NtUnloadKey root_path rc1] ++ [Ev.Sleep 100] ++
              [Ev.NtOpenKey root_path 0 key] ++ [Ev.NtClose key])
          refine ⟨Ev.NtUnloadKey root_path rc1 :: Ev.Sleep 100 ::
            Ev.NtOpenKey root_path 0 key :: Ev.NtClose key :: suf, by rw [hs]; simp,
            ?_, ?_, ?_, ?_, ?_, ?_, ?_, ?_, ?_, ?_⟩
          · simp [Ev.isUnload]; omega
          · simp [Ev.isUnload, Ev.isSleep]; omega
          · simp [Ev.isQueryProcess, c3]
          · simp [Ev.isEnum, c4]
          · intro e he
            simp only [List.mem_cons] at he
            rcases he with rfl | rfl | rfl | rfl | he
            · simp [Ev.sleepIs100, Ev.isGetHive, Ev.isLog]
            · simp [Ev.sleepIs100, Ev.isGetHive, Ev.isLog]
            · simp [Ev.sleepIs100, Ev.isGetHive, Ev.isLog]
            · simp [Ev.sleepIs100, Ev.isGetHive, Ev.isLog]
            · exact c5 e he
          · intro pre e post h he
            rcases cut_cons h with ⟨_, rfl, _⟩ | ⟨_, _, h⟩
            · simp [Ev.isUnloadStop, h1] at he
            · rcases cut_cons h with ⟨_, rfl, _⟩ | ⟨_, _, h⟩
              · simp [Ev.isUnloadStop] at he
              · rcases cut_cons h with ⟨_, rfl, _⟩ | ⟨_, _, h⟩
                · simp [Ev.isUnloadStop] at he
                  rcases he with he | he
                  · exact absurd he.symm not_found_ne_zero.1
                  · exact absurd he.symm not_found_ne_zero.2
                · rcases cut_cons h with ⟨_, rfl, _⟩ | ⟨_, _, h⟩
                  · simp [Ev.isUnloadStop] at he
                  · exact c6 _ e post h he
          · rcases c7 with c7 | ⟨e, he, hs⟩
            · left; simp [Ev.isUnload, c7]
            · right; exact ⟨e, by simp [he], hs⟩
          · intro pre p key1 post h
            rcases cut_cons h with ⟨_, h, _⟩ | ⟨_, _, h⟩
            · simp at h
            · rcases cut_cons h with ⟨_, h, _⟩ | ⟨_, _, h⟩
              · simp at h
              · rcases cut_cons h with ⟨_, hq, rfl⟩ | ⟨_, _, h⟩
                · simp only [Ev.NtOpenKey.injEq] at hq
                  exact ⟨suf, by rw [hq.2.2]⟩
                · rcases cut_cons h with ⟨_, h, _⟩ | ⟨_, _, h⟩
                  · simp at h
                  · exact c8 _ p key1 post h
          · intro pre p rc2 post h hne
            rcases cut_cons h with ⟨_, hq, rfl⟩ | ⟨_, _, h⟩
            · simp only [Ev.NtUnloadKey.injEq] at hq
              exact ⟨0, key, Ev.NtClose key :: suf, by rw [hq.1]⟩
            · rcases cut_cons h with ⟨_, h, _⟩ | ⟨_, _, h⟩
              · simp at h
              · rcases cut_cons h with ⟨_, h, _⟩ | ⟨_, _, h⟩
                · simp at h
                · rcases cut_cons h with ⟨_, h, _⟩ | ⟨_, _, h⟩
                  · simp at h
                  · exact c9 _ p rc2 post h hne
          · intro pre h post g0
            rcases cut_cons g0 with ⟨_, hq, _⟩ | ⟨_, rfl, g1⟩
            · simp at hq
            · rcases cut_cons g1 with ⟨_, hq, _⟩ | ⟨_, rfl, g2⟩
              · simp at hq
              · rcases cut_cons g2 with ⟨_, hq, _⟩ | ⟨_, rfl, g3⟩
                · simp at hq
                · rcases cut_cons g3 with ⟨rfl, hq, _⟩ | ⟨_, rfl, g4⟩
                  · simp only [Ev.NtClose.injEq] at hq
                    exact ⟨[Ev.NtUnloadKey root_path rc1, Ev.Sleep 100], root_path,
                      by rw [hq]; rfl⟩
                  · obtain ⟨pre1, p, hq⟩ := c10 _ h post g4
                    exact ⟨Ev.NtUnloadKey root_path rc1 :: Ev.Sleep 100 ::
                      Ev.NtOpenKey root_path 0 key :: Ev.NtClose key :: pre1, p,
                      by rw [hq]; rfl⟩
        · simp only [if_neg h3]
          obtain ⟨suf, hs, c1, c2, c3, c4, c5, c6, c7, c8, c9, c10⟩ := ih r1
            (tr ++ [Ev.NtUnloadKey root_path rc1] ++ [Ev.Sleep 100] ++
              [Ev.NtOpenKey root_path r1 key])
          refine ⟨Ev.NtUnloadKey root_path rc1 :: Ev.Sleep 100 ::
            Ev.NtOpenKey root_path r1 key :: suf, by rw [hs]; simp,
            ?_, ?_, ?_, ?_, ?_, ?_, ?_, ?_, ?_, ?_⟩
          · simp [Ev.isUnload]; omega
          · simp [Ev.isUnload, Ev.isSleep]; omega
          · simp [Ev.isQueryProcess, c3]
          · simp [Ev.isEnum, c4]
          · intro e he
            simp only [List.mem_cons] at he
            rcases he with rfl | rfl | rfl | he
            · simp [Ev.sleepIs100, Ev.isGetHive, Ev.isLog]
            · simp [Ev.sleepIs100, Ev.isGetHive, Ev.isLog]
            · simp [Ev.sleepIs100, Ev.isGetHive, Ev.isLog]
            · exact c5 e he
          · intro pre e post h he
            rcases cut_cons h with ⟨_, rfl, _⟩ | ⟨_, _, h⟩
            · simp [Ev.isUnloadStop, h1] at he
            · rcases cut_cons h with ⟨_, rfl, _⟩ | ⟨_, _, h⟩
              · simp [Ev.isUnloadStop] at he
              · rcases cut_cons h with ⟨_, rfl, _⟩ | ⟨_, _, h⟩
                · simp [Ev.isUnloadStop] at he
                  exact absurd he h2
                · exact c6 _ e post h he
          · rcases c7 with c7 | ⟨e, he, hs⟩
            · left; simp [Ev.isUnload, c7]
            · right; exact ⟨e, by simp [he], hs⟩
          · intro pre p key1 post h
            rcases cut_cons h with ⟨_, h, _⟩ | ⟨_, _, h⟩
            · simp at h
            · rcases cut_cons h with ⟨_, h, _⟩ | ⟨_, _, h⟩
              · simp at h
              · rcases cut_cons h with ⟨_, h, _⟩ | ⟨_, _, h⟩
                · simp only [Ev.NtOpenKey.injEq] at h
                  exact absurd h.2.1.symm h3
                · exact c8 _ p key1 post h
          · intro pre p rc2 post h hne
            rcases cut_cons h with ⟨_, hq, rfl⟩ | ⟨_, _, h⟩
            · simp only [Ev.NtUnloadKey.injEq] at hq
              exact ⟨r1, key, suf, by rw [hq.1]⟩
            · rcases cut_cons h with ⟨_, h, _⟩ | ⟨_, _, h⟩
              · simp at h
              · rcases cut_cons h with ⟨_, h, _⟩ | ⟨_, _, h⟩
                · simp at h
                · exact c9 _ p rc2 post h hne
          · intro pre h post g0
            rcases cut_cons g0 with ⟨_, hq, _⟩ | ⟨_, rfl, g1⟩
            · simp at hq
            · rcases cut_cons g1 with ⟨_, hq, _⟩ | ⟨_, rfl, g2⟩
              · simp at hq
              · rcases cut_cons g2 with ⟨_, hq, _⟩ | ⟨_, rfl, g3⟩
                · simp at hq
                · obtain ⟨pre1, p, hq⟩ := c10 _ h post g3
                  exact ⟨Ev.NtUnloadKey root_path rc1 :: Ev.Sleep 100 ::
                    Ev.NtOpenKey root_path r1 key :: pre1, p, by rw [hq]; rfl⟩

theorem Ev.before_unload_loop (e : Ev) (h : e.isPrelude = true ∨ e.isPoll = true) :
    e.isUnload = false ∧ e.isUnloadStop = false ∧ e.isOpenKey = false ∧ e.isGetHive = false ∧
      e.isLog = false ∧ ∀ k, e ≠ Ev.NtClose k := by
  cases e <;> simp_all [Ev.isPrelude, Ev.isPoll, Ev.isUnload, Ev.isUnloadStop, Ev.isOpenKey,
    Ev.isGetHive, Ev.isLog]

theorem UnmountHive_waitExit_work (w : World) (msg : SVC_UNMOUNT_MSG) (tr : List Ev) :
    ∃ suf, UnmountHive_waitExit w msg tr = tr ++ suf ∧
      suf.countP Ev.isQueryProcess ≤ 20 ∧ suf.countP Ev.isSleep ≤ 20 ∧
      suf.countP Ev.isEnum = 0 ∧ suf.countP Ev.isUnload = 0 ∧
      ∀ e ∈ suf, e.sleepIs100 = true ∧ e.isPrelude = true := by
  simp only [UnmountHive_waitExit]
  generalize w.OpenProcess tr SYNCHRONIZE msg.process_id = hp
  generalize w.WaitForSingleObject (tr ++ [Ev.OpenProcess SYNCHRONIZE msg.process_id hp]) hp
    (2 * 1000) = r
  by_cases h0 : hp ≠ 0
  · simp only [if_pos h0]
    by_cases hr : r = 0
    · refine ⟨[Ev.OpenProcess SYNCHRONIZE msg.process_id hp,
        Ev.WaitForSingleObject hp (2 * 1000) r, Ev.CloseHandle hp], by simp [hr], ?_⟩
      simp [Ev.isPrelude, Ev.isQueryProcess, Ev.isSleep, Ev.isEnum, Ev.isUnload, Ev.sleepIs100]
    · obtain ⟨suf, hs, h1, h2, h3, h4, h5⟩ := UnmountHive_queryLoop_work w msg 20
        (tr ++ [Ev.OpenProcess SYNCHRONIZE msg.process_id hp] ++
          [Ev.WaitForSingleObject hp (2 * 1000) r] ++ [Ev.CloseHandle hp])
      refine ⟨[Ev.OpenProcess SYNCHRONIZE msg.process_id hp,
        Ev.WaitForSingleObject hp (2 * 1000) r, Ev.CloseHandle hp] ++ suf, ?_, ?_, ?_, ?_, ?_,
        ?_⟩
      · simp at hs
        simp [hr, hs]
      · simp [Ev.isQueryProcess]; omega
      · simp [Ev.isSleep]; omega
      · simp [Ev.isEnum, h3]
      · simp [Ev.isUnload, h4]
      · intro e he
        rcases List.mem_append.1 he with h | h
        · simp only [List.mem_cons, List.mem_singleton, List.not_mem_nil, or_false] at h
          rcases h with rfl | rfl | rfl <;> exact ⟨rfl, rfl⟩
        · exact h5 e h
  · simp only [if_neg h0]
    obtain ⟨suf, hs, h1, h2, h3, h4, h5⟩ := UnmountHive_queryLoop_work w msg 20
      (tr ++ [Ev.OpenProcess SYNCHRONIZE msg.process_id hp])
    refine ⟨[Ev.OpenProcess SYNCHRONIZE msg.process_id hp] ++ suf, ?_, ?_, ?_, ?_, ?_, ?_⟩
    · simp [hs]
    · simp [Ev.isQueryProcess]; omega
    · simp [Ev.isSleep]; omega
    · simp [Ev.isEnum, h3]
    · simp [Ev.isUnload, h4]
    · intro e he
      rcases List.mem_append.1 he with h | h
      · simp only [List.mem_cons, List.mem_singleton, List.not_mem_nil, or_false] at h
        rcases h with rfl; exact ⟨rfl, rfl⟩
      · exact h5 e h

theorem UnmountHive_checkEmpty_work (w : World) (msg : SVC_UNMOUNT_MSG) (tr : List Ev) :
    ∃ suf, (UnmountHive_checkEmpty w msg tr).2 = tr ++ suf ∧
      suf.countP Ev.isQueryProcess = 0 ∧ suf.countP Ev.isSleep ≤ 20 ∧
      suf.countP Ev.isEnum ≤ 20 ∧ suf.countP Ev.isUnload = 0 ∧
      ∀ e ∈ suf, e.sleepIs100 = true ∧ (e.isPrelude = true ∨ e.isPoll = true) := by
  simp only [UnmountHive_checkEmpty]
  generalize w.HeapAlloc tr PAGE_SIZE = pids
  by_cases h0 : pids ≠ 0
  · simp only [if_pos h0]
    obtain ⟨suf, hs, h1, h2, h3, h4, h5⟩ :=
      UnmountHive_enumLoop_work w msg 20 (tr ++ [Ev.HeapAlloc PAGE_SIZE pids])
    refine ⟨[Ev.HeapAlloc PAGE_SIZE pids] ++ suf ++ [Ev.HeapFree pids], ?_, ?_, ?_, ?_, ?_, ?_⟩
    · rw [hs]; simp
    · simp [Ev.isQueryProcess, h1]
    · simp [Ev.isSleep]; omega
    · simp [Ev.isEnum]; omega
    · simp [Ev.isUnload, h4]
    · intro e he
      simp only [List.mem_append, List.mem_singleton] at he
      rcases he with (rfl | h) | rfl
      · exact ⟨rfl, Or.inl rfl⟩
      · exact ⟨(h5 e h).1, Or.inr (h5 e h).2⟩
      · exact ⟨rfl, Or.inl rfl⟩
  · simp only [if_neg h0]
    refine ⟨[Ev.HeapAlloc PAGE_SIZE pids], rfl, by simp [Ev.isQueryProcess],
      by simp [Ev.isSleep], by simp [Ev.isEnum], by simp [Ev.isUnload], ?_⟩
    intro e he
    simp only [List.mem_singleton] at he
    subst he; exact ⟨rfl, Or.inl rfl⟩

/-- A cut of `A ++ [d]` in front of an element other than `d` lies in `A`. -/
theorem cut_before_last {α : Type} (Q : α → Bool) {d e : α} (hd : Q d = false)
    (he : Q e = true) :
    ∀ (A pre post : List α), A ++ [d] = pre ++ e :: post →
      ∃ post1, post = post1 ++ [d] ∧ A = pre ++ e :: post1 := by
  intro A
  induction A with
  | nil =>
    intro pre post h
    rcases cut_cons h with ⟨_, h1, _⟩ | ⟨_, _, h1⟩
    · rw [h1, hd] at he; exact absurd he (by simp)
    · exact (cut_nil h1).elim
  | cons a A ih =>
    intro pre post h
    rcases cut_cons h with ⟨rfl, rfl, rfl⟩ | ⟨pre1, rfl, h1⟩
    · exact ⟨A, rfl, rfl⟩
    · obtain ⟨post1, h2, h3⟩ := ih pre1 post h1
      exact ⟨post1, h2, by rw [h3]; rfl⟩

/-- The history of `UnmountHive` in four parts: `P`, the wait for the process and
the polls; `G`, the query of the mount path, if made; `U`, the calls of the unload
loop; `D`, the 2208 diagnostic, if reported. -/
theorem UnmountHive_parts (w : World) (msg : SVC_UNMOUNT_MSG) :
    ∃ P G U D, UnmountHive w msg [] = P ++ G ++ U ++ D ∧
      (P.countP Ev.isQueryProcess ≤ 20 ∧ P.countP Ev.isSleep ≤ 40 ∧
        P.countP Ev.isEnum ≤ 20 ∧ P.countP Ev.isUnload = 0) ∧
      (∀ e ∈ P, e.sleepIs100 = true ∧ (e.isPrelude = true ∨ e.isPoll = true)) ∧
      (G = [] ∨ ∃ st path, G = [Ev.SbieApi_GetUnmountHive st path]) ∧
      (D = [] ∨ ∃ r, D = [Ev.SbieApi_LogEx msg.session_id 2208 "[%08X]" [LogArg.num r]]) ∧
      ((∀ st path, G = [Ev.SbieApi_GetUnmountHive st path] → path = "") → U = [] ∧ D = []) ∧
      ((∃ st path, G = [Ev.SbieApi_GetUnmountHive st path] ∧ path ≠ "") →
        U.countP Ev.isUnload = 25 ∨ ∃ e ∈ U, e.isUnloadStop = true) ∧
      (U.countP Ev.isUnload ≤ 25 ∧ U.countP Ev.isSleep ≤ U.countP Ev.isUnload ∧
        U.countP Ev.isQueryProcess = 0 ∧ U.countP Ev.isEnum = 0) ∧
      (∀ e ∈ U, e.sleepIs100 = true ∧ e.isGetHive = false ∧ e.isLog = false) ∧
      (∀ pre e post, U = pre ++ e :: post → e.isUnloadStop = true → post = []) ∧
      (∀ pre p key post, U = pre ++ Ev.NtOpenKey p 0 key :: post →
        ∃ post1, post = Ev.NtClose key :: post1) ∧
      (∀ pre p rc1 post, U = pre ++ Ev.NtUnloadKey p rc1 :: post → rc1 ≠ 0 →
        ∃ r key post1, post = Ev.Sleep 100 :: Ev.NtOpenKey p r key :: post1) := by
  simp only [UnmountHive]
  obtain ⟨s1, e1, a1, a2, a3, a4, a5⟩ := UnmountHive_waitExit_work w msg []
  obtain ⟨s2, e2, b1, b2, b3, b4, b5⟩ :=
    UnmountHive_checkEmpty_work w msg (UnmountHive_waitExit w msg [])
  have hP : ((s1 ++ s2).countP Ev.isQueryProcess ≤ 20 ∧ (s1 ++ s2).countP Ev.isSleep ≤ 40 ∧
        (s1 ++ s2).countP Ev.isEnum ≤ 20 ∧ (s1 ++ s2).countP Ev.isUnload = 0) := by
    simp only [List.countP_append]
    omega
  have hP2 : ∀ e ∈ s1 ++ s2, e.sleepIs100 = true ∧ (e.isPrelude = true ∨ e.isPoll = true) := by
    intro e he
    rcases List.mem_append.1 he with h | h
    · exact ⟨(a5 e h).1, Or.inl (a5 e h).2⟩
    · exact b5 e h
  by_cases hb : (UnmountHive_checkEmpty w msg (UnmountHive_waitExit w msg [])).1 = true
  · simp only [hb, if_true]
    generalize hT : (UnmountHive_checkEmpty w msg (UnmountHive_waitExit w msg [])).2 = T
    have hT2 : T = s1 ++ s2 := by rw [← hT, e2, e1]; simp
    simp only [UnmountHive_unload]
    generalize w.SbieApi_GetUnmountHive T = r
    by_cases hp : r.2 = ""
    · simp only [if_pos hp]
      refine ⟨s1 ++ s2, [Ev.SbieApi_GetUnmountHive r.1 r.2], [], [], by rw [hT2]; simp, hP, hP2,
        Or.inr ⟨_, _, rfl⟩, Or.inl rfl, fun _ => ⟨rfl, rfl⟩, ?_, by simp, by simp, by simp,
        by simp, by simp⟩
      rintro ⟨st, path, h1, h2⟩
      simp only [List.cons.injEq, Ev.SbieApi_GetUnmountHive.injEq, and_true] at h1
      rw [← h1.2] at h2
      exact absurd hp h2
    · simp only [if_neg hp]
      obtain ⟨suf, hs, c1, c2, c3, c4, c5, c6, c7, c8, c9, _⟩ :=
        UnmountHive_unloadLoop_rounds w r.2 25 0 (T ++ [Ev.SbieApi_GetUnmountHive r.1 r.2])
      generalize (UnmountHive_unloadLoop w r.2 25 0
        (T ++ [Ev.SbieApi_GetUnmountHive r.1 r.2])).1 = rc1 at *
      refine ⟨s1 ++ s2, [Ev.SbieApi_GetUnmountHive r.1 r.2], suf,
        (if rc1 ≠ 0 then [Ev.SbieApi_LogEx msg.session_id 2208 "[%08X]" [LogArg.num rc1]]
         else []), ?_, hP, hP2, Or.inr ⟨_, _, rfl⟩, ?_, ?_, fun _ => c7, ⟨c1, c2, c3, c4⟩, c5, c6,
        c8, c9⟩
      · rw [hs, hT2]
        split_ifs <;> simp
      · split_ifs
        · exact Or.inr ⟨rc1, rfl⟩
        · exact Or.inl rfl
      · intro h
        exact absurd (h r.1 r.2 rfl) hp
  · simp only [hb, Bool.false_eq_true, if_false]
    refine ⟨s1 ++ s2, [], [], [], by rw [e2, e1]; simp, hP, hP2, Or.inl rfl, Or.inl rfl,
      fun _ => ⟨rfl, rfl⟩, ?_, by simp, by simp, by simp, by simp, by simp⟩
    rintro ⟨st, path, h1, _⟩
    simp at h1

/-- C21: UnmountHive is a total function of the behaviour of the driver and the OS
(its loops run at most 20, 20 and 25 times), and every history it produces
holds at most 20 process-query polls, at most 20 enumeration polls, at most 25
unload attempts and at most 65 sleeps, each of 100 ms; at most 40 of the sleeps
come before the query of the mount path and at most 25 after it, in the unload
loop, and no unload attempt comes before that query. -/
theorem C21_unmount_bounded_work (w : World) (msg : SVC_UNMOUNT_MSG) :
    (UnmountHive w msg []).countP Ev.isQueryProcess ≤ 20 ∧
    (UnmountHive w msg []).countP Ev.isEnum ≤ 20 ∧
    (UnmountHive w msg []).countP Ev.isUnload ≤ 25 ∧
    (UnmountHive w msg []).countP Ev.isSleep ≤ 65 ∧
    (∀ ms, Ev.Sleep ms ∈ UnmountHive w msg [] → ms = 100) ∧
    (∀ pre g post, UnmountHive w msg [] = pre ++ g :: post → g.isGetHive = true →
      post.countP Ev.isSleep ≤ 25 ∧ pre.countP Ev.isSleep ≤ 40 ∧
        pre.countP Ev.isUnload = 0) := by
  obtain ⟨P, G, U, D, hH, ⟨p1, p2, p3, p4⟩, hP, hG, hD, _, _, ⟨u1, u2, u3, u4⟩, hU, _, _, _⟩ :=
    UnmountHive_parts w msg
  have hGc : G.countP Ev.isQueryProcess = 0 ∧ G.countP Ev.isEnum = 0 ∧
      G.countP Ev.isUnload = 0 ∧ G.countP Ev.isSleep = 0 ∧ ∀ e ∈ G, e.sleepIs100 = true := by
    rcases hG with rfl | ⟨st, path, rfl⟩
    · simp
    · simp [Ev.isQueryProcess, Ev.isEnum, Ev.isUnload, Ev.isSleep, Ev.sleepIs100]
  have hDc : D.countP Ev.isQueryProcess = 0 ∧ D.countP Ev.isEnum = 0 ∧
      D.countP Ev.isUnload = 0 ∧ D.countP Ev.isSleep = 0 ∧
      (∀ e ∈ D, e.sleepIs100 = true ∧ e.isGetHive = false) := by
    rcases hD with rfl | ⟨r, rfl⟩
    · simp
    · simp [Ev.isQueryProcess, Ev.isEnum, Ev.isUnload, Ev.isSleep, Ev.sleepIs100, Ev.isGetHive]
  obtain ⟨g1, g2, g3, g4, g5⟩ := hGc
  obtain ⟨d1, d2, d3, d4, d5⟩ := hDc
  refine ⟨?_, ?_, ?_, ?_, ?_, ?_⟩
  · rw [hH]; simp only [List.countP_append]; omega
  · rw [hH]; simp only [List.countP_append]; omega
  · rw [hH]; simp only [List.countP_append]; omega
  · rw [hH]; simp only [List.countP_append]; omega
  · intro ms hm
    have h100 : ∀ e ∈ UnmountHive w msg [], e.sleepIs100 = true := by
      intro e he
      rw [hH] at he
      simp only [List.mem_append] at he
      rcases he with ((h | h) | h) | h
      · exact (hP e h).1
      · exact g5 e h
      · exact (hU e h).1
      · exact (d5 e h).1
    simpa [Ev.sleepIs100] using h100 _ hm
  · intro pre g post hsplit hg
    have hnoP : ∀ e ∈ P, e.isGetHive = false := fun e he =>
      (Ev.before_unload_loop e (hP e he).2).2.2.2.1
    have hnoUD : ∀ e ∈ U ++ D, e.isGetHive = false := by
      intro e he
      rcases List.mem_append.1 he with h | h
      · exact (hU e h).2.1
      · exact (d5 e h).2
    rcases hG with rfl | ⟨st, path, rfl⟩
    · have : g ∈ P ++ (U ++ D) := by
        have hm : g ∈ UnmountHive w msg [] := by rw [hsplit]; simp
        rw [hH] at hm
        simpa using hm
      rcases List.mem_append.1 this with h | h
      · rw [hnoP g h] at hg; exact absurd hg (by simp)
      · rw [hnoUD g h] at hg; exact absurd hg (by simp)
    · have hcut : P ++ Ev.SbieApi_GetUnmountHive st path :: (U ++ D) = pre ++ g :: post := by
        rw [← hsplit, hH]; simp
      obtain ⟨h1, _, h3⟩ := cut_unique Ev.isGetHive P (U ++ D) pre post
        (Ev.SbieApi_GetUnmountHive st path) g hnoP hnoUD hg hcut
      rw [h1, h3]
      simp only [List.countP_append]
      omega

/-- Witness for C21: on the machine whose hive stays busy, the 100 calls that
follow the query of the mount path hold at most 25 sleeps. -/
theorem C21_unmount_bounded_work_witness :
    ((UnmountHive busyHiveWorld unmountMsg []).drop 6).countP Ev.isSleep ≤ 25 ∧
    ((UnmountHive busyHiveWorld unmountMsg []).take 5).countP Ev.isSleep ≤ 40 ∧
    ((UnmountHive busyHiveWorld unmountMsg []).take 5).countP Ev.isUnload = 0 :=
  (C21_unmount_bounded_work busyHiveWorld unmountMsg).2.2.2.2.2
    ((UnmountHive busyHiveWorld unmountMsg []).take 5)
    (Ev.SbieApi_GetUnmountHive 0 "REGISTRY-USER-Sandbox_user_DefaultBox")
    ((UnmountHive busyHiveWorld unmountMsg []).drop 6) (by decide) rfl

/-- C25: in every history of UnmountHive at most 25 unload attempts are made; an
attempt that succeeded, and a re-open of the hive root that returned
STATUS_OBJECT_NAME_NOT_FOUND or STATUS_OBJECT_PATH_NOT_FOUND, is followed by no
further attempt, so the number of attempts is the index of that attempt; when
the mount path is non-empty and no such event happens, exactly 25 attempts are
made.  Every failed attempt is followed by a sleep of 100 ms and a re-open of
the hive root, and every re-open that returned STATUS_SUCCESS is directly
followed by the close of the key handle it stored. -/
theorem C25_unload_attempts_until_stop (w : World) (msg : SVC_UNMOUNT_MSG) :
    (UnmountHive w msg []).countP Ev.isUnload ≤ 25 ∧
    (∀ pre e post, UnmountHive w msg [] = pre ++ e :: post → e.isUnloadStop = true →
      post.countP Ev.isUnload = 0 ∧
      (UnmountHive w msg []).countP Ev.isUnload = (pre ++ [e]).countP Ev.isUnload) ∧
    ((∃ st path, Ev.SbieApi_GetUnmountHive st path ∈ UnmountHive w msg [] ∧ path ≠ "") →
      (UnmountHive w msg []).countP Ev.isUnload = 25 ∨
        ∃ e ∈ UnmountHive w msg [], e.isUnloadStop = true) ∧
    (∀ pre p key post, UnmountHive w msg [] = pre ++ Ev.NtOpenKey p STATUS_SUCCESS key :: post →
      ∃ post1, post = Ev.NtClose key :: post1) ∧
    (∀ pre p rc1 post, UnmountHive w msg [] = pre ++ Ev.NtUnloadKey p rc1 :: post → rc1 ≠ 0 →
      ∃ r key post1, post = Ev.Sleep 100 :: Ev.NtOpenKey p r key :: post1) := by
  obtain ⟨P, G, U, D, hH, ⟨_, _, _, p4⟩, hP, hG, hD, hnot, hent, ⟨u1, _, _, _⟩, hU, c6, c8, c9⟩ :=
    UnmountHive_parts w msg
  have hH2 : UnmountHive w msg [] = (P ++ G) ++ (U ++ D) := by rw [hH]; simp
  have hGc : G.countP Ev.isUnload = 0 ∧
      ∀ e ∈ G, e.isUnloadStop = false ∧ e.isOpenKey = false ∧ e.isUnload = false := by
    rcases hG with rfl | ⟨st, path, rfl⟩
    · simp
    · simp [Ev.isUnload, Ev.isUnloadStop, Ev.isOpenKey]
  have hDc : D.countP Ev.isUnload = 0 ∧
      ∀ e ∈ D, e.isUnloadStop = false ∧ e.isOpenKey = false ∧ e.isUnload = false ∧
        e.isGetHive = false := by
    rcases hD with rfl | ⟨r, rfl⟩
    · simp
    · simp [Ev.isUnload, Ev.isUnloadStop, Ev.isOpenKey, Ev.isGetHive]
  obtain ⟨g1, g2⟩ := hGc
  obtain ⟨d1, d2⟩ := hDc
  have hA : ∀ e ∈ P ++ G, e.isUnloadStop = false ∧ e.isOpenKey = false ∧ e.isUnload = false := by
    intro e he
    rcases List.mem_append.1 he with h | h
    · have := Ev.before_unload_loop e (hP e h).2
      exact ⟨this.2.1, this.2.2.1, this.1⟩
    · exact g2 e h
  -- a cut of the history in front of an event of a kind that occurs in `U` only
  have hcut : ∀ (Q : Ev → Bool), (∀ e ∈ P ++ G, Q e = false) → (∀ e ∈ D, Q e = false) →
      ∀ pre e post, UnmountHive w msg [] = pre ++ e :: post → Q e = true →
      ∃ pre2 post1, pre = (P ++ G) ++ pre2 ∧ post = post1 ++ D ∧ U = pre2 ++ e :: post1 := by
    intro Q hQA hQD pre e post hsplit he
    rw [hH2] at hsplit
    obtain ⟨pre2, h1, h2⟩ := cut_behind_prefix Q (P ++ G) (U ++ D) pre post e hQA he hsplit
    rcases hD with rfl | ⟨r, rfl⟩
    · exact ⟨pre2, post, h1, by simp, by simpa using h2⟩
    · obtain ⟨post1, h3, h4⟩ := cut_before_last Q (hQD _ (List.mem_singleton_self _)) he
        U pre2 post h2
      exact ⟨pre2, post1, h1, h3, h4⟩
  refine ⟨?_, ?_, ?_, ?_, ?_⟩
  · rw [hH]; simp only [List.countP_append]; omega
  · intro pre e post hsplit he
    obtain ⟨pre2, post1, h1, h2, h3⟩ := hcut Ev.isUnloadStop (fun e h => (hA e h).1)
      (fun e h => (d2 e h).1) pre e post hsplit he
    have hp1 : post1 = [] := c6 pre2 e post1 h3 he
    have hpost : post.countP Ev.isUnload = 0 := by
      rw [h2, hp1]; simpa using d1
    refine ⟨hpost, ?_⟩
    rw [hsplit]
    simp only [List.countP_append, List.countP_cons, List.countP_nil, hpost]
  · rintro ⟨st, path, hm, hne⟩
    have hin : Ev.SbieApi_GetUnmountHive st path ∈ G := by
      rw [hH] at hm
      simp only [List.mem_append] at hm
      rcases hm with ((h | h) | h) | h
      · have := (Ev.before_unload_loop _ (hP _ h).2).2.2.2.1
        simp [Ev.isGetHive] at this
      · exact h
      · have := (hU _ h).2.1
        simp [Ev.isGetHive] at this
      · have := (d2 _ h).2.2.2
        simp [Ev.isGetHive] at this
    have hGe : G = [Ev.SbieApi_GetUnmountHive st path] := by
      rcases hG with rfl | ⟨st1, path1, rfl⟩
      · simp at hin
      · simp only [List.mem_singleton] at hin
        rw [hin]
    rcases hent ⟨st, path, hGe, hne⟩ with h | ⟨e, he, hs⟩
    · left
      rw [hH]; simp only [List.countP_append]; omega
    · right
      exact ⟨e, by rw [hH]; simp [he], hs⟩
  · intro pre p key post hsplit
    obtain ⟨pre2, post1, _, h2, h3⟩ := hcut Ev.isOpenKey (fun e h => (hA e h).2.1)
      (fun e h => (d2 e h).2.1) pre _ post hsplit rfl
    obtain ⟨post2, h4⟩ := c8 pre2 p key post1 h3
    exact ⟨post2 ++ D, by rw [h2, h4]; rfl⟩
  · intro pre p rc1 post hsplit hne
    obtain ⟨pre2, post1, _, h2, h3⟩ := hcut Ev.isUnload (fun e h => (hA e h).2.2)
      (fun e h => (d2 e h).2.2.1) pre _ post hsplit rfl
    obtain ⟨r, key, post2, h4⟩ := c9 pre2 p rc1 post1 h3 hne
    exact ⟨r, key, post2 ++ D, by rw [h2, h4]; rfl⟩

/-- Witness for C25: on the machine whose hive root is gone at the first re-open,
one unload attempt is made, the one in front of that re-open. -/
theorem C25_unload_attempts_until_stop_witness :
    ((UnmountHive goneHiveWorld unmountMsg []).drop 9).countP Ev.isUnload = 0 ∧
    (UnmountHive goneHiveWorld unmountMsg []).countP Ev.isUnload =
      ((UnmountHive goneHiveWorld unmountMsg []).take 8 ++
        [Ev.NtOpenKey "REGISTRY-USER-Sandbox_user_DefaultBox"
          STATUS_OBJECT_NAME_NOT_FOUND 0]).countP Ev.isUnload :=
  (C25_unload_attempts_until_stop goneHiveWorld unmountMsg).2.1
    ((UnmountHive goneHiveWorld unmountMsg []).take 8)
    (Ev.NtOpenKey "REGISTRY-USER-Sandbox_user_DefaultBox" STATUS_OBJECT_NAME_NOT_FOUND 0)
    ((UnmountHive goneHiveWorld unmountMsg []).drop 9) (by decide) rfl

/-! ### Shutdown: forced termination of the listeners -/

/-- The history of `ShutdownPortAndThreads` around its waits: `X` (the exchange and
the wake messages) and `C` (the close) hold no wait and no termination; between
them there is nothing when `m_Threads` is NULL, one wait when the wait does not
time out, and otherwise the wait, one termination per thread handle and a second
wait. -/
theorem ShutdownPortAndThreads_waits (h : Host) (d : Defs) (st : DriverAssist) :
    ∃ X C, (∀ e ∈ X, e.isWait = false ∧ e.isTerminateThread = false) ∧
      (∀ e ∈ C, e.isWait = false ∧ e.isTerminateThread = false) ∧
      ((st.m_Threads = none ∧ (ShutdownPortAndThreads h d st []).2 = X ++ C) ∨
       (∃ threads r, st.m_Threads = some threads ∧ r ≠ WAIT_TIMEOUT ∧
          (ShutdownPortAndThreads h d st []).2 =
            X ++ [PortEv.WaitForMultipleObjects d.NUMBER_OF_THREADS threads true 5000 r] ++ C) ∨
       (∃ threads r2, st.m_Threads = some threads ∧
          (ShutdownPortAndThreads h d st []).2 =
            X ++ ([PortEv.WaitForMultipleObjects d.NUMBER_OF_THREADS threads true 5000
                    WAIT_TIMEOUT] ++
                  ((List.range d.NUMBER_OF_THREADS).map fun j =>
                    PortEv.TerminateThread (threads.getD j 0) 0) ++
                  [PortEv.WaitForMultipleObjects d.NUMBER_OF_THREADS threads true 5000 r2])
              ++ C)) := by
  simp only [ShutdownPortAndThreads, ShutdownPortAndThreads_wakeLoop_trace,
    ShutdownPortAndThreads_killLoop_trace, List.nil_append]
  generalize hT : (if st.m_PortHandle ≠ 0 then
      [PortEv.InterlockedExchangePointer 0 st.m_PortHandle] ++
        List.replicate d.NUMBER_OF_THREADS (PortEv.NtRequestPort st.m_PortHandle (wakeMessage d))
      else [PortEv.InterlockedExchangePointer 0 st.m_PortHandle]) = T
  have hX : ∀ e ∈ T, e.isWait = false ∧ e.isTerminateThread = false := by
    intro e he
    rw [← hT] at he
    split_ifs at he
    · simp only [List.singleton_append, List.mem_cons, List.mem_replicate] at he
      rcases he with rfl | ⟨_, rfl⟩ <;> exact ⟨rfl, rfl⟩
    · simp only [List.mem_singleton] at he
      subst he; exact ⟨rfl, rfl⟩
  have hC : ∀ e ∈ (if st.m_PortHandle ≠ 0 then [PortEv.NtClose st.m_PortHandle] else []),
      e.isWait = false ∧ e.isTerminateThread = false := by
    intro e he
    split_ifs at he
    · simp only [List.mem_singleton] at he
      subst he; exact ⟨rfl, rfl⟩
    · simp at he
  refine ⟨T, (if st.m_PortHandle ≠ 0 then [PortEv.NtClose st.m_PortHandle] else []), hX, hC, ?_⟩
  cases hth : st.m_Threads with
  | none =>
    left
    refine ⟨rfl, ?_⟩
    split_ifs <;> simp
  | some threads =>
    right
    simp only
    generalize h.WaitForMultipleObjects T = r
    by_cases hr : WAIT_TIMEOUT = r
    · right
      subst hr
      simp only [if_true]
      refine ⟨threads, h.WaitForMultipleObjects
        (T ++ [PortEv.WaitForMultipleObjects d.NUMBER_OF_THREADS threads true 5000 WAIT_TIMEOUT] ++
          (List.range d.NUMBER_OF_THREADS).map fun j =>
            PortEv.TerminateThread (threads.getD (0 + j) 0) 0), rfl, ?_⟩
      split_ifs <;> simp
    · left
      simp only [if_neg hr]
      refine ⟨threads, r, rfl, fun h' => hr h'.symm, ?_⟩
      split_ifs <;> simp

theorem no_wait_no_terminate (Y : List PortEv)
    (hY : ∀ e ∈ Y, e.isWait = false ∧ e.isTerminateThread = false) :
    threadsTerminated Y = [] ∧ waitResults Y = [] := by
  constructor
  · simp only [threadsTerminated, List.filterMap_eq_nil_iff]
    intro e he
    have := (hY e he).2
    cases e <;> first | rfl | exact Bool.noConfusion this
  · simp only [waitResults, List.filterMap_eq_nil_iff]
    intro e he
    have := (hY e he).1
    cases e <;> first | rfl | exact Bool.noConfusion this

/-- C22: in every run of ShutdownPortAndThreads the waits and forced terminations
are: none at all when m_Threads is NULL; otherwise one wait of 5000 ms for all
NUMBER_OF_THREADS handles, followed, exactly when it returned WAIT_TIMEOUT, by one
termination for each of the NUMBER_OF_THREADS handles of m_Threads, in order, and
one more wait of 5000 ms.  So a thread is terminated only if the first wait
returned WAIT_TIMEOUT, and in that case every thread of m_Threads is. -/
theorem C22_terminate_iff_first_wait_times_out (h : Host) (d : Defs) (st : DriverAssist) :
    (st.m_Threads = none →
      (ShutdownPortAndThreads h d st []).2.filter
        (fun e => e.isWait || e.isTerminateThread) = []) ∧
    (∀ threads, st.m_Threads = some threads →
      ∃ r r2, (ShutdownPortAndThreads h d st []).2.filter
          (fun e => e.isWait || e.isTerminateThread) =
        PortEv.WaitForMultipleObjects d.NUMBER_OF_THREADS threads true 5000 r ::
          (if r = WAIT_TIMEOUT then
            ((List.range d.NUMBER_OF_THREADS).map fun j =>
              PortEv.TerminateThread (threads.getD j 0) 0) ++
            [PortEv.WaitForMultipleObjects d.NUMBER_OF_THREADS threads true 5000 r2]
           else [])) ∧
    (threadsTerminated (ShutdownPortAndThreads h d st []).2 ≠ [] →
      (waitResults (ShutdownPortAndThreads h d st []).2).head? = some WAIT_TIMEOUT) ∧
    ((waitResults (ShutdownPortAndThreads h d st []).2).head? = some WAIT_TIMEOUT →
      ∃ threads, st.m_Threads = some threads ∧
        threadsTerminated (ShutdownPortAndThreads h d st []).2 =
          (List.range d.NUMBER_OF_THREADS).map (fun j => threads.getD j 0) ∧
        (waitResults (ShutdownPortAndThreads h d st []).2).length = 2) := by
  obtain ⟨X, C, hX, hC, hcase⟩ := ShutdownPortAndThreads_waits h d st
  have fX : X.filter (fun e => e.isWait || e.isTerminateThread) = [] := by
    rw [List.filter_eq_nil_iff]
    intro e he
    simp [hX e he]
  have fC : C.filter (fun e => e.isWait || e.isTerminateThread) = [] := by
    rw [List.filter_eq_nil_iff]
    intro e he
    simp [hC e he]
  have tX := no_wait_no_terminate
  have wa : ∀ a b, waitResults (a ++ b) = waitResults a ++ waitResults b := by
    intro a b; simp [waitResults, List.filterMap_append]
  have fK : ∀ (threads : List Nat) (n : Nat),
      ((List.range n).map fun j => PortEv.TerminateThread (threads.getD j 0) 0).filter
        (fun e => e.isWait || e.isTerminateThread) =
      (List.range n).map fun j => PortEv.TerminateThread (threads.getD j 0) 0 := by
    intro threads n
    rw [List.filter_eq_self]
    intro e he
    simp only [List.mem_map] at he
    obtain ⟨j, _, rfl⟩ := he
    rfl
  have f1 : ∀ (c : Nat) (hs : List Nat) (r : Nat),
      [PortEv.WaitForMultipleObjects c hs true 5000 r].filter
        (fun e => e.isWait || e.isTerminateThread) =
      [PortEv.WaitForMultipleObjects c hs true 5000 r] := fun _ _ _ => rfl
  have tK : ∀ (threads : List Nat) (n : Nat),
      threadsTerminated ((List.range n).map fun j =>
        PortEv.TerminateThread (threads.getD j 0) 0) =
      (List.range n).map (fun j => threads.getD j 0) ∧
      waitResults ((List.range n).map fun j =>
        PortEv.TerminateThread (threads.getD j 0) 0) = [] := by
    intro threads n
    constructor
    · simp only [threadsTerminated, List.filterMap_map]
      rw [← List.filterMap_eq_map]
      rfl
    · simp only [waitResults, List.filterMap_eq_nil_iff]
      intro e he
      simp only [List.mem_map] at he
      obtain ⟨j, _, rfl⟩ := he
      rfl
  rcases hcase with ⟨hn, hT⟩ | ⟨threads, r, hs, hr, hT⟩ | ⟨threads, r2, hs, hT⟩
  · refine ⟨fun _ => ?_, fun threads ht => ?_, fun hne => ?_, fun hw => ?_⟩
    · rw [hT, List.filter_append, fX, fC]; rfl
    · rw [hn] at ht; exact absurd ht (by simp)
    · rw [hT, threadsTerminated_append, (tX X hX).1, (tX C hC).1] at hne
      exact absurd rfl hne
    · rw [hT, wa, (tX X hX).2, (tX C hC).2] at hw
      simp at hw
  · refine ⟨fun hn => ?_, fun threads1 ht => ?_, fun hne => ?_, fun hw => ?_⟩
    · rw [hs] at hn; exact absurd hn (by simp)
    · rw [hs] at ht
      simp only [Option.some.injEq] at ht
      subst ht
      refine ⟨r, 0, ?_⟩
      rw [hT, if_neg hr]
      simp only [List.filter_append, fX, fC]
      rfl
    · rw [hT, threadsTerminated_append, threadsTerminated_append, (tX X hX).1, (tX C hC).1]
        at hne
      exact absurd rfl hne
    · rw [hT, wa, wa, (tX X hX).2, (tX C hC).2] at hw
      simp only [waitResults, List.filterMap_cons, List.filterMap_nil, List.nil_append,
        List.append_nil, List.head?_cons, Option.some.injEq] at hw
      exact absurd hw hr
  · refine ⟨fun hn => ?_, fun threads1 ht => ?_, fun _ => ?_, fun _ => ?_⟩
    · rw [hs] at hn; exact absurd hn (by simp)
    · rw [hs] at ht
      simp only [Option.some.injEq] at ht
      subst ht
      refine ⟨WAIT_TIMEOUT, r2, ?_⟩
      rw [hT]
      simp only [if_true, List.filter_append, fX, fC, fK, f1, List.nil_append, List.append_nil]
      rfl
    · rw [hT, wa, wa, (tX X hX).2, (tX C hC).2, wa, wa]
      rfl
    · refine ⟨threads, hs, ?_, ?_⟩
      · rw [hT, threadsTerminated_append, threadsTerminated_append, (tX X hX).1, (tX C hC).1]
        rw [threadsTerminated_append, threadsTerminated_append, (tK threads _).1]
        simp [threadsTerminated]
      · rw [hT, wa, wa, (tX X hX).2, (tX C hC).2]
        rw [wa, wa, (tK threads _).2]
        simp [waitResults]

/-- Witness for C22: a shutdown of five listeners whose first wait times out. -/
theorem C22_terminate_iff_first_wait_times_out_witness :
    ∃ r r2, (ShutdownPortAndThreads { healthyHost with WaitForMultipleObjects := fun _ => 258 }
        defs64 ⟨7, some [1, 2, 3, 4, 5]⟩ []).2.filter
          (fun e => e.isWait || e.isTerminateThread) =
        PortEv.WaitForMultipleObjects defs64.NUMBER_OF_THREADS [1, 2, 3, 4, 5] true 5000 r ::
          (if r = WAIT_TIMEOUT then
            ((List.range defs64.NUMBER_OF_THREADS).map fun j =>
              PortEv.TerminateThread ([1, 2, 3, 4, 5].getD j 0) 0) ++
            [PortEv.WaitForMultipleObjects defs64.NUMBER_OF_THREADS [1, 2, 3, 4, 5] true 5000
              r2]
           else []) :=
  (C22_terminate_iff_first_wait_times_out
    { healthyHost with WaitForMultipleObjects := fun _ => 258 } defs64
    ⟨7, some [1, 2, 3, 4, 5]⟩).2.1 [1, 2, 3, 4, 5] rfl

/-! ### SbieApi_QueryProcessEx2 on failure -/

/-- The result of `SbieApi_QueryProcessEx2` in terms of the one request it makes. -/
theorem SbieApi_QueryProcessEx2_request (c : Nat) (L : API_QUERY_PROCESS_ARGS) (k : Kernel)
    (st : ApiState) (pid n box img sid sess ct : Nat) :
    ∃ parms, SbieApi_QueryProcessEx2 c L k st pid n box img sid sess ct =
      if ¬ NT_SUCCESS (SbieApi_Ioctl k st parms).1 then
        if sess = 0 ∨ sess > 4 then
          ((SbieApi_Ioctl k st parms).1,
            { (SbieApi_Ioctl k st parms).2 with
              mem := ((((SbieApi_Ioctl k st parms).2.mem.writeIf box 0).writeIf img 0).writeIf
                sid 0).writeIf sess 0 })
        else SbieApi_Ioctl k st parms
      else SbieApi_Ioctl k st parms :=
  ⟨_, rfl⟩

theorem Mem.writeIf_other (m : Mem) (p a v : Nat) (h : a ≠ p) : (m.writeIf p v) a = m a := by
  unfold Mem.writeIf Mem.write
  split
  · simp [Function.update, h]
  · rfl

/-- C28: when SbieApi_QueryProcessEx2 returns a failure status, that status is the
one its request returned and the calls made are those of the request.  If
out_session_id, as an integer, is 0 or above 4, the first character of every
non-NULL box-name, image-name and SID buffer and *out_session_id (when non-NULL)
are zero on return and every other address holds what the request left there.
If out_session_id is 1, 2, 3 or 4, the whole state on return, memory included,
is the one the request left: no output is written, and the address
out_session_id is not written either. -/
theorem C28_query_process_failure_reset (c : Nat) (L : API_QUERY_PROCESS_ARGS) (k : Kernel)
    (st : ApiState) (pid n box img sid sess ct : Nat)
    (hf : NT_SUCCESS (SbieApi_QueryProcessEx2 c L k st pid n box img sid sess ct).1 = false) :
    ∃ parms,
      (SbieApi_QueryProcessEx2 c L k st pid n box img sid sess ct).1 =
        (SbieApi_Ioctl k st parms).1 ∧
      (SbieApi_QueryProcessEx2 c L k st pid n box img sid sess ct).2.calls =
        (SbieApi_Ioctl k st parms).2.calls ∧
      ((sess = 0 ∨ sess > 4) →
        (box ≠ 0 → (SbieApi_QueryProcessEx2 c L k st pid n box img sid sess ct).2.mem box = 0) ∧
        (img ≠ 0 → (SbieApi_QueryProcessEx2 c L k st pid n box img sid sess ct).2.mem img = 0) ∧
        (sid ≠ 0 → (SbieApi_QueryProcessEx2 c L k st pid n box img sid sess ct).2.mem sid = 0) ∧
        (sess ≠ 0 →
          (SbieApi_QueryProcessEx2 c L k st pid n box img sid sess ct).2.mem sess = 0) ∧
        (∀ a, a ≠ box → a ≠ img → a ≠ sid → a ≠ sess →
          (SbieApi_QueryProcessEx2 c L k st pid n box img sid sess ct).2.mem a =
            (SbieApi_Ioctl k st parms).2.mem a)) ∧
      ((1 ≤ sess ∧ sess ≤ 4) →
        (SbieApi_QueryProcessEx2 c L k st pid n box img sid sess ct).2 =
          (SbieApi_Ioctl k st parms).2) := by
  obtain ⟨parms, hE⟩ := SbieApi_QueryProcessEx2_request c L k st pid n box img sid sess ct
  refine ⟨parms, ?_⟩
  rw [hE] at hf ⊢
  generalize SbieApi_Ioctl k st parms = r at hf ⊢
  have hs : NT_SUCCESS r.1 = false := by
    split_ifs at hf <;> exact hf
  have hn : ¬ (NT_SUCCESS r.1 = true) := by simp [hs]
  simp only [if_pos hn]
  by_cases hx : sess = 0 ∨ sess > 4
  · simp only [if_pos hx]
    refine ⟨trivial, trivial, fun _ => ⟨fun h => ?_, fun h => ?_, fun h => ?_, fun h => ?_,
      fun a h1 h2 h3 h4 => ?_⟩, fun h => ?_⟩
    · exact Mem.writeIf_keeps_zero _ _ _ (Mem.writeIf_keeps_zero _ _ _
        (Mem.writeIf_keeps_zero _ _ _ (Mem.writeIf_self _ _ h)))
    · exact Mem.writeIf_keeps_zero _ _ _ (Mem.writeIf_keeps_zero _ _ _ (Mem.writeIf_self _ _ h))
    · exact Mem.writeIf_keeps_zero _ _ _ (Mem.writeIf_self _ _ h)
    · exact Mem.writeIf_self _ _ h
    · rw [Mem.writeIf_other _ _ _ _ h4, Mem.writeIf_other _ _ _ _ h3,
        Mem.writeIf_other _ _ _ _ h2, Mem.writeIf_other _ _ _ _ h1]
    · omega
  · simp only [if_neg hx]
    exact ⟨trivial, trivial, fun h => absurd h hx, fun _ => trivial⟩

/-- Witness for C28: a refused call with the flag value 2 in out_session_id and a
box-name buffer at 1000. -/
theorem C28_query_process_failure_reset_witness :
    ∃ parms,
      (SbieApi_QueryProcessEx2 17 ⟨0, 1, 2, 3, 4, 5, 6⟩ refusingKernel (initialState staleMem)
          1234 96 1000 0 0 2 0).1 =
        (SbieApi_Ioctl refusingKernel (initialState staleMem) parms).1 ∧
      (SbieApi_QueryProcessEx2 17 ⟨0, 1, 2, 3, 4, 5, 6⟩ refusingKernel (initialState staleMem)
          1234 96 1000 0 0 2 0).2 =
        (SbieApi_Ioctl refusingKernel (initialState staleMem) parms).2 := by
  obtain ⟨parms, h1, _, _, h4⟩ := C28_query_process_failure_reset 17 ⟨0, 1, 2, 3, 4, 5, 6⟩
    refusingKernel (initialState staleMem) 1234 96 1000 0 0 2 0 (by decide)
  exact ⟨parms, h1, h4 (by decide)⟩
/-! ### String descriptors staged by the encoders -/

theorem str_mem_set {l : Frame} {i : Nat} {s : Slot} {u : UNICODE_STRING64}
    (h : Slot.str u ∈ l.set i s) : Slot.str u ∈ l ∨ s = Slot.str u := by
  rcases List.mem_or_eq_of_mem_set h with h1 | h1
  · exact Or.inl h1
  · exact Or.inr h1.symm

theorem str_not_mem_zeroFrame (u : UNICODE_STRING64) : Slot.str u ∉ zeroFrame := by
  simp [zeroFrame]

theorem toUSHORT_le (x : Nat) : toUSHORT x ≤ x ∧ toUSHORT x < 65536 := by
  unfold toUSHORT
  exact ⟨Nat.mod_le _ _, Nat.mod_lt _ (by decide)⟩

/-- The request of `SbieApi_QueryProcessEx2` is made with the frame
`SbieApi_QueryProcessEx2_parms`. -/
theorem SbieApi_QueryProcessEx2_calls (c : Nat) (L : API_QUERY_PROCESS_ARGS) (k : Kernel)
    (st : ApiState) (pid n box img sid sess ct : Nat) :
    (SbieApi_QueryProcessEx2 c L k st pid n box img sid sess ct).1 =
      (SbieApi_Ioctl k st (SbieApi_QueryProcessEx2_parms c L pid n box img sid sess ct)).1 ∧
    (SbieApi_QueryProcessEx2 c L k st pid n box img sid sess ct).2.calls =
      (SbieApi_Ioctl k st (SbieApi_QueryProcessEx2_parms c L pid n box img sid sess ct)).2.calls := by
  simp only [SbieApi_QueryProcessEx2, SbieApi_QueryProcessEx2_parms]
  generalize SbieApi_Ioctl k st _ = r
  split_ifs <;> exact ⟨rfl, rfl⟩

/-- C23: every string descriptor in the frames that SbieApi_GetHomePath,
SbieApi_QueryProcessEx2 and SbieApi_QueryConf hand to SbieApi_Ioctl (for
SbieApi_QueryConf: every one not left over in the uncleared frame) has current
length 0 and a maximum length below 65536 that is at most the capacity in bytes
declared for its buffer: NtPathMaxLen*2, DosPathMaxLen*2, 68 for the box name,
image_name_len_in_wchars*2, 192 for the SID, buffer_len.  This holds for every
value of the declared capacities.  The descriptor of SbieApi_QueryConf sits in
slot 4 of the frame. -/
theorem C23_output_descriptor_within_capacity (c : Nat) (u : UNICODE_STRING64) :
    (∀ (L : API_GET_HOME_PATH_ARGS) (NtPath NtPathMaxLen DosPath DosPathMaxLen : Nat),
      Slot.str u ∈ SbieApi_GetHomePath_parms c L NtPath NtPathMaxLen DosPath DosPathMaxLen →
      u.Length = 0 ∧ u.MaximumLength < 65536 ∧
        ((u.Buffer = NtPath ∧ u.MaximumLength ≤ NtPathMaxLen * 2) ∨
         (u.Buffer = DosPath ∧ u.MaximumLength ≤ DosPathMaxLen * 2))) ∧
    (∀ (L : API_QUERY_PROCESS_ARGS) (pid n box img sid sess ct : Nat),
      Slot.str u ∈ SbieApi_QueryProcessEx2_parms c L pid n box img sid sess ct →
      u.Length = 0 ∧ u.MaximumLength < 65536 ∧
        ((u.Buffer = box ∧ u.MaximumLength ≤ 68) ∨
         (u.Buffer = img ∧ u.MaximumLength ≤ n * 2) ∨
         (u.Buffer = sid ∧ u.MaximumLength ≤ 192))) ∧
    (∀ (stack : Frame) (section_name setting_name : Option WSTR)
        (setting_index out_buffer buffer_len : Nat),
      Slot.str u ∈ SbieApi_QueryConf_parms c stack section_name setting_name setting_index
        out_buffer buffer_len →
      Slot.str u ∈ stack ∨
        (u.Length = 0 ∧ u.MaximumLength < 65536 ∧ u.Buffer = out_buffer ∧
          u.MaximumLength ≤ buffer_len)) ∧
    (∀ (stack : Frame) (section_name setting_name : Option WSTR)
        (setting_index out_buffer buffer_len : Nat), stack.length = 8 →
      (SbieApi_QueryConf_parms c stack section_name setting_name setting_index
        out_buffer buffer_len)[4]? =
        some (Slot.str { Length := 0, MaximumLength := toUSHORT buffer_len,
                         Buffer := out_buffer })) ∧
    (∀ (k : Kernel) (st : ApiState) (L : API_QUERY_PROCESS_ARGS)
        (pid n box img sid sess ct : Nat),
      (SbieApi_QueryProcessEx2 c L k st pid n box img sid sess ct).2.calls =
        (SbieApi_Ioctl k st
          (SbieApi_QueryProcessEx2_parms c L pid n box img sid sess ct)).2.calls) := by
  refine ⟨?_, ?_, ?_, ?_,
    fun k st L pid n box img sid sess ct =>
      (SbieApi_QueryProcessEx2_calls c L k st pid n box img sid sess ct).2⟩
  · intro L NtPath n1 DosPath n2 h
    simp only [SbieApi_GetHomePath_parms] at h
    generalize hF0 : zeroFrame.set L.func_code (Slot.val c) = F0 at h
    have base : Slot.str u ∉ F0 := by
      intro h0
      rw [← hF0] at h0
      rcases str_mem_set h0 with h1 | h1
      · exact str_not_mem_zeroFrame u h1
      · simp at h1
    generalize hF1 : (if NtPath ≠ 0 then F0.set L.nt_path
      (Slot.str { Length := 0, MaximumLength := toUSHORT (n1 * 2), Buffer := NtPath })
      else F0) = F1 at h
    have hnt : Slot.str u ∈ F1 →
        u.Length = 0 ∧ u.MaximumLength < 65536 ∧ u.Buffer = NtPath ∧
          u.MaximumLength ≤ n1 * 2 := by
      intro h0
      rw [← hF1] at h0
      split_ifs at h0
      · rcases str_mem_set h0 with h1 | h1
        · exact absurd h1 base
        · simp only [Slot.str.injEq] at h1
          rw [← h1]
          exact ⟨rfl, (toUSHORT_le _).2, rfl, (toUSHORT_le _).1⟩
      · exact absurd h0 base
    split_ifs at h with hd
    · rcases str_mem_set h with h1 | h1
      · obtain ⟨a, b, c1, d⟩ := hnt h1
        exact ⟨a, b, Or.inl ⟨c1, d⟩⟩
      · simp only [Slot.str.injEq] at h1
        rw [← h1]
        exact ⟨rfl, (toUSHORT_le _).2, Or.inr ⟨rfl, (toUSHORT_le _).1⟩⟩
    · obtain ⟨a, b, c1, d⟩ := hnt h
      exact ⟨a, b, Or.inl ⟨c1, d⟩⟩
  · intro L pid n box img sid sess ct h
    simp only [SbieApi_QueryProcessEx2_parms] at h
    generalize hF0 : (zeroFrame.set L.func_code (Slot.val c)).set L.process_id (Slot.val pid) = F0
      at h
    have b0 : Slot.str u ∉ F0 := by
      intro h0
      rw [← hF0] at h0
      rcases str_mem_set h0 with h1 | h1
      · rcases str_mem_set h1 with h2 | h2
        · exact str_not_mem_zeroFrame u h2
        · simp at h2
      · simp at h1
    generalize hF1 : (if box ≠ 0 then F0.set L.box_name (Slot.str
      { Length := 0, MaximumLength := toUSHORT (2 * 34), Buffer := box }) else F0) = F1 at h
    have b1 : Slot.str u ∈ F1 → u.Length = 0 ∧ u.MaximumLength < 65536 ∧
        u.Buffer = box ∧ u.MaximumLength ≤ 68 := by
      intro h0
      rw [← hF1] at h0
      split_ifs at h0
      · rcases str_mem_set h0 with h1 | h1
        · exact absurd h1 b0
        · simp only [Slot.str.injEq] at h1
          rw [← h1]
          exact ⟨rfl, (toUSHORT_le _).2, rfl, (toUSHORT_le _).1⟩
      · exact absurd h0 b0
    generalize hF2 : (if img ≠ 0 then F1.set L.image_name (Slot.str
      { Length := 0, MaximumLength := toUSHORT (2 * n), Buffer := img }) else F1) = F2 at h
    have b2 : Slot.str u ∈ F2 → u.Length = 0 ∧ u.MaximumLength < 65536 ∧
        ((u.Buffer = box ∧ u.MaximumLength ≤ 68) ∨ (u.Buffer = img ∧ u.MaximumLength ≤ n * 2)) := by
      intro h0
      rw [← hF2] at h0
      have hin1 : Slot.str u ∈ F1 → _ := fun h1 =>
        (⟨(b1 h1).1, (b1 h1).2.1, Or.inl (b1 h1).2.2⟩ :
          u.Length = 0 ∧ u.MaximumLength < 65536 ∧
          ((u.Buffer = box ∧ u.MaximumLength ≤ 68) ∨ (u.Buffer = img ∧ u.MaximumLength ≤ n * 2)))
      split_ifs at h0
      · rcases str_mem_set h0 with h1 | h1
        · exact hin1 h1
        · simp only [Slot.str.injEq] at h1
          rw [← h1]
          refine ⟨rfl, (toUSHORT_le _).2, Or.inr ⟨rfl, ?_⟩⟩
          have := (toUSHORT_le (2 * n)).1
          simp only at this ⊢
          omega
      · exact hin1 h0
    generalize hF3 : (if sid ≠ 0 then F2.set L.sid_string (Slot.str
      { Length := 0, MaximumLength := toUSHORT (2 * 96), Buffer := sid }) else F2) = F3 at h
    have b3 : Slot.str u ∈ F3 → u.Length = 0 ∧ u.MaximumLength < 65536 ∧
        ((u.Buffer = box ∧ u.MaximumLength ≤ 68) ∨ (u.Buffer = img ∧ u.MaximumLength ≤ n * 2) ∨
          (u.Buffer = sid ∧ u.MaximumLength ≤ 192)) := by
      intro h0
      rw [← hF3] at h0
      have hin2 : Slot.str u ∈ F2 → u.Length = 0 ∧ u.MaximumLength < 65536 ∧
          ((u.Buffer = box ∧ u.MaximumLength ≤ 68) ∨ (u.Buffer = img ∧ u.MaximumLength ≤ n * 2) ∨
            (u.Buffer = sid ∧ u.MaximumLength ≤ 192)) := by
        intro h2
        obtain ⟨x, y, z⟩ := b2 h2
        rcases z with z | z
        · exact ⟨x, y, Or.inl z⟩
        · exact ⟨x, y, Or.inr (Or.inl z)⟩
      split_ifs at h0
      · rcases str_mem_set h0 with h1 | h1
        · exact hin2 h1
        · simp only [Slot.str.injEq] at h1
          rw [← h1]
          exact ⟨rfl, (toUSHORT_le _).2, Or.inr (Or.inr ⟨rfl, (toUSHORT_le _).1⟩)⟩
      · exact hin2 h0
    generalize hF4 : (if sess ≠ 0 then F3.set L.session_id (Slot.val sess) else F3) = F4 at h
    have b4 : Slot.str u ∈ F4 → Slot.str u ∈ F3 := by
      intro h0
      rw [← hF4] at h0
      split_ifs at h0
      · rcases str_mem_set h0 with h1 | h1
        · exact h1
        · simp at h1
      · exact h0
    apply b3
    apply b4
    split_ifs at h
    · rcases str_mem_set h with h1 | h1
      · exact h1
      · simp at h1
    · exact h
  · intro stack sec set idx out len h
    simp only [SbieApi_QueryConf_parms] at h
    rcases str_mem_set h with h1 | h1
    · left
      rcases str_mem_set h1 with h2 | h2
      · rcases str_mem_set h2 with h3 | h3
        · rcases str_mem_set h3 with h4 | h4
          · rcases str_mem_set h4 with h5 | h5
            · exact h5
            · simp at h5
          · simp at h4
        · simp at h3
      · simp at h2
    · right
      simp only [Slot.str.injEq] at h1
      rw [← h1]
      exact ⟨rfl, (toUSHORT_le _).2, rfl, (toUSHORT_le _).1⟩
  · intro stack sec set idx out len hlen
    simp only [SbieApi_QueryConf_parms]
    rw [List.getElem?_set_self]
    simp [hlen]

/-- Witness for C23: SbieApi_GetHomePath called with a capacity of 40000
characters, whose byte size 80000 does not fit in 16 bits: the maximum length
staged is 14464. -/
theorem C23_output_descriptor_within_capacity_witness :
    Slot.str ⟨0, 14464, 1000⟩ ∈ SbieApi_GetHomePath_parms 21 ⟨0, 1, 2⟩ 1000 40000 0 0 ∧
    (14464 : Nat) < 65536 ∧ ((1000 = 1000 ∧ 14464 ≤ 40000 * 2) ∨ (1000 = 0 ∧ 14464 ≤ 0 * 2)) :=
  ⟨by decide,
   ((C23_output_descriptor_within_capacity 21 ⟨0, 14464, 1000⟩).1 ⟨0, 1, 2⟩ 1000 40000 0 0
      (by decide)).2⟩

theorem inputDescriptor_short (s : WSTR) (h : wcslen s ≤ 32766) :
    (inputDescriptor s).Buffer = s.ptr ∧
    (inputDescriptor s).Length = 2 * wcslen s ∧
    (inputDescriptor s).MaximumLength = (inputDescriptor s).Length + 2 ∧
    (inputDescriptor s).Length ≤ (inputDescriptor s).MaximumLength ∧
    (inputDescriptor s).MaximumLength < 65536 := by
  have h1 : wcslen s * 2 % 65536 = wcslen s * 2 := Nat.mod_eq_of_lt (by omega)
  have h2 : (wcslen s * 2 + 2) % 65536 = wcslen s * 2 + 2 := Nat.mod_eq_of_lt (by omega)
  have hL : (inputDescriptor s).Length = wcslen s * 2 := by
    simp only [inputDescriptor, toUSHORT]
    exact h1
  have hM : (inputDescriptor s).MaximumLength = wcslen s * 2 + 2 := by
    simp only [inputDescriptor, toUSHORT]
    rw [h1]
    exact h2
  refine ⟨rfl, by rw [hL]; omega, by rw [hM, hL], by rw [hL, hM]; omega, by rw [hM]; omega⟩

/-- C24 (as stated) fails: for a user name of 32767 characters SbieApi_SetUserName
stages a descriptor with current length 65534 and maximum length 0, and for one
of 32768 characters a descriptor with current length 0 and maximum length 2. -/
theorem C24_length_wraps_for_long_string :
    SbieApi_SetUserName_parms 7 ⟨0, 1, 2⟩ ⟨1000, []⟩ (longString 2000 32767) =
      [Slot.val 7, Slot.str ⟨0, 2, 1000⟩, Slot.str ⟨65534, 0, 2000⟩, Slot.val 0, Slot.val 0,
        Slot.val 0, Slot.val 0, Slot.val 0] ∧
    SbieApi_SetUserName_parms 7 ⟨0, 1, 2⟩ ⟨1000, []⟩ (longString 2000 32768) =
      [Slot.val 7, Slot.str ⟨0, 2, 1000⟩, Slot.str ⟨0, 2, 2000⟩, Slot.val 0, Slot.val 0,
        Slot.val 0, Slot.val 0, Slot.val 0] ∧
    wcslen (longString 2000 32767) = 32767 ∧ wcslen (longString 2000 32768) = 32768 := by
  have l1 : wcslen (longString 2000 32767) = 32767 := by
    simp only [wcslen, longString, List.length_replicate]
  have l2 : wcslen (longString 2000 32768) = 32768 := by
    simp only [wcslen, longString, List.length_replicate]
  have l0 : wcslen ⟨1000, []⟩ = 0 := rfl
  refine ⟨?_, ?_, l1, l2⟩
  · simp only [SbieApi_SetUserName_parms, inputDescriptor, l1, l0]
    rfl
  · simp only [SbieApi_SetUserName_parms, inputDescriptor, l2, l0]
    rfl

/-- C24 (amended): for input strings of at most 32766 characters, every string
descriptor in the frame that SbieApi_SetUserName, SbieApi_RenameFile and
SbieApi_CreateDirOrLink hand to SbieApi_Ioctl describes one of the input strings
s: its buffer is the address of s, its current length is 2*len(s), its maximum
length is the current length plus 2 and below 65536, so the current length is at
most the maximum length. -/
theorem C24_input_descriptor_lengths (c : Nat) (u : UNICODE_STRING64) :
    (∀ (L : API_SET_USER_NAME_ARGS) (SidString UserName : WSTR),
      wcslen SidString ≤ 32766 → wcslen UserName ≤ 32766 →
      Slot.str u ∈ SbieApi_SetUserName_parms c L SidString UserName →
      ∃ s, (s = SidString ∨ s = UserName) ∧ u.Buffer = s.ptr ∧ u.Length = 2 * wcslen s ∧
        u.MaximumLength = u.Length + 2 ∧ u.Length ≤ u.MaximumLength ∧
        u.MaximumLength < 65536) ∧
    (∀ (L : API_RENAME_FILE_ARGS) (FileHandle : Nat) (TargetDir TargetName : WSTR)
        (ReplaceIfExists : Nat),
      wcslen TargetDir ≤ 32766 → wcslen TargetName ≤ 32766 →
      Slot.str u ∈
        SbieApi_RenameFile_parms c L FileHandle TargetDir TargetName ReplaceIfExists →
      ∃ s, (s = TargetDir ∨ s = TargetName) ∧ u.Buffer = s.ptr ∧ u.Length = 2 * wcslen s ∧
        u.MaximumLength = u.Length + 2 ∧ u.Length ≤ u.MaximumLength ∧
        u.MaximumLength < 65536) ∧
    (∀ (L : API_CREATE_DIR_OR_LINK_ARGS) (ObjectName : WSTR) (TargetName : Option WSTR),
      wcslen ObjectName ≤ 32766 → (∀ t, TargetName = some t → wcslen t ≤ 32766) →
      Slot.str u ∈ SbieApi_CreateDirOrLink_parms c L ObjectName TargetName →
      ∃ s, (s = ObjectName ∨ TargetName = some s) ∧ u.Buffer = s.ptr ∧
        u.Length = 2 * wcslen s ∧ u.MaximumLength = u.Length + 2 ∧
        u.Length ≤ u.MaximumLength ∧ u.MaximumLength < 65536) := by
  have base : ∀ (i : Nat) (v : Nat), Slot.str u ∉ zeroFrame.set i (Slot.val v) := by
    intro i v h0
    rcases str_mem_set h0 with h1 | h1
    · exact str_not_mem_zeroFrame u h1
    · simp at h1
  refine ⟨?_, ?_, ?_⟩
  · intro L Sid User hs hu h
    simp only [SbieApi_SetUserName_parms] at h
    rcases str_mem_set h with h1 | h1
    · rcases str_mem_set h1 with h2 | h2
      · exact absurd h2 (base _ _)
      · simp only [Slot.str.injEq] at h2
        rw [← h2]
        exact ⟨Sid, Or.inl rfl, inputDescriptor_short Sid hs⟩
    · simp only [Slot.str.injEq] at h1
      rw [← h1]
      exact ⟨User, Or.inr rfl, inputDescriptor_short User hu⟩
  · intro L fh dir name rep hd hn h
    simp only [SbieApi_RenameFile_parms] at h
    rcases str_mem_set h with h1 | h1
    · rcases str_mem_set h1 with h2 | h2
      · rcases str_mem_set h2 with h3 | h3
        · rcases str_mem_set h3 with h4 | h4
          · exact absurd h4 (base _ _)
          · simp at h4
        · simp only [Slot.str.injEq] at h3
          rw [← h3]
          exact ⟨dir, Or.inl rfl, inputDescriptor_short dir hd⟩
      · simp only [Slot.str.injEq] at h2
        rw [← h2]
        exact ⟨name, Or.inr rfl, inputDescriptor_short name hn⟩
    · simp at h1
  · intro L obj tgt ho ht h
    simp only [SbieApi_CreateDirOrLink_parms] at h
    have hobj : Slot.str u ∈ (zeroFrame.set L.func_code (Slot.val c)).set L.objname
        (Slot.str (inputDescriptor obj)) →
        ∃ s, (s = obj ∨ tgt = some s) ∧ u.Buffer = s.ptr ∧
          u.Length = 2 * wcslen s ∧ u.MaximumLength = u.Length + 2 ∧
          u.Length ≤ u.MaximumLength ∧ u.MaximumLength < 65536 := by
      intro h0
      rcases str_mem_set h0 with h1 | h1
      · exact absurd h1 (base _ _)
      · simp only [Slot.str.injEq] at h1
        rw [← h1]
        exact ⟨obj, Or.inl rfl, inputDescriptor_short obj ho⟩
    cases tgt with
    | none => exact hobj h
    | some t =>
      simp only at h
      rcases str_mem_set h with h1 | h1
      · exact hobj h1
      · simp only [Slot.str.injEq] at h1
        rw [← h1]
        exact ⟨t, Or.inr rfl, inputDescriptor_short t (ht t rfl)⟩

/-- Witness for C24 (amended): SbieApi_SetUserName for the SID string "S-1" and
the user name "bob". -/
theorem C24_input_descriptor_lengths_witness :
    Slot.str ⟨6, 8, 2000⟩ ∈
      SbieApi_SetUserName_parms 7 ⟨0, 1, 2⟩ ⟨1000, [83, 45, 49]⟩ ⟨2000, [98, 111, 98]⟩ ∧
    ∃ s : WSTR, (s = ⟨1000, [83, 45, 49]⟩ ∨ s = ⟨2000, [98, 111, 98]⟩) ∧
      (2000 : Nat) = s.ptr ∧ 6 = 2 * wcslen s ∧ (8 : Nat) = 6 + 2 ∧ (6 : Nat) ≤ 8 ∧
      (8 : Nat) < 65536 :=
  ⟨by decide,
   (C24_input_descriptor_lengths 7 ⟨6, 8, 2000⟩).1 ⟨0, 1, 2⟩ ⟨1000, [83, 45, 49]⟩
     ⟨2000, [98, 111, 98]⟩ (by decide) (by decide) (by decide)⟩

/-! ### The configuration queries -/

/-- C27 (the code at the failing input): a refused SbieApi_QueryConf call with an
output buffer of 2 bytes at address 1000 returns the failure status and leaves
the stale character 'A' in out_buffer[0]; with a buffer of 3 bytes the same call
stores the terminator there. -/
theorem C27_two_byte_buffer_not_reset :
    (SbieApi_QueryConf 13 refusingKernel (initialState staleMem) zeroFrame none none 0 1000 2).1
      = STATUS_ACCESS_DENIED ∧
    NT_SUCCESS (SbieApi_QueryConf 13 refusingKernel (initialState staleMem) zeroFrame none none
      0 1000 2).1 = false ∧
    (SbieApi_QueryConf 13 refusingKernel (initialState staleMem) zeroFrame none none 0 1000
      2).2.mem 1000 = 65 ∧
    (SbieApi_QueryConf 13 refusingKernel (initialState staleMem) zeroFrame none none 0 1000
      3).2.mem 1000 = 0 := by
  refine ⟨by decide, by decide, by decide, by decide⟩

/-- On failure `SbieApi_QueryConf` stores the terminator in a buffer of more than 2
bytes; its status is the one of the request. -/
theorem SbieApi_QueryConf_failure (a : Nat) (k : Kernel) (st : ApiState) (stack : Frame)
    (section_name setting_name : Option WSTR) (setting_index out_buffer buffer_len : Nat) :
    (SbieApi_QueryConf a k st stack section_name setting_name setting_index out_buffer
      buffer_len).1 =
      (SbieApi_Ioctl k st (SbieApi_QueryConf_parms a stack section_name setting_name
        setting_index out_buffer buffer_len)).1 ∧
    (NT_SUCCESS (SbieApi_QueryConf a k st stack section_name setting_name setting_index
      out_buffer buffer_len).1 = false → 2 < buffer_len →
      (SbieApi_QueryConf a k st stack section_name setting_name setting_index out_buffer
        buffer_len).2.mem out_buffer = 0) := by
  simp only [SbieApi_QueryConf]
  generalize SbieApi_Ioctl k st _ = r
  constructor
  · split_ifs <;> rfl
  · intro hf hl
    have hs : NT_SUCCESS r.1 = false := by
      split_ifs at hf <;> exact hf
    have hn : ¬ (NT_SUCCESS r.1 = true) := by simp [hs]
    have hl2 : buffer_len > 2 := hl
    simp only [if_pos hn, if_pos hl2]
    simp [Mem.write]

/-- C29: SbieApi_QueryConfBool clears value[0] and makes one SbieApi_QueryConf call
for the section and setting, at index 0 with the no-expand flag, into the 32-byte
buffer `value`; it returns TRUE when value[0] is then 'y' or 'Y', FALSE when it is
'n' or 'N', and the default otherwise; whenever the query returns a failure
status it returns the default. -/
theorem C29_query_conf_bool (a f : Nat) (k : Kernel) (st : ApiState) (stack : Frame)
    (value : Nat) (section_name setting_name : Option WSTR) (def_ : Nat) :
    (SbieApi_QueryConfBool a f k st stack value section_name setting_name def_).2 =
      (SbieApi_QueryConf a k { st with mem := st.mem.write value 0 } stack section_name
        setting_name (0 ||| f) value 32).2 ∧
    (((SbieApi_QueryConf a k { st with mem := st.mem.write value 0 } stack section_name
        setting_name (0 ||| f) value 32).2.mem value = 'y'.toNat ∨
      (SbieApi_QueryConf a k { st with mem := st.mem.write value 0 } stack section_name
        setting_name (0 ||| f) value 32).2.mem value = 'Y'.toNat) →
      (SbieApi_QueryConfBool a f k st stack value section_name setting_name def_).1 = 1) ∧
    (((SbieApi_QueryConf a k { st with mem := st.mem.write value 0 } stack section_name
        setting_name (0 ||| f) value 32).2.mem value = 'n'.toNat ∨
      (SbieApi_QueryConf a k { st with mem := st.mem.write value 0 } stack section_name
        setting_name (0 ||| f) value 32).2.mem value = 'N'.toNat) →
      (SbieApi_QueryConfBool a f k st stack value section_name setting_name def_).1 = 0) ∧
    ((∀ ch ∈ ['y', 'Y', 'n', 'N'],
        (SbieApi_QueryConf a k { st with mem := st.mem.write value 0 } stack section_name
          setting_name (0 ||| f) value 32).2.mem value ≠ ch.toNat) →
      (SbieApi_QueryConfBool a f k st stack value section_name setting_name def_).1 = def_) ∧
    (NT_SUCCESS (SbieApi_QueryConf a k { st with mem := st.mem.write value 0 } stack
        section_name setting_name (0 ||| f) value 32).1 = false →
      (SbieApi_QueryConfBool a f k st stack value section_name setting_name def_).1 = def_) := by
  have hfail := (SbieApi_QueryConf_failure a k { st with mem := st.mem.write value 0 } stack
    section_name setting_name (0 ||| f) value 32).2
  simp only [SbieApi_QueryConfBool, Nat.reduceMul]
  generalize SbieApi_QueryConf a k { st with mem := st.mem.write value 0 } stack section_name
    setting_name (0 ||| f) value 32 = q at hfail ⊢
  have hy : 'y'.toNat = 121 := rfl
  have hY : 'Y'.toNat = 89 := rfl
  have hn : 'n'.toNat = 110 := rfl
  have hN : 'N'.toNat = 78 := rfl
  simp only [hy, hY, hn, hN]
  refine ⟨?_, ?_, ?_, ?_, ?_⟩
  · split_ifs <;> rfl
  · intro h
    rw [if_pos h]
  · intro h
    have h1 : ¬ (q.2.mem value = 121 ∨ q.2.mem value = 89) := by omega
    rw [if_neg h1, if_pos h]
  · intro h
    have e1 := h 'y' (by simp)
    have e2 := h 'Y' (by simp)
    have e3 := h 'n' (by simp)
    have e4 := h 'N' (by simp)
    simp only [hy, hY, hn, hN] at e1 e2 e3 e4
    have h1 : ¬ (q.2.mem value = 121 ∨ q.2.mem value = 89) := by omega
    have h2 : ¬ (q.2.mem value = 110 ∨ q.2.mem value = 78) := by omega
    rw [if_neg h1, if_neg h2]
  · intro h
    have h0 := hfail h (by decide)
    have h1 : ¬ (q.2.mem value = 121 ∨ q.2.mem value = 89) := by omega
    have h2 : ¬ (q.2.mem value = 110 ∨ q.2.mem value = 78) := by omega
    rw [if_neg h1, if_neg h2]

/-- Witness for C29: the driver is not available, the default 1 is returned. -/
theorem C29_query_conf_bool_witness :
    (SbieApi_QueryConfBool 13 1073741824 absentKernel (initialState staleMem) zeroFrame 1000
      none none 1).1 = 1 :=
  (C29_query_conf_bool 13 1073741824 absentKernel (initialState staleMem) zeroFrame 1000
    none none 1).2.2.2.2 (by decide)

/-! ### The enumeration of boxes -/

theorem toLONG_add (a b : Int) : toLONG (toLONG a + b) = toLONG (a + b) := by
  unfold toLONG
  omega

theorem toLONG_of_range (x : Int) (h1 : -2147483648 ≤ x) (h2 : x ≤ 2147483647) :
    toLONG x = x := by
  unfold toLONG
  omega

/-- One iteration of `SbieApi_EnumBoxesEx`, by the outcome of its query and of the
`SbieApi_IsBoxEnabled` call. -/
theorem SbieApi_EnumBoxesEx_step (a f b : Nat) (L : API_IS_BOX_ENABLED_ARGS) (k : Kernel)
    (stack : Frame) (box_name : Nat) (all : Bool) (fuel : Nat) (st : ApiState) (index : Int) :
    ((SbieApi_QueryConf a k st stack none none (LONG_to_ULONG (toLONG (index + 1)) ||| f)
        box_name 68).1 = STATUS_BUFFER_TOO_SMALL →
      SbieApi_EnumBoxesEx a f b L k stack box_name all (fuel + 1) st index =
        SbieApi_EnumBoxesEx a f b L k stack box_name all fuel
          (SbieApi_QueryConf a k st stack none none (LONG_to_ULONG (toLONG (index + 1)) ||| f)
            box_name 68).2 (toLONG (index + 1))) ∧
    ((SbieApi_QueryConf a k st stack none none (LONG_to_ULONG (toLONG (index + 1)) ||| f)
        box_name 68).1 ≠ STATUS_BUFFER_TOO_SMALL →
      (SbieApi_QueryConf a k st stack none none (LONG_to_ULONG (toLONG (index + 1)) ||| f)
        box_name 68).2.mem box_name = 0 →
      SbieApi_EnumBoxesEx a f b L k stack box_name all (fuel + 1) st index =
        some (-1, (SbieApi_QueryConf a k st stack none none
          (LONG_to_ULONG (toLONG (index + 1)) ||| f) box_name 68).2)) ∧
    ((SbieApi_QueryConf a k st stack none none (LONG_to_ULONG (toLONG (index + 1)) ||| f)
        box_name 68).1 ≠ STATUS_BUFFER_TOO_SMALL →
      (SbieApi_QueryConf a k st stack none none (LONG_to_ULONG (toLONG (index + 1)) ||| f)
        box_name 68).2.mem box_name ≠ 0 → all = true →
      SbieApi_EnumBoxesEx a f b L k stack box_name all (fuel + 1) st index =
        some (toLONG (index + 1), (SbieApi_QueryConf a k st stack none none
          (LONG_to_ULONG (toLONG (index + 1)) ||| f) box_name 68).2)) ∧
    ((SbieApi_QueryConf a k st stack none none (LONG_to_ULONG (toLONG (index + 1)) ||| f)
        box_name 68).1 ≠ STATUS_BUFFER_TOO_SMALL →
      (SbieApi_QueryConf a k st stack none none (LONG_to_ULONG (toLONG (index + 1)) ||| f)
        box_name 68).2.mem box_name ≠ 0 → all = false →
      (SbieApi_IsBoxEnabled b L k (SbieApi_QueryConf a k st stack none none
        (LONG_to_ULONG (toLONG (index + 1)) ||| f) box_name 68).2 box_name).1 =
        STATUS_SUCCESS →
      SbieApi_EnumBoxesEx a f b L k stack box_name all (fuel + 1) st index =
        some (toLONG (index + 1), (SbieApi_IsBoxEnabled b L k (SbieApi_QueryConf a k st stack
          none none (LONG_to_ULONG (toLONG (index + 1)) ||| f) box_name 68).2 box_name).2)) ∧
    ((SbieApi_QueryConf a k st stack none none (LONG_to_ULONG (toLONG (index + 1)) ||| f)
        box_name 68).1 ≠ STATUS_BUFFER_TOO_SMALL →
      (SbieApi_QueryConf a k st stack none none (LONG_to_ULONG (toLONG (index + 1)) ||| f)
        box_name 68).2.mem box_name ≠ 0 → all = false →
      (SbieApi_IsBoxEnabled b L k (SbieApi_QueryConf a k st stack none none
        (LONG_to_ULONG (toLONG (index + 1)) ||| f) box_name 68).2 box_name).1 ≠
        STATUS_SUCCESS →
      SbieApi_EnumBoxesEx a f b L k stack box_name all (fuel + 1) st index =
        SbieApi_EnumBoxesEx a f b L k stack box_name all fuel
          (SbieApi_IsBoxEnabled b L k (SbieApi_QueryConf a k st stack none none
            (LONG_to_ULONG (toLONG (index + 1)) ||| f) box_name 68).2 box_name).2
          (toLONG (index + 1))) := by
  simp only [SbieApi_EnumBoxesEx, Nat.reduceMul]
  generalize SbieApi_QueryConf a k st stack none none (LONG_to_ULONG (toLONG (index + 1)) ||| f)
    box_name 68 = q
  generalize hE : SbieApi_IsBoxEnabled b L k q.2 box_name = e
  refine ⟨fun h => ?_, fun h1 h2 => ?_, fun h1 h2 h3 => ?_, fun h1 h2 h3 h4 => ?_,
    fun h1 h2 h3 h4 => ?_⟩
  · rw [if_pos h]
  · rw [if_neg h1, if_pos h2]
  · rw [if_neg h1, if_neg h2, if_pos h3]
  · have h3' : ¬ (all = true) := by simp [h3]
    rw [if_neg h1, if_neg h2, if_neg h3', if_pos h4]
  · have h3' : ¬ (all = true) := by simp [h3]
    rw [if_neg h1, if_neg h2, if_neg h3', if_neg h4]

/-- C30 (as stated) fails: started at index 2147483647 with return_all_sections
set, on a machine whose driver accepts the query and leaves the name at
box_name non-empty, SbieApi_EnumBoxesEx returns -2147483648 with box_name
non-empty: neither -1 nor an index above the starting index. -/
theorem C30_index_wraps_at_maximum :
    (SbieApi_EnumBoxesEx 13 1073741824 14 ⟨0, 1⟩ acceptingKernel zeroFrame 1000 true 1
        (heldState staleMem) 2147483647).map (fun r => (r.1, r.2.mem 1000)) =
      some (-2147483648, 65) := by
  decide

/-- C30 (amended): whenever SbieApi_EnumBoxesEx returns, it has made n queries
(n at least 1), the last one at the index reached from the starting index by n
32-bit increments, and that query did not return STATUS_BUFFER_TOO_SMALL; either
the result is -1 and box_name is empty, or the result is that index, box_name
was left non-empty by that query and, unless return_all_sections is set, the
SbieApi_IsBoxEnabled call that follows returned STATUS_SUCCESS.  The index is
strictly greater than the starting index as long as the starting index plus n
does not exceed 2147483647.  In each iteration: a query that returns
STATUS_BUFFER_TOO_SMALL makes the loop go on with the next index; otherwise an
empty name makes the function return -1; a non-empty name makes it return the
index when return_all_sections is set or SbieApi_IsBoxEnabled returns
STATUS_SUCCESS, and go on with the next index when it does not.  If the first
query fails with a status other than STATUS_BUFFER_TOO_SMALL the result is -1
and the state is the one that query left. -/
theorem C30_enum_boxes_result (a f b : Nat) (L : API_IS_BOX_ENABLED_ARGS) (k : Kernel)
    (stack : Frame) (box_name : Nat) (all : Bool) :
    (∀ (fuel : Nat) (st : ApiState) (index res : Int) (st1 : ApiState),
      SbieApi_EnumBoxesEx a f b L k stack box_name all fuel st index = some (res, st1) →
      ∃ (stp : ApiState) (n : Nat), 1 ≤ n ∧ n ≤ fuel ∧
        (SbieApi_QueryConf a k stp stack none none
            (LONG_to_ULONG (toLONG (index + (n : Int))) ||| f) box_name 68).1 ≠ STATUS_BUFFER_TOO_SMALL ∧
        ((res = -1 ∧ st1.mem box_name = 0 ∧
            st1 = (SbieApi_QueryConf a k stp stack none none
            (LONG_to_ULONG (toLONG (index + (n : Int))) ||| f) box_name 68).2) ∨
         (res = toLONG (index + (n : Int)) ∧
            (SbieApi_QueryConf a k stp stack none none
            (LONG_to_ULONG (toLONG (index + (n : Int))) ||| f) box_name 68).2.mem box_name ≠ 0 ∧
            ((all = true ∧
                st1 = (SbieApi_QueryConf a k stp stack none none
            (LONG_to_ULONG (toLONG (index + (n : Int))) ||| f) box_name 68).2) ∨
             (all = false ∧
                (SbieApi_IsBoxEnabled b L k
              (SbieApi_QueryConf a k stp stack none none
            (LONG_to_ULONG (toLONG (index + (n : Int))) ||| f) box_name 68).2 box_name) = (STATUS_SUCCESS, st1))))) ∧
        (-2147483648 ≤ index → index + (n : Int) ≤ 2147483647 →
          index < toLONG (index + (n : Int)))) ∧
    (∀ (fuel : Nat) (st : ApiState) (index : Int),
      ((SbieApi_QueryConf a k st stack none none (LONG_to_ULONG (toLONG (index + 1)) ||| f)
          box_name 68).1 = STATUS_BUFFER_TOO_SMALL →
        SbieApi_EnumBoxesEx a f b L k stack box_name all (fuel + 1) st index =
          SbieApi_EnumBoxesEx a f b L k stack box_name all fuel
            (SbieApi_QueryConf a k st stack none none (LONG_to_ULONG (toLONG (index + 1)) ||| f)
          box_name 68).2 (toLONG (index + 1))) ∧
      ((SbieApi_QueryConf a k st stack none none (LONG_to_ULONG (toLONG (index + 1)) ||| f)
          box_name 68).1 ≠ STATUS_BUFFER_TOO_SMALL →
        (SbieApi_QueryConf a k st stack none none (LONG_to_ULONG (toLONG (index + 1)) ||| f)
          box_name 68).2.mem box_name = 0 →
        SbieApi_EnumBoxesEx a f b L k stack box_name all (fuel + 1) st index =
          some (-1, (SbieApi_QueryConf a k st stack none none (LONG_to_ULONG (toLONG (index + 1)) ||| f)
          box_name 68).2)) ∧
      ((SbieApi_QueryConf a k st stack none none (LONG_to_ULONG (toLONG (index + 1)) ||| f)
          box_name 68).1 ≠ STATUS_BUFFER_TOO_SMALL →
        (SbieApi_QueryConf a k st stack none none (LONG_to_ULONG (toLONG (index + 1)) ||| f)
          box_name 68).2.mem box_name ≠ 0 → all = true →
        SbieApi_EnumBoxesEx a f b L k stack box_name all (fuel + 1) st index =
          some (toLONG (index + 1), (SbieApi_QueryConf a k st stack none none (LONG_to_ULONG (toLONG (index + 1)) ||| f)
          box_name 68).2)) ∧
      ((SbieApi_QueryConf a k st stack none none (LONG_to_ULONG (toLONG (index + 1)) ||| f)
          box_name 68).1 ≠ STATUS_BUFFER_TOO_SMALL →
        (SbieApi_QueryConf a k st stack none none (LONG_to_ULONG (toLONG (index + 1)) ||| f)
          box_name 68).2.mem box_name ≠ 0 → all = false →
        (SbieApi_IsBoxEnabled b L k
          (SbieApi_QueryConf a k st stack none none (LONG_to_ULONG (toLONG (index + 1)) ||| f)
          box_name 68).2 box_name).1 = STATUS_SUCCESS →
        SbieApi_EnumBoxesEx a f b L k stack box_name all (fuel + 1) st index =
          some (toLONG (index + 1), (SbieApi_IsBoxEnabled b L k
          (SbieApi_QueryConf a k st stack none none (LONG_to_ULONG (toLONG (index + 1)) ||| f)
          box_name 68).2 box_name).2)) ∧
      ((SbieApi_QueryConf a k st stack none none (LONG_to_ULONG (toLONG (index + 1)) ||| f)
          box_name 68).1 ≠ STATUS_BUFFER_TOO_SMALL →
        (SbieApi_QueryConf a k st stack none none (LONG_to_ULONG (toLONG (index + 1)) ||| f)
          box_name 68).2.mem box_name ≠ 0 → all = false →
        (SbieApi_IsBoxEnabled b L k
          (SbieApi_QueryConf a k st stack none none (LONG_to_ULONG (toLONG (index + 1)) ||| f)
          box_name 68).2 box_name).1 ≠ STATUS_SUCCESS →
        SbieApi_EnumBoxesEx a f b L k stack box_name all (fuel + 1) st index =
          SbieApi_EnumBoxesEx a f b L k stack box_name all fuel
            (SbieApi_IsBoxEnabled b L k
          (SbieApi_QueryConf a k st stack none none (LONG_to_ULONG (toLONG (index + 1)) ||| f)
          box_name 68).2 box_name).2 (toLONG (index + 1))) ∧
      (NT_SUCCESS (SbieApi_QueryConf a k st stack none none (LONG_to_ULONG (toLONG (index + 1)) ||| f)
          box_name 68).1 = false →
        (SbieApi_QueryConf a k st stack none none (LONG_to_ULONG (toLONG (index + 1)) ||| f)
          box_name 68).1 ≠ STATUS_BUFFER_TOO_SMALL →
        SbieApi_EnumBoxesEx a f b L k stack box_name all (fuel + 1) st index =
          some (-1, (SbieApi_QueryConf a k st stack none none (LONG_to_ULONG (toLONG (index + 1)) ||| f)
          box_name 68).2))) := by
  refine ⟨?_, fun fuel st index => ?_⟩
  · intro fuel
    induction fuel with
    | zero =>
      intro st index res st1 h
      simp [SbieApi_EnumBoxesEx] at h
    | succ fuel ih =>
      intro st index res st1 h
      obtain ⟨s1, s2, s3, s4, s5⟩ :=
        SbieApi_EnumBoxesEx_step a f b L k stack box_name all fuel st index
      have one : toLONG (index + ((1 : Nat) : Int)) = toLONG (index + 1) := by simp
      have hlt : -2147483648 ≤ index → index + ((1 : Nat) : Int) ≤ 2147483647 →
          index < toLONG (index + ((1 : Nat) : Int)) := by
        intro h1 h2
        rw [toLONG_of_range _ (by omega) h2]
        omega
      have next : ∀ (sx : ApiState),
          SbieApi_EnumBoxesEx a f b L k stack box_name all fuel sx (toLONG (index + 1)) = some (res, st1) →
          ∃ (stp : ApiState) (n : Nat), 1 ≤ n ∧ n ≤ fuel + 1 ∧
            (SbieApi_QueryConf a k stp stack none none
            (LONG_to_ULONG (toLONG (index + (n : Int))) ||| f) box_name 68).1 ≠ STATUS_BUFFER_TOO_SMALL ∧
            ((res = -1 ∧ st1.mem box_name = 0 ∧
                st1 = (SbieApi_QueryConf a k stp stack none none
            (LONG_to_ULONG (toLONG (index + (n : Int))) ||| f) box_name 68).2) ∨
             (res = toLONG (index + (n : Int)) ∧
                (SbieApi_QueryConf a k stp stack none none
            (LONG_to_ULONG (toLONG (index + (n : Int))) ||| f) box_name 68).2.mem box_name ≠ 0 ∧
                ((all = true ∧
                    st1 = (SbieApi_QueryConf a k stp stack none none
            (LONG_to_ULONG (toLONG (index + (n : Int))) ||| f) box_name 68).2) ∨
                 (all = false ∧
                    (SbieApi_IsBoxEnabled b L k
              (SbieApi_QueryConf a k stp stack none none
            (LONG_to_ULONG (toLONG (index + (n : Int))) ||| f) box_name 68).2 box_name) = (STATUS_SUCCESS, st1))))) ∧
            (-2147483648 ≤ index → index + (n : Int) ≤ 2147483647 →
              index < toLONG (index + (n : Int))) := by
        intro sx hx
        obtain ⟨stp, m, m1, m2, m3, m4, _⟩ := ih sx (toLONG (index + 1)) res st1 hx
        have e : toLONG (toLONG (index + 1) + (m : Int)) =
            toLONG (index + ((m + 1 : Nat) : Int)) := by
          rw [toLONG_add]
          congr 1
          push_cast
          omega
        rw [e] at m3 m4
        refine ⟨stp, m + 1, by omega, by omega, m3, m4, ?_⟩
        intro h1 h2
        rw [toLONG_of_range _ (by omega) h2]
        push_cast
        omega
      by_cases hs : (SbieApi_QueryConf a k st stack none none (LONG_to_ULONG (toLONG (index + 1)) ||| f)
          box_name 68).1 = STATUS_BUFFER_TOO_SMALL
      · rw [s1 hs] at h
        exact next _ h
      · by_cases he : (SbieApi_QueryConf a k st stack none none (LONG_to_ULONG (toLONG (index + 1)) ||| f)
          box_name 68).2.mem box_name = 0
        · rw [s2 hs he] at h
          simp only [Option.some.injEq, Prod.mk.injEq] at h
          refine ⟨st, 1, by omega, by omega, by rw [one]; exact hs, Or.inl ?_, hlt⟩
          rw [one]
          exact ⟨h.1.symm, by rw [← h.2]; exact he, h.2.symm⟩
        · by_cases ha : all = true
          · rw [s3 hs he ha] at h
            simp only [Option.some.injEq, Prod.mk.injEq] at h
            refine ⟨st, 1, by omega, by omega, by rw [one]; exact hs, Or.inr ?_, hlt⟩
            rw [one]
            exact ⟨h.1.symm, he, Or.inl ⟨ha, h.2.symm⟩⟩
          · have ha' : all = false := by simpa using ha
            by_cases hok : (SbieApi_IsBoxEnabled b L k
          (SbieApi_QueryConf a k st stack none none (LONG_to_ULONG (toLONG (index + 1)) ||| f)
          box_name 68).2 box_name).1 = STATUS_SUCCESS
            · rw [s4 hs he ha' hok] at h
              simp only [Option.some.injEq, Prod.mk.injEq] at h
              refine ⟨st, 1, by omega, by omega, by rw [one]; exact hs, Or.inr ?_, hlt⟩
              rw [one]
              refine ⟨h.1.symm, he, Or.inr ⟨ha', ?_⟩⟩
              rw [← h.2, ← hok]
            · rw [s5 hs he ha' hok] at h
              exact next _ h
  · obtain ⟨s1, s2, s3, s4, s5⟩ :=
      SbieApi_EnumBoxesEx_step a f b L k stack box_name all fuel st index
    refine ⟨s1, s2, s3, s4, s5, fun hf hq => s2 hq ?_⟩
    exact (SbieApi_QueryConf_failure a k st stack none none
      (LONG_to_ULONG (toLONG (index + 1)) ||| f) box_name 68).2 hf (by decide)

/-- Witness for C30 (amended): started at -1 on a machine whose driver answers
the first query with STATUS_BUFFER_TOO_SMALL and the second with the name "B",
the enumeration of all sections skips index 0 and returns index 1. -/
theorem C30_enum_boxes_result_witness :
    SbieApi_EnumBoxesEx 13 1073741824 14 ⟨0, 1⟩ smallThenNameKernel zeroFrame 1000 true 2
        (heldState staleMem) (-1) =
      some (toLONG (toLONG (-1 + 1) + 1),
        (SbieApi_QueryConf 13 smallThenNameKernel
          (SbieApi_QueryConf 13 smallThenNameKernel (heldState staleMem) zeroFrame none none
            (LONG_to_ULONG (toLONG (-1 + 1)) ||| 1073741824) 1000 68).2
          zeroFrame none none (LONG_to_ULONG (toLONG (toLONG (-1 + 1) + 1)) ||| 1073741824)
          1000 68).2) ∧
    toLONG (toLONG (-1 + 1) + 1) = 1 :=
  ⟨(((C30_enum_boxes_result 13 1073741824 14 ⟨0, 1⟩ smallThenNameKernel zeroFrame 1000
        true).2 1 (heldState staleMem) (-1)).1 (by decide)).trans
    (((C30_enum_boxes_result 13 1073741824 14 ⟨0, 1⟩ smallThenNameKernel zeroFrame 1000
        true).2 0 _ (toLONG (-1 + 1))).2.2.1 (by decide) (by decide) rfl),
   by decide⟩

/-! ### The text of the cancellation log -/

/-- C26 (the code at the failing input): for a cancel message with reason 0 and
the process name "a%%b.exe", CancelProcess passes the name as the format of its
log call, and the text relayed by SbieApi_vLogEx is "a%b.exe": 7 characters, 14
bytes in the descriptor handed to the driver, not the 8 characters of the name.
With a non-zero reason the same name is relayed unchanged, as an argument. -/
theorem C26_percent_in_name_not_relayed :
    (CancelProcess liveProcessWorld percentMsg []).getLast? =
      some (Ev.SbieApi_LogEx 1 2314 "a%%b.exe" []) ∧
    (Ev.SbieApi_LogEx 1 2314 "a%%b.exe" []).logText = some (String.toList "a%b.exe") ∧
    (Ev.SbieApi_LogEx 1 2314 "a%%b.exe" []).logText ≠ some (String.toList "a%%b.exe") ∧
    ((SbieApi_LogEx 9 ⟨0, 1, 2, 3⟩ acceptingKernel (heldState staleMem) 5000 1 2314
        (some (String.toList "a%%b.exe")) []).map fun r => requestFrames r.2.calls) =
      some [[Slot.val 9, Slot.val 1, Slot.val 2314, Slot.str ⟨14, 16, 5000⟩, Slot.val 0,
        Slot.val 0, Slot.val 0, Slot.val 0]] ∧
    SbieApi_vLogEx_text (some (String.toList "%S [%d / %d]"))
        [LogArg.str "a%%b.exe", LogArg.num 1234, LogArg.num 5] =
      some (String.toList "a%%b.exe [1234 / 5]") := by
  refine ⟨by decide, by decide, by decide, by decide, by decide⟩

end Sandboxie
